import Mathlib

/-!
# Peer-to-peer DMA page-table release (nv-p2p.c)

A shallow embedding of `kernel-open/nvidia/nv-p2p.c`: the status and page-size
translators, the DMA-mapping registry, the mapping teardown, the page-table
release protocol, the rsync driver registration and the rsync register
discovery; and of the constructor of `RmClientResource` in
`generated/g_client_resource_nvoc.c`.  Pointers are natural numbers with
`NULL = 0`; every function returns the values the C function returns or
writes, together with the trace of the external calls it makes, in program
order.
-/

namespace NvP2p

/-! ## Data model -/

/-- A C pointer value. -/
abbrev Ptr := Nat

/-- The null pointer. -/
def NULL : Ptr := 0

/-- The type `NV_STATUS`, an unsigned 32-bit status code. -/
abbrev NV_STATUS := Nat

/-- Modelled from the spec: the status "ok" of `nvstatuscodes.h`, a header that is
not among the sources. -/
def NV_OK : NV_STATUS := 0

/-- Modelled from the spec: the status "object not found" of `nvstatuscodes.h`, a
header that is not among the sources; only its being different from `NV_OK`
matters here. -/
def NV_ERR_OBJECT_NOT_FOUND : NV_STATUS := 0x57

/-- Modelled from the spec: the byte sizes `NVRM_P2P_PAGESIZE_SMALL_4K`,
`NVRM_P2P_PAGESIZE_BIG_64K`, `NVRM_P2P_PAGESIZE_BIG_128K` of `rmp2pdefines.h`
(not among the sources), the set {4K, 64K, 128K} of the spec, in the order of
the initialiser of `nvidia_p2p_page_size_mappings`. -/
def nvidia_p2p_page_size_mappings : List Nat := [4096, 65536, 131072]

/-- The registry node `struct nv_p2p_dma_mapping`: `node` is the address of the
allocation that holds the node (and its `list_node`), `dma_mapping` the
wrapped mapping pointer. -/
structure nv_p2p_dma_mapping where
  node : Ptr
  dma_mapping : Ptr
  deriving DecidableEq

/-- The fields of `struct nvidia_p2p_dma_mapping` that nv-p2p.c reads.
`pci_dev` stands for `&pci_dev->dev`, `dma_mask` for `pci_dev->dma_mask`,
`dma_addresses` is the array pointer and `dma_addresses_mem` the array it
points to, `priv` is the field `private`. -/
structure nvidia_p2p_dma_mapping where
  pci_dev : Ptr
  dma_mask : Nat
  page_size_type : Nat
  entries : Nat
  dma_addresses : Ptr
  dma_addresses_mem : List Nat
  priv : Ptr
  deriving DecidableEq

/-- The fields of `struct nvidia_p2p_page_table` that nv-p2p.c reads: `pages`
is the array pointer, `pages_mem` the page-descriptor pointers `pages[i]`. -/
structure nvidia_p2p_page_table where
  entries : Nat
  pages : Ptr
  pages_mem : List Ptr
  gpu_uuid : Ptr
  deriving DecidableEq

/-- The region `struct nv_p2p_mem_info`.  `dma_mapping_list` is the content of
the intrusive list `dma_mapping_list.list_head`, head first; `priv` is the
field `private`. -/
structure nv_p2p_mem_info where
  free_callback : Ptr
  data : Ptr
  page_table : nvidia_p2p_page_table
  dma_mapping_list : List nv_p2p_dma_mapping
  bPersistent : Bool
  priv : Ptr
  deriving DecidableEq

/-- The device context `nv_dma_device_t` built by `nv_p2p_free_dma_mapping`:
the device handle and `addressable_range.limit`. -/
structure nv_dma_device_t where
  dev : Ptr
  limit : Nat
  deriving DecidableEq

/-- The scalar fields of the region (of `nv_p2p_mem_info` and of the page
table embedded in it) whose reads are recorded. -/
inductive Field where
  | bPersistent
  | priv
  | entries
  | pages
  | gpu_uuid
  | free_callback
  | data
  deriving DecidableEq

/-- The pointer handed to `os_free_mem`, tagged with the static type it has at
the call site. -/
inductive Obj where
  | node (p : Ptr)
  | dma_addresses (p : Ptr)
  | dma_mapping (p : Ptr)
  | gpu_uuid (p : Ptr)
  | pages (p : Ptr)
  | mem_info (page_table : Ptr)
  | rsync_regs (p : Ptr)
  | rsync_reg_info (p : Ptr)
  deriving DecidableEq

/-- One observable step: a call of an external function with its arguments, or
a read (`load`) of a scalar field of the region.  `mem_info page_table` in
`Obj` is `container_of(page_table, nv_p2p_mem_info_t, page_table)`;
`free_callback fn data` is the call `mem_info->free_callback(mem_info->data)`;
`nv_linux_devices_read` is a read of the global device list (its head
`nv_linux_devices` or a link `nvl->next`); `nv_ioremap_nocache` carries the
pointer it returns. -/
inductive Event where
  | load (f : Field)
  | rm_p2p_put_pages_persistent (sp : Ptr) (priv : Ptr) (page_table : Ptr)
  | rm_p2p_put_pages (sp : Ptr) (p2p_token va_space virtual_address : Nat) (page_table : Ptr)
  | os_alloc_mem (status : NV_STATUS) (p : Ptr)
  | down
  | up
  | list_add_tail (node : Ptr)
  | list_del (node : Ptr)
  | os_free_mem (o : Obj)
  | NV_KMEM_CACHE_FREE (page : Ptr)
  | WARN_ON
  | nv_dma_unmap_alloc (dev : nv_dma_device_t) (entries : Nat) (dma_addresses : Ptr) (priv : Ptr)
  | nv_dma_unmap_peer (dev : nv_dma_device_t) (page_count : Nat) (dma_address : Nat)
  | free_callback (fn : Ptr) (data : Ptr)
  | nv_register_rsync_driver (get_relaxed_ordering_mode put_relaxed_ordering_mode
      wait_for_rsync : Ptr) (data : Ptr)
  | nv_unregister_rsync_driver (get_relaxed_ordering_mode put_relaxed_ordering_mode
      wait_for_rsync : Ptr) (data : Ptr)
  | LOCK_NV_LINUX_DEVICES
  | UNLOCK_NV_LINUX_DEVICES
  | nv_linux_devices_read
  | nv_get_ibmnpu_genreg_info (nv : Ptr)
  | nv_ioremap_nocache (addr size : Nat) (ptr : Ptr)
  | nv_get_ibmnpu_chip_id (nv : Ptr)
  | nv_iounmap (ptr : Ptr) (size : Nat)
  deriving DecidableEq

/-- The external collaborators: the native page size `PAGE_SIZE`, the status
returned by the platform batch unmap, and the statuses returned by the two
unlink calls of the resource manager. -/
structure Platform where
  PAGE_SIZE : Nat
  nv_dma_unmap_alloc : nv_dma_device_t → Nat → Ptr → Ptr → NV_STATUS
  rm_p2p_put_pages_persistent : Ptr → Ptr → Ptr → NV_STATUS
  rm_p2p_put_pages : Ptr → Nat → Nat → Nat → Ptr → NV_STATUS

/-- The memory holding the mapping structures: `mem p` is the structure that
the mapping pointer `p` points to. -/
abbrev MappingMem := Ptr → nvidia_p2p_dma_mapping

/-! ## The registry -/

/-- The function `nv_p2p_insert_dma_mapping`.  `alloc_status` and `node` are what
`os_alloc_mem` returns and stores.  Returns the status and the region. -/
def nv_p2p_insert_dma_mapping (alloc_status : NV_STATUS) (node : Ptr)
    (mem_info : nv_p2p_mem_info) (dma_mapping : Ptr) :
    NV_STATUS × nv_p2p_mem_info × List Event :=
  if alloc_status ≠ NV_OK then
    (alloc_status, mem_info, [Event.os_alloc_mem alloc_status node])
  else
    (NV_OK,
     { mem_info with
       dma_mapping_list := mem_info.dma_mapping_list ++ [⟨node, dma_mapping⟩] },
     [Event.os_alloc_mem alloc_status node, Event.down, Event.list_add_tail node,
      Event.up])

/-- The `list_for_each_entry` loop of `nv_p2p_remove_dma_mapping`: returns
`ret_dma_mapping`, the list after the loop and the calls made. -/
def nv_p2p_remove_dma_mapping_scan (dma_mapping : Ptr) :
    List nv_p2p_dma_mapping → Ptr × List nv_p2p_dma_mapping × List Event
  | [] => (NULL, [], [])
  | cur :: rest =>
    if dma_mapping = NULL ∨ dma_mapping = cur.dma_mapping then
      (cur.dma_mapping, rest,
       [Event.list_del cur.node, Event.os_free_mem (Obj.node cur.node)])
    else
      let r := nv_p2p_remove_dma_mapping_scan dma_mapping rest
      (r.1, cur :: r.2.1, r.2.2)

/-- The function `nv_p2p_remove_dma_mapping`: the scan, between `down` and `up` of
the region lock. -/
def nv_p2p_remove_dma_mapping (mem_info : nv_p2p_mem_info) (dma_mapping : Ptr) :
    Ptr × nv_p2p_mem_info × List Event :=
  let r := nv_p2p_remove_dma_mapping_scan dma_mapping mem_info.dma_mapping_list
  (r.1, { mem_info with dma_mapping_list := r.2.1 },
   [Event.down] ++ r.2.2 ++ [Event.up])

/-! ## Mapping teardown -/

/-- The function `nv_p2p_free_dma_mapping`, on the mapping structure at
`dma_mapping`.  A table index out of range reads 0 here (in C it is out of
bounds). -/
def nv_p2p_free_dma_mapping (K : Platform) (mem : MappingMem) (dma_mapping : Ptr) :
    List Event :=
  let m := mem dma_mapping
  let peer_dma_dev : nv_dma_device_t := ⟨m.pci_dev, m.dma_mask⟩
  let page_size := nvidia_p2p_page_size_mappings.getD m.page_size_type 0
  (if m.priv ≠ NULL then
    (if page_size ≠ K.PAGE_SIZE then [Event.WARN_ON] else []) ++
    [Event.nv_dma_unmap_alloc peer_dma_dev m.entries m.dma_addresses m.priv] ++
    (if K.nv_dma_unmap_alloc peer_dma_dev m.entries m.dma_addresses m.priv ≠ NV_OK
      then [Event.WARN_ON] else [])
  else
    (List.range m.entries).map (fun i =>
      Event.nv_dma_unmap_peer peer_dma_dev (page_size / K.PAGE_SIZE)
        (m.dma_addresses_mem.getD i 0))) ++
  [Event.os_free_mem (Obj.dma_addresses m.dma_addresses),
   Event.os_free_mem (Obj.dma_mapping dma_mapping)]

/-- The `while (dma_mapping != NULL)` loop of `nv_p2p_free_page_table`; `fuel`
bounds the number of times the loop condition is evaluated, and `none` means
the bound was reached. -/
def nv_p2p_free_page_table_loop (K : Platform) (mem : MappingMem) :
    Nat → Ptr → nv_p2p_mem_info → Option (nv_p2p_mem_info × List Event)
  | 0, _, _ => none
  | fuel + 1, dma_mapping, mem_info =>
    if dma_mapping ≠ NULL then
      let r := nv_p2p_remove_dma_mapping mem_info NULL
      match nv_p2p_free_page_table_loop K mem fuel r.1 r.2.1 with
      | none => none
      | some (mi, t) =>
        some (mi, nv_p2p_free_dma_mapping K mem dma_mapping ++ r.2.2 ++ t)
    else
      some (mem_info, [])

/-- The part of `nv_p2p_free_page_table` after the drain loop, for the page table
`pt` at `page_table`: the page-descriptor loop, the two conditional frees and
the free of the region. -/
def nv_p2p_free_page_table_tail (page_table : Ptr) (pt : nvidia_p2p_page_table) :
    List Event :=
  (List.range pt.entries).flatMap (fun i =>
    [Event.load Field.entries, Event.load Field.pages,
     Event.NV_KMEM_CACHE_FREE (pt.pages_mem.getD i NULL)]) ++
  [Event.load Field.entries] ++
  [Event.load Field.gpu_uuid] ++
  (if pt.gpu_uuid ≠ NULL then
    [Event.load Field.gpu_uuid, Event.os_free_mem (Obj.gpu_uuid pt.gpu_uuid)]
   else []) ++
  [Event.load Field.pages] ++
  (if pt.pages ≠ NULL then
    [Event.load Field.pages, Event.os_free_mem (Obj.pages pt.pages)]
   else []) ++
  [Event.os_free_mem (Obj.mem_info page_table)]

/-- The function `nv_p2p_free_page_table` on the table at `page_table`, embedded in
the region `mem_info`.  Returns the region as it is when it is freed. -/
def nv_p2p_free_page_table (K : Platform) (mem : MappingMem) (fuel : Nat)
    (page_table : Ptr) (mem_info : nv_p2p_mem_info) :
    Option (nv_p2p_mem_info × List Event) :=
  let r := nv_p2p_remove_dma_mapping mem_info NULL
  match nv_p2p_free_page_table_loop K mem fuel r.1 r.2.1 with
  | none => none
  | some (mi, t) =>
    some (mi, r.2.2 ++ t ++ nv_p2p_free_page_table_tail page_table mi.page_table)

/-! ## The release protocol -/

/-- What `nv_p2p_put_pages` leaves behind: the returned status, the caller's
handle `*page_table`, the region, and the calls made. -/
structure put_pages_result where
  status : NV_STATUS
  page_table : Ptr
  mem_info : nv_p2p_mem_info
  trace : List Event

/-- The first statement of `nv_p2p_put_pages`: the unlink call chosen by
`bPersistent`.  Returns `status` and the steps made. -/
def nv_p2p_put_pages_unlink (K : Platform) (sp : Ptr)
    (p2p_token va_space virtual_address : Nat)
    (page_table : Ptr) (mem_info : nv_p2p_mem_info) : NV_STATUS × List Event :=
  if mem_info.bPersistent then
    (K.rm_p2p_put_pages_persistent sp mem_info.priv page_table,
     [Event.load Field.bPersistent, Event.load Field.priv,
      Event.rm_p2p_put_pages_persistent sp mem_info.priv page_table])
  else
    (K.rm_p2p_put_pages sp p2p_token va_space virtual_address page_table,
     [Event.load Field.bPersistent,
      Event.rm_p2p_put_pages sp p2p_token va_space virtual_address page_table])

/-- The function `nv_p2p_put_pages`; `page_table` is the caller's handle `*page_table`
and `mem_info` the region it points into. -/
def nv_p2p_put_pages (K : Platform) (mem : MappingMem) (fuel : Nat)
    (sp : Ptr) (p2p_token va_space virtual_address : Nat)
    (page_table : Ptr) (mem_info : nv_p2p_mem_info) : Option put_pages_result :=
  let call := nv_p2p_put_pages_unlink K sp p2p_token va_space virtual_address
    page_table mem_info
  let status := call.1
  if status = NV_OK then
    match nv_p2p_free_page_table K mem fuel page_table mem_info with
    | none => none
    | some (mi, t) => some ⟨status, NULL, mi, call.2 ++ t⟩
  else if ¬ mem_info.bPersistent ∧ status = NV_ERR_OBJECT_NOT_FOUND then
    some ⟨NV_OK, NULL, mem_info, call.2 ++ [Event.load Field.bPersistent]⟩
  else
    some ⟨status, page_table, mem_info,
      call.2 ++ [Event.load Field.bPersistent, Event.WARN_ON]⟩

/-! ## Status and page-size translation -/

/-- Modelled from the spec: the status "generic failure" of `nvstatuscodes.h` (not
among the sources).  Of this and the following status codes only their being
pairwise different matters. -/
def NV_ERR_GENERIC : NV_STATUS := 0xFFFF

/-- Modelled from the spec: the status "insufficient resources" of
`nvstatuscodes.h` (not among the sources). -/
def NV_ERR_INSUFFICIENT_RESOURCES : NV_STATUS := 0x1A

/-- Modelled from the spec: the status "no memory" of `nvstatuscodes.h` (not among
the sources). -/
def NV_ERR_NO_MEMORY : NV_STATUS := 0x51

/-- Modelled from the spec: the status "invalid argument" of `nvstatuscodes.h`
(not among the sources). -/
def NV_ERR_INVALID_ARGUMENT : NV_STATUS := 0x1F

/-- Modelled from the spec: the status "invalid object handle" of
`nvstatuscodes.h` (not among the sources). -/
def NV_ERR_INVALID_OBJECT_HANDLE : NV_STATUS := 0x33

/-- Modelled from the spec: the status "invalid state" of `nvstatuscodes.h` (not
among the sources). -/
def NV_ERR_INVALID_STATE : NV_STATUS := 0x40

/-- Modelled from the spec: the status "not supported" of `nvstatuscodes.h` (not
among the sources). -/
def NV_ERR_NOT_SUPPORTED : NV_STATUS := 0x56

/-- Modelled from the spec: the status "state in use" of `nvstatuscodes.h` (not
among the sources). -/
def NV_ERR_STATE_IN_USE : NV_STATUS := 0x63

/-- Modelled from the spec: the status "GPU UUID not found" of `nvstatuscodes.h`
(not among the sources). -/
def NV_ERR_GPU_UUID_NOT_FOUND : NV_STATUS := 0x12

/-- Modelled from the spec: the platform code "I/O error" (Linux `errno`, not among
the sources). -/
def EIO : Int := 5

/-- Modelled from the spec: the platform code "out of memory" (Linux `errno`). -/
def ENOMEM : Int := 12

/-- Modelled from the spec: the platform code "busy" (Linux `errno`). -/
def EBUSY : Int := 16

/-- Modelled from the spec: the platform code "no such device" (Linux `errno`). -/
def ENODEV : Int := 19

/-- Modelled from the spec: the platform code "invalid argument" (Linux `errno`). -/
def EINVAL : Int := 22

/-- Modelled from the spec: the platform code "not supported" (Linux `errno`). -/
def ENOTSUPP : Int := 524

/-- The table `nvidia_status_mappings`, in the order of its initialiser. -/
def nvidia_status_mappings : List (NV_STATUS × Int) :=
  [(NV_ERR_GENERIC, - EIO),
   (NV_ERR_INSUFFICIENT_RESOURCES, - ENOMEM),
   (NV_ERR_NO_MEMORY, - ENOMEM),
   (NV_ERR_INVALID_ARGUMENT, - EINVAL),
   (NV_ERR_INVALID_OBJECT_HANDLE, - EINVAL),
   (NV_ERR_INVALID_STATE, - EIO),
   (NV_ERR_NOT_SUPPORTED, - ENOTSUPP),
   (NV_ERR_OBJECT_NOT_FOUND, - EINVAL),
   (NV_ERR_STATE_IN_USE, - EBUSY),
   (NV_ERR_GPU_UUID_NOT_FOUND, - ENODEV),
   (NV_OK, 0)]

/-- The `for` loop of `nvidia_p2p_map_status` over the entries not yet visited:
`error` keeps its value unless an entry matches, and the first match ends the
loop. -/
def nvidia_p2p_map_status_loop (status : NV_STATUS) (error : Int) :
    List (NV_STATUS × Int) → Int
  | [] => error
  | entry :: rest =>
    if entry.1 = status then entry.2
    else nvidia_p2p_map_status_loop status error rest

/-- The function `nvidia_p2p_map_status`: `error` starts as `-EIO`. -/
def nvidia_p2p_map_status (status : NV_STATUS) : Int :=
  nvidia_p2p_map_status_loop status (- EIO) nvidia_status_mappings

/-- Modelled from the spec: the number of page-size classes
`NVIDIA_P2P_PAGE_SIZE_COUNT` of `nv-p2p.h` (not among the sources), the size of
the table {4K, 64K, 128K}. -/
def NVIDIA_P2P_PAGE_SIZE_COUNT : Nat := 3

/-- The `for` loop of `nvidia_p2p_map_page_size` from index `i` over the table
entries not yet visited: returns the value of `i` after the loop and the value
written to `*page_size_index`, if any. -/
def nvidia_p2p_map_page_size_loop (page_size : Nat) : List Nat → Nat → Nat × Option Nat
  | [], i => (i, none)
  | size :: rest, i =>
    if size = page_size then (i, some i)
    else nvidia_p2p_map_page_size_loop page_size rest (i + 1)

/-- The function `nvidia_p2p_map_page_size`: returns the status and the value
written to `*page_size_index` (`none` when nothing is written). -/
def nvidia_p2p_map_page_size (page_size : Nat) : NV_STATUS × Option Nat :=
  let r := nvidia_p2p_map_page_size_loop page_size nvidia_p2p_page_size_mappings 0
  if r.1 = NVIDIA_P2P_PAGE_SIZE_COUNT then (NV_ERR_GENERIC, r.2)
  else (NV_OK, r.2)

/-! ## Direct teardown -/

/-- The function `nv_p2p_free_platform_data`; `data` is the pointer to the page
table and `mem_info` the region it points into (for `data = NULL` there is
none, and the argument is returned as it is). -/
def nv_p2p_free_platform_data (K : Platform) (mem : MappingMem) (fuel : Nat)
    (data : Ptr) (mem_info : nv_p2p_mem_info) :
    Option (nv_p2p_mem_info × List Event) :=
  if data = NULL then some (mem_info, [Event.WARN_ON])
  else nv_p2p_free_page_table K mem fuel data mem_info

/-- The function `nv_p2p_mem_info_free_callback`; `page_table` is
`&mem_info->page_table`, the argument it gives to `nv_p2p_free_platform_data`. -/
def nv_p2p_mem_info_free_callback (K : Platform) (mem : MappingMem) (fuel : Nat)
    (page_table : Ptr) (mem_info : nv_p2p_mem_info) :
    Option (nv_p2p_mem_info × List Event) :=
  match nv_p2p_free_platform_data K mem fuel page_table mem_info with
  | none => none
  | some (mi, t) =>
    some (mi,
      [Event.load Field.free_callback, Event.load Field.data,
       Event.free_callback mem_info.free_callback mem_info.data] ++ t)

/-! ## Deprecated entry points -/

set_option linter.unusedVariables false in
/-- The function `nvidia_p2p_init_mapping`: returns the platform code and the calls
made (none). -/
def nvidia_p2p_init_mapping (p2p_token : Nat) (params destroy_callback data : Ptr) :
    Int × List Event :=
  (- ENOTSUPP, [])

set_option linter.unusedVariables false in
/-- The function `nvidia_p2p_destroy_mapping`: returns the platform code and the
calls made (none). -/
def nvidia_p2p_destroy_mapping (p2p_token : Nat) : Int × List Event :=
  (- ENOTSUPP, [])

/-! ## Rsync driver registration -/

/-- The fields of `nvidia_p2p_rsync_driver_t` that nv-p2p.c reads. -/
structure nvidia_p2p_rsync_driver_t where
  version : Nat
  get_relaxed_ordering_mode : Ptr
  put_relaxed_ordering_mode : Ptr
  wait_for_rsync : Ptr
  deriving DecidableEq

/-- The function `nvidia_p2p_register_rsync_driver`.  `driver` is `none` for a null
pointer; `compatible` is the macro
`NVIDIA_P2P_RSYNC_DRIVER_VERSION_COMPATIBLE` of `nv-p2p.h` (not among the
sources), and `nv_register` the value `nv_register_rsync_driver` returns. -/
def nvidia_p2p_register_rsync_driver (compatible : nvidia_p2p_rsync_driver_t → Bool)
    (nv_register : Ptr → Ptr → Ptr → Ptr → Int)
    (driver : Option nvidia_p2p_rsync_driver_t) (data : Ptr) : Int × List Event :=
  match driver with
  | none => (- EINVAL, [])
  | some d =>
    if ¬ compatible d then (- EINVAL, [])
    else if d.get_relaxed_ordering_mode = NULL ∨ d.put_relaxed_ordering_mode = NULL ∨
        d.wait_for_rsync = NULL then (- EINVAL, [])
    else
      (nv_register d.get_relaxed_ordering_mode d.put_relaxed_ordering_mode
          d.wait_for_rsync data,
       [Event.nv_register_rsync_driver d.get_relaxed_ordering_mode
          d.put_relaxed_ordering_mode d.wait_for_rsync data])

/-- The function `nvidia_p2p_unregister_rsync_driver`: the calls it makes. -/
def nvidia_p2p_unregister_rsync_driver (compatible : nvidia_p2p_rsync_driver_t → Bool)
    (driver : Option nvidia_p2p_rsync_driver_t) (data : Ptr) : List Event :=
  match driver with
  | none => [Event.WARN_ON]
  | some d =>
    if ¬ compatible d then [Event.WARN_ON]
    else if d.get_relaxed_ordering_mode = NULL ∨ d.put_relaxed_ordering_mode = NULL ∨
        d.wait_for_rsync = NULL then [Event.WARN_ON]
    else
      [Event.nv_unregister_rsync_driver d.get_relaxed_ordering_mode
        d.put_relaxed_ordering_mode d.wait_for_rsync data]

/-- The validity condition shared by the two registration entry points: the
driver is non-null, its version compatible, and its three callbacks non-null. -/
def rsync_driver_valid (compatible : nvidia_p2p_rsync_driver_t → Bool)
    (driver : Option nvidia_p2p_rsync_driver_t) : Prop :=
  ∃ d, driver = some d ∧ compatible d = true ∧ d.get_relaxed_ordering_mode ≠ NULL ∧
    d.put_relaxed_ordering_mode ≠ NULL ∧ d.wait_for_rsync ≠ NULL

/-! ## Rsync register discovery -/

/-- One slot `nvidia_p2p_rsync_reg_t` of the register array. -/
structure nvidia_p2p_rsync_reg_t where
  ptr : Ptr
  size : Nat
  gpu : Ptr
  ibmnpu : Ptr
  cluster_id : Nat
  socket_id : Nat
  deriving DecidableEq

/-- The structure `nvidia_p2p_rsync_reg_info_t`: `regs` is the array pointer and
`regs_mem` the array it points to. -/
structure nvidia_p2p_rsync_reg_info_t where
  version : Nat
  regs : Ptr
  regs_mem : List nvidia_p2p_rsync_reg_t
  entries : Nat
  deriving DecidableEq

/-- One device of the global list `nv_linux_devices`: `nv` is
`NV_STATE_PTR(nvl)`, `pci_dev` the field `nvl->pci_dev`. -/
structure nv_linux_state_t where
  nv : Ptr
  pci_dev : Ptr
  deriving DecidableEq

/-- The external collaborators of the discovery: the constant
`NVIDIA_P2P_RSYNC_REG_INFO_VERSION`; what `nv_get_ibmnpu_genreg_info` returns
and stores for a device (status, `addr`, `size`, `ibmnpu`); the pointer
`nv_ioremap_nocache` returns; the chip id `nv_get_ibmnpu_chip_id` returns. -/
structure RsyncPlatform where
  NVIDIA_P2P_RSYNC_REG_INFO_VERSION : Nat
  nv_get_ibmnpu_genreg_info : Ptr → NV_STATUS × Nat × Nat × Ptr
  nv_ioremap_nocache : Nat → Nat → Ptr
  nv_get_ibmnpu_chip_id : Ptr → Nat

/-- The function `nvidia_p2p_put_rsync_registers` on the structure `info` at
`reg_info`.  A slot beyond the array reads as a null slot here (in C it is out
of bounds). -/
def nvidia_p2p_put_rsync_registers (reg_info : Ptr) (info : nvidia_p2p_rsync_reg_info_t) :
    List Event :=
  if reg_info = NULL then []
  else
    (if info.regs ≠ NULL then
      (List.range info.entries).flatMap (fun i =>
        let regs := info.regs_mem.getD i ⟨NULL, 0, NULL, NULL, 0, 0⟩
        if regs.ptr ≠ NULL then [Event.nv_iounmap regs.ptr regs.size] else []) ++
      [Event.os_free_mem (Obj.rsync_regs info.regs)]
    else []) ++
    [Event.os_free_mem (Obj.rsync_reg_info reg_info)]

/-- The second `for` loop of `nvidia_p2p_get_rsync_registers` over the devices not
yet visited, from the slot counter `index` and the array content `regs`:
returns `index` and the array after the loop, and the steps made (each
iteration ends with the read of `nvl->next`). -/
def nvidia_p2p_get_rsync_registers_pass (R : RsyncPlatform) :
    List nv_linux_state_t → Nat → List nvidia_p2p_rsync_reg_t →
      Nat × List nvidia_p2p_rsync_reg_t × List Event
  | [], index, regs => (index, regs, [])
  | nvl :: rest, index, regs =>
    let info := R.nv_get_ibmnpu_genreg_info nvl.nv
    if info.1 ≠ NV_OK then
      let r := nvidia_p2p_get_rsync_registers_pass R rest index regs
      (r.1, r.2.1,
       [Event.nv_get_ibmnpu_genreg_info nvl.nv, Event.nv_linux_devices_read] ++ r.2.2)
    else
      let ptr := R.nv_ioremap_nocache info.2.1 info.2.2.1
      if ptr = NULL then
        let r := nvidia_p2p_get_rsync_registers_pass R rest index regs
        (r.1, r.2.1,
         [Event.nv_get_ibmnpu_genreg_info nvl.nv,
          Event.nv_ioremap_nocache info.2.1 info.2.2.1 ptr,
          Event.nv_linux_devices_read] ++ r.2.2)
      else
        let r := nvidia_p2p_get_rsync_registers_pass R rest (index + 1)
          (regs.set index
            ⟨ptr, info.2.2.1, nvl.pci_dev, info.2.2.2, 0, R.nv_get_ibmnpu_chip_id nvl.nv⟩)
        (r.1, r.2.1,
         [Event.nv_get_ibmnpu_genreg_info nvl.nv,
          Event.nv_ioremap_nocache info.2.1 info.2.2.1 ptr,
          Event.nv_get_ibmnpu_chip_id nvl.nv,
          Event.nv_linux_devices_read] ++ r.2.2)

/-- What `nvidia_p2p_get_rsync_registers` leaves behind: the returned platform
code, the pointer stored into `*reg_info` together with the structure it points
to (`none` when `*reg_info` is not written), and the steps made. -/
structure get_rsync_registers_result where
  ret : Int
  reg_info : Option (Ptr × nvidia_p2p_rsync_reg_info_t)
  trace : List Event

/-- The function `nvidia_p2p_get_rsync_registers` over the device list `devices`.
`info_alloc` and `regs_alloc` are what the two `os_alloc_mem` calls return and
store, `regs_init` is the content of the fresh register array, and `reg_info`
is the caller's output pointer. -/
def nvidia_p2p_get_rsync_registers (R : RsyncPlatform) (devices : List nv_linux_state_t)
    (info_alloc regs_alloc : NV_STATUS × Ptr) (regs_init : List nvidia_p2p_rsync_reg_t)
    (reg_info : Ptr) : get_rsync_registers_result :=
  if reg_info = NULL then ⟨- EINVAL, none, []⟩
  else if info_alloc.1 ≠ NV_OK then
    ⟨- ENOMEM, none, [Event.os_alloc_mem info_alloc.1 info_alloc.2]⟩
  else
    let info : nvidia_p2p_rsync_reg_info_t :=
      ⟨R.NVIDIA_P2P_RSYNC_REG_INFO_VERSION, NULL, [], 0⟩
    let counting : List Event :=
      [Event.os_alloc_mem info_alloc.1 info_alloc.2, Event.LOCK_NV_LINUX_DEVICES,
       Event.nv_linux_devices_read] ++
      devices.map (fun _ => Event.nv_linux_devices_read) ++
      [Event.os_alloc_mem regs_alloc.1 regs_alloc.2]
    if regs_alloc.1 ≠ NV_OK then
      ⟨- ENOMEM, none,
        counting ++ nvidia_p2p_put_rsync_registers info_alloc.2 info ++
          [Event.UNLOCK_NV_LINUX_DEVICES]⟩
    else
      let pass := nvidia_p2p_get_rsync_registers_pass R devices 0 regs_init
      let filled : nvidia_p2p_rsync_reg_info_t :=
        { info with regs := regs_alloc.2, regs_mem := pass.2.1, entries := pass.1 }
      let scanned : List Event :=
        counting ++ [Event.nv_linux_devices_read] ++ pass.2.2 ++
          [Event.UNLOCK_NV_LINUX_DEVICES]
      if filled.entries = 0 then
        ⟨- ENODEV, none, scanned ++ nvidia_p2p_put_rsync_registers info_alloc.2 filled⟩
      else ⟨0, some (info_alloc.2, filled), scanned⟩

/-- Whether the discovery can use the device: the NPU lookup succeeds and the
MMIO map of its register range is not null. -/
def rsync_eligible (R : RsyncPlatform) (nvl : nv_linux_state_t) : Bool :=
  decide ((R.nv_get_ibmnpu_genreg_info nvl.nv).1 = NV_OK) &&
  decide (R.nv_ioremap_nocache (R.nv_get_ibmnpu_genreg_info nvl.nv).2.1
    (R.nv_get_ibmnpu_genreg_info nvl.nv).2.2.1 ≠ NULL)

/-- The slot that describes an eligible device: the mapped pointer, the size,
the GPU and NPU identity, cluster 0 and the chip id as socket. -/
def rsync_slot (R : RsyncPlatform) (nvl : nv_linux_state_t) : nvidia_p2p_rsync_reg_t :=
  ⟨R.nv_ioremap_nocache (R.nv_get_ibmnpu_genreg_info nvl.nv).2.1
      (R.nv_get_ibmnpu_genreg_info nvl.nv).2.2.1,
    (R.nv_get_ibmnpu_genreg_info nvl.nv).2.2.1, nvl.pci_dev,
    (R.nv_get_ibmnpu_genreg_info nvl.nv).2.2.2, 0, R.nv_get_ibmnpu_chip_id nvl.nv⟩

/-! ## Construction of `RmClientResource` (g_client_resource_nvoc.c) -/

/-- One step of the construction of an `RmClientResource` object: a call of a
constructor, destructor or runtime service, or the store `clear_pParent` of
`NULL` into the object's `pParent`. -/
inductive NvocEvent where
  | portMemAllocNonPaged (pThis : Ptr)
  | portMemSet (pThis : Ptr)
  | __nvoc_initRtti (pThis : Ptr)
  | objAddChild (pParent pThis : Ptr)
  | clear_pParent (pThis : Ptr)
  | __nvoc_init_RmClientResource (pThis : Ptr)
  | __nvoc_ctor_RsClientResource
  | __nvoc_ctor_RmResourceCommon
  | __nvoc_ctor_Notifier
  | __nvoc_init_dataField_RmClientResource
  | __nvoc_cliresConstruct
  | __nvoc_dtor_Notifier
  | __nvoc_dtor_RmResourceCommon
  | __nvoc_dtor_RsClientResource
  | portMemFree (pThis : Ptr)
  deriving DecidableEq

/-- The statuses that the three base-class constructors and `cliresConstruct`
return when they are called. -/
structure CtorStatus where
  RsClientResource : NV_STATUS
  RmResourceCommon : NV_STATUS
  Notifier : NV_STATUS
  cliresConstruct : NV_STATUS

/-- The code from the label `__nvoc_ctor_RmClientResource_fail_RsClientResource`
(and `_exit`) on: nothing before `return status`. -/
def __nvoc_ctor_RmClientResource_fail_RsClientResource : List NvocEvent := []

/-- The code from the label `__nvoc_ctor_RmClientResource_fail_RmResourceCommon`
on, falling through to the next label. -/
def __nvoc_ctor_RmClientResource_fail_RmResourceCommon : List NvocEvent :=
  NvocEvent.__nvoc_dtor_RsClientResource ::
    __nvoc_ctor_RmClientResource_fail_RsClientResource

/-- The code from the label `__nvoc_ctor_RmClientResource_fail_Notifier` on,
falling through to the next label. -/
def __nvoc_ctor_RmClientResource_fail_Notifier : List NvocEvent :=
  NvocEvent.__nvoc_dtor_RmResourceCommon ::
    __nvoc_ctor_RmClientResource_fail_RmResourceCommon

/-- The code from the label `__nvoc_ctor_RmClientResource_fail__init` on, falling
through to the next label. -/
def __nvoc_ctor_RmClientResource_fail__init : List NvocEvent :=
  NvocEvent.__nvoc_dtor_Notifier :: __nvoc_ctor_RmClientResource_fail_Notifier

/-- The function `__nvoc_ctor_RmClientResource`: returns `status` and the steps
made. -/
def __nvoc_ctor_RmClientResource (S : CtorStatus) : NV_STATUS × List NvocEvent :=
  if S.RsClientResource ≠ NV_OK then
    (S.RsClientResource,
     [NvocEvent.__nvoc_ctor_RsClientResource] ++
       __nvoc_ctor_RmClientResource_fail_RsClientResource)
  else if S.RmResourceCommon ≠ NV_OK then
    (S.RmResourceCommon,
     [NvocEvent.__nvoc_ctor_RsClientResource, NvocEvent.__nvoc_ctor_RmResourceCommon] ++
       __nvoc_ctor_RmClientResource_fail_RmResourceCommon)
  else if S.Notifier ≠ NV_OK then
    (S.Notifier,
     [NvocEvent.__nvoc_ctor_RsClientResource, NvocEvent.__nvoc_ctor_RmResourceCommon,
      NvocEvent.__nvoc_ctor_Notifier] ++ __nvoc_ctor_RmClientResource_fail_Notifier)
  else if S.cliresConstruct ≠ NV_OK then
    (S.cliresConstruct,
     [NvocEvent.__nvoc_ctor_RsClientResource, NvocEvent.__nvoc_ctor_RmResourceCommon,
      NvocEvent.__nvoc_ctor_Notifier, NvocEvent.__nvoc_init_dataField_RmClientResource,
      NvocEvent.__nvoc_cliresConstruct] ++ __nvoc_ctor_RmClientResource_fail__init)
  else
    (S.cliresConstruct,
     [NvocEvent.__nvoc_ctor_RsClientResource, NvocEvent.__nvoc_ctor_RmResourceCommon,
      NvocEvent.__nvoc_ctor_Notifier, NvocEvent.__nvoc_init_dataField_RmClientResource,
      NvocEvent.__nvoc_cliresConstruct])

/-- The function `__nvoc_objCreate_RmClientResource`.  `pThis` is the pointer that
`portMemAllocNonPaged` returns and `halspec_only` the test
`createFlags & NVOC_OBJ_CREATE_FLAGS_PARENT_HALSPEC_ONLY` (the flag constant is
not among the sources).  Returns the status, the value written to `*ppThis`
(`none` when it is not written) and the steps made. -/
def __nvoc_objCreate_RmClientResource (S : CtorStatus) (pThis pParent : Ptr)
    (halspec_only : Bool) : NV_STATUS × Option Ptr × List NvocEvent :=
  if pThis = NULL then
    (NV_ERR_NO_MEMORY, none, [NvocEvent.portMemAllocNonPaged pThis])
  else
    let setup : List NvocEvent :=
      [NvocEvent.portMemAllocNonPaged pThis, NvocEvent.portMemSet pThis,
       NvocEvent.__nvoc_initRtti pThis] ++
      (if pParent ≠ NULL ∧ halspec_only = false then [NvocEvent.objAddChild pParent pThis]
       else [NvocEvent.clear_pParent pThis]) ++
      [NvocEvent.__nvoc_init_RmClientResource pThis]
    let ctor := __nvoc_ctor_RmClientResource S
    if ctor.1 ≠ NV_OK then
      (ctor.1, none, setup ++ ctor.2 ++ [NvocEvent.portMemFree pThis])
    else (NV_OK, some pThis, setup ++ ctor.2)

/-- Whether the step is a call of a base-class destructor. -/
@[simp]
def NvocEvent.isDtor : NvocEvent → Bool
  | NvocEvent.__nvoc_dtor_Notifier => true
  | NvocEvent.__nvoc_dtor_RmResourceCommon => true
  | NvocEvent.__nvoc_dtor_RsClientResource => true
  | _ => false

/-! ## Reading a trace -/

/-- Whether the step is one of the two unlink calls of the resource manager. -/
@[simp]
def Event.isUnlink : Event → Bool
  | Event.rm_p2p_put_pages_persistent _ _ _ => true
  | Event.rm_p2p_put_pages _ _ _ _ _ => true
  | _ => false

/-- Whether the step tears something down: a registry removal, a platform
unmap (batch or single), or a free of any kind. -/
@[simp]
def Event.isTeardown : Event → Bool
  | Event.list_del _ => true
  | Event.os_free_mem _ => true
  | Event.NV_KMEM_CACHE_FREE _ => true
  | Event.nv_dma_unmap_alloc _ _ _ _ => true
  | Event.nv_dma_unmap_peer _ _ _ => true
  | _ => false

/-- Whether the step is a platform unmap call, batch or single. -/
@[simp]
def Event.isUnmap : Event → Bool
  | Event.nv_dma_unmap_alloc _ _ _ _ => true
  | Event.nv_dma_unmap_peer _ _ _ => true
  | _ => false

/-- Whether the step releases something that belongs to one DMA mapping: a
platform unmap call (batch or single), or a free of a registry node, of a
bus-address array or of a mapping structure.  The frees of the region, of its
page array and of its UUID are not of this kind. -/
@[simp]
def Event.isRelease : Event → Bool
  | Event.nv_dma_unmap_alloc _ _ _ _ => true
  | Event.nv_dma_unmap_peer _ _ _ => true
  | Event.os_free_mem (Obj.node _) => true
  | Event.os_free_mem (Obj.dma_addresses _) => true
  | Event.os_free_mem (Obj.dma_mapping _) => true
  | _ => false

/-- Whether the step reads a field of the region. -/
@[simp]
def Event.isLoad : Event → Bool
  | Event.load _ => true
  | _ => false

/-- The MMIO ranges unmapped in a trace, in order: pointer and size of each
`nv_iounmap` call. -/
def iounmapped (t : List Event) : List (Ptr × Nat) :=
  t.filterMap (fun e => match e with
    | Event.nv_iounmap ptr size => some (ptr, size)
    | _ => none)

/-- The MMIO ranges mapped in a trace, in order: the non-null pointers returned
by `nv_ioremap_nocache`. -/
def iomapped (t : List Event) : List Ptr :=
  t.filterMap (fun e => match e with
    | Event.nv_ioremap_nocache _ _ ptr => if ptr ≠ NULL then some ptr else none
    | _ => none)

/-- The allocations made in a trace, in order: the pointers stored by the
`os_alloc_mem` calls that return `NV_OK`. -/
def allocated (t : List Event) : List Ptr :=
  t.filterMap (fun e => match e with
    | Event.os_alloc_mem status p => if status = NV_OK then some p else none
    | _ => none)

/-- Whether the step takes or releases the global devices lock. -/
@[simp]
def Event.isDevicesLock : Event → Bool
  | Event.LOCK_NV_LINUX_DEVICES => true
  | Event.UNLOCK_NV_LINUX_DEVICES => true
  | _ => false

/-- Whether the step reads the global device list. -/
@[simp]
def Event.isDevicesRead : Event → Bool
  | Event.nv_linux_devices_read => true
  | _ => false

/-- The owner callbacks invoked in a trace, in order, each with the function
pointer and the opaque data it is given. -/
def callbacks (t : List Event) : List (Ptr × Ptr) :=
  t.filterMap (fun e => match e with
    | Event.free_callback fn data => some (fn, data)
    | _ => none)

/-- The arguments of the `os_free_mem` calls of a trace, in order. -/
def freed (t : List Event) : List Obj :=
  t.filterMap (fun e => match e with
    | Event.os_free_mem o => some o
    | _ => none)

/-- The page descriptors given to `NV_KMEM_CACHE_FREE` in a trace, in order. -/
def cache_freed (t : List Event) : List Ptr :=
  t.filterMap (fun e => match e with
    | Event.NV_KMEM_CACHE_FREE p => some p
    | _ => none)

/-- The mapping structures freed in a trace, in order: the last step of each
`nv_p2p_free_dma_mapping`. -/
def destroyed (t : List Event) : List Ptr :=
  (freed t).filterMap (fun o => match o with
    | Obj.dma_mapping m => some m
    | _ => none)

/-- The registry that `L` becomes through the steps of a teardown trace: each
`list_del p` unlinks the first node at the address `p`, and no other step of
a teardown changes the list. -/
def registry_after (L : List nv_p2p_dma_mapping) : List Event → List nv_p2p_dma_mapping
  | [] => L
  | Event.list_del p :: t => registry_after (L.eraseP (fun n => decide (n.node = p))) t
  | _ :: t => registry_after L t

/-- The calls made when the drain loop of `nv_p2p_free_page_table` takes the node
`n` off the registry and destroys its mapping. -/
def drain_node (K : Platform) (mem : MappingMem) (n : nv_p2p_dma_mapping) :
    List Event :=
  [Event.down, Event.list_del n.node, Event.os_free_mem (Obj.node n.node), Event.up] ++
    nv_p2p_free_dma_mapping K mem n.dma_mapping

/-! ## Test harness: sequences of registry operations -/

/-- Successive successful calls of `nv_p2p_insert_dma_mapping`, one for each pair
(node address returned by the allocator, mapping), in list order. -/
def insert_all : List (Ptr × Ptr) → nv_p2p_mem_info → nv_p2p_mem_info
  | [], mem_info => mem_info
  | (node, m) :: rest, mem_info =>
    insert_all rest (nv_p2p_insert_dma_mapping NV_OK node mem_info m).2.1

/-- The values returned by `k` successive calls
`nv_p2p_remove_dma_mapping(mem_info, NULL)`, and the region after them. -/
def remove_null_repeat : Nat → nv_p2p_mem_info → List Ptr × nv_p2p_mem_info
  | 0, mem_info => ([], mem_info)
  | k + 1, mem_info =>
    let r := nv_p2p_remove_dma_mapping mem_info NULL
    let rest := remove_null_repeat k r.2.1
    (r.1 :: rest.1, rest.2)

/-- The region after calling `nv_p2p_remove_dma_mapping(mem_info, m)` for each
handle `m` of the list, in list order. -/
def remove_each : List Ptr → nv_p2p_mem_info → nv_p2p_mem_info
  | [], mem_info => mem_info
  | m :: rest, mem_info => remove_each rest (nv_p2p_remove_dma_mapping mem_info m).2.1

/-- Two calls of `nv_p2p_put_pages` on the same logical table: the first against the
platform `K1` on the region `mem_info`; the second, made through a saved copy
of the handle (the first call nulls the caller's), against the platform `K2`.
When the first call tore the region down, its last step was
`os_free_mem(mem_info)` and every mapping structure was freed before that, so
the second call does not read the region of the first: `container_of` gives it
the same address, and what it loads from there is `stale` (and `stale_mem` for
the mapping structures), about which nothing is assumed.  When the first call
freed nothing, the second reads the region as the first left it.  Returns what
each call leaves behind. -/
def put_pages_twice (K1 K2 : Platform) (mem stale_mem : MappingMem) (fuel : Nat)
    (sp : Ptr) (p2p_token va_space virtual_address : Nat)
    (page_table : Ptr) (mem_info stale : nv_p2p_mem_info) :
    Option (put_pages_result × put_pages_result) :=
  match nv_p2p_put_pages K1 mem fuel sp p2p_token va_space virtual_address page_table
      mem_info with
  | none => none
  | some r1 =>
    if Obj.mem_info page_table ∈ freed r1.trace then
      (nv_p2p_put_pages K2 stale_mem fuel sp p2p_token va_space virtual_address page_table
        stale).map (fun r2 => (r1, r2))
    else
      (nv_p2p_put_pages K2 mem fuel sp p2p_token va_space virtual_address page_table
        r1.mem_info).map (fun r2 => (r1, r2))

/-! ## Concrete inputs -/

/-- A platform with 4 KiB native pages on which every external call returns
`NV_OK`. -/
def platform_ok : Platform :=
  ⟨4096, fun _ _ _ _ => NV_OK, fun _ _ _ => NV_OK, fun _ _ _ _ _ => NV_OK⟩

/-- A platform whose resource manager finds no table: both unlink calls return
`NV_ERR_OBJECT_NOT_FOUND`. -/
def platform_not_found : Platform :=
  ⟨4096, fun _ _ _ _ => NV_OK, fun _ _ _ => NV_ERR_OBJECT_NOT_FOUND,
    fun _ _ _ _ _ => NV_ERR_OBJECT_NOT_FOUND⟩

/-- A platform whose unlink calls both fail with the status 0x40. -/
def platform_failing : Platform :=
  ⟨4096, fun _ _ _ _ => NV_OK, fun _ _ _ => 0x40, fun _ _ _ _ _ => 0x40⟩

/-- Two mapping structures: at 0x1000 a batch mapping (non-null `private`, page
size class 4K, 2 entries), elsewhere (at 0x2000) a per-entry mapping of the 64K
class with 3 entries. -/
def example_mem : MappingMem := fun p =>
  if p = 0x1000 then ⟨7, 0xffffffff, 0, 2, 0x1100, [0xa000, 0xb000], 0x55⟩
  else ⟨8, 0xffffffff, 1, 3, 0x2100, [0x10000, 0x20000, 0x30000], NULL⟩

/-- A non-persistent region with two page descriptors and the two mappings of
`example_mem` registered, in the nodes at 0x10 and 0x20. -/
def example_region : nv_p2p_mem_info :=
  ⟨0x9000, 0x9100, ⟨2, 0x3000, [0x3100, 0x3200], 0x4000⟩,
    [⟨0x10, 0x1000⟩, ⟨0x20, 0x2000⟩], false, 0x66⟩

/-- The example region with an empty registry. -/
def example_region_empty : nv_p2p_mem_info :=
  { example_region with dma_mapping_list := [] }

/-- The same region, persistent. -/
def example_region_persistent : nv_p2p_mem_info :=
  { example_region with bPersistent := true }

/-- A region in which the mapping 0x1000 is registered twice, in the nodes at
0x10 and 0x30, around the mapping 0x2000. -/
def example_region_duplicate : nv_p2p_mem_info :=
  { example_region with
    dma_mapping_list := [⟨0x10, 0x1000⟩, ⟨0x20, 0x2000⟩, ⟨0x30, 0x1000⟩] }

/-- A platform with 64 KiB native pages on which every external call returns
`NV_OK`. -/
def platform_64k : Platform :=
  { platform_ok with PAGE_SIZE := 65536 }

/-- A per-entry mapping of the 4K class with 2 entries, at every address. -/
def example_mem_4k : MappingMem := fun _ =>
  ⟨8, 0xffffffff, 0, 2, 0x2100, [0x10000, 0x20000], NULL⟩

/-- A version check that accepts exactly the version 0x00010001. -/
def example_compatible (d : nvidia_p2p_rsync_driver_t) : Bool :=
  decide (d.version = 0x00010001)

/-- A valid rsync driver: compatible version, three non-null callbacks. -/
def example_driver : nvidia_p2p_rsync_driver_t := ⟨0x00010001, 0x100, 0x200, 0x300⟩

/-- Three attached devices, with the GPU identities 0x11, 0x12, 0x13. -/
def example_devices : List nv_linux_state_t := [⟨1, 0x11⟩, ⟨2, 0x12⟩, ⟨3, 0x13⟩]

/-- A platform on which the device 2 has no companion NPU and the register
ranges of the other devices map to non-null pointers. -/
def example_rsync_platform : RsyncPlatform :=
  ⟨0x00010000,
    fun nv => if nv = 2 then (NV_ERR_NOT_SUPPORTED, 0, 0, NULL)
      else (NV_OK, 0x1000 * nv, 0x100, 0x50 + nv),
    fun addr _ => addr + 0xf0000,
    fun nv => nv + 7⟩

/-- A platform on which no device has a companion NPU. -/
def example_rsync_platform_none : RsyncPlatform :=
  ⟨0x00010000, fun _ => (NV_ERR_NOT_SUPPORTED, 0, 0, NULL), fun addr _ => addr + 0xf0000,
    fun nv => nv + 7⟩

/-- The content of a fresh register array of three slots. -/
def example_regs_init : List nvidia_p2p_rsync_reg_t :=
  [⟨0xdead, 1, 2, 3, 4, 5⟩, ⟨0xdead, 1, 2, 3, 4, 5⟩, ⟨0xdead, 1, 2, 3, 4, 5⟩]

/-- A register info of two entries in an array of three slots; the second slot
has a null pointer. -/
def example_rsync_info : nvidia_p2p_rsync_reg_info_t :=
  ⟨0x00010000, 0x6000,
    [⟨0xf1000, 0x100, 0x11, 0x51, 0, 8⟩, ⟨NULL, 0x100, 0x12, 0x52, 0, 9⟩,
     ⟨0xf3000, 0x100, 0x13, 0x53, 0, 10⟩], 2⟩

/-- Constructor statuses with which the third step, the Notifier constructor,
is the first to fail (with the status 0x40). -/
def example_ctor_status : CtorStatus := ⟨NV_OK, NV_OK, 0x40, NV_OK⟩

/-! ## Lemmas on the registry scan -/

theorem scan_null_cons (cur : nv_p2p_dma_mapping) (rest : List nv_p2p_dma_mapping) :
    nv_p2p_remove_dma_mapping_scan NULL (cur :: rest) =
      (cur.dma_mapping, rest,
       [Event.list_del cur.node, Event.os_free_mem (Obj.node cur.node)]) := by
  simp [nv_p2p_remove_dma_mapping_scan]

theorem scan_absent (m : Ptr) (hm : m ≠ NULL) (L : List nv_p2p_dma_mapping)
    (habs : ∀ n ∈ L, n.dma_mapping ≠ m) :
    nv_p2p_remove_dma_mapping_scan m L = (NULL, L, []) := by
  induction L with
  | nil => rfl
  | cons cur rest ih =>
    have hcur : m ≠ cur.dma_mapping := fun h => habs cur (List.mem_cons_self _ _) h.symm
    have hrest := ih (fun n hn => habs n (List.mem_cons_of_mem _ hn))
    simp [nv_p2p_remove_dma_mapping_scan, hm, hcur, hrest]

theorem scan_present (m : Ptr) (hm : m ≠ NULL) (L : List nv_p2p_dma_mapping)
    (hin : m ∈ L.map (fun n => n.dma_mapping)) :
    (nv_p2p_remove_dma_mapping_scan m L).1 = m ∧
    (nv_p2p_remove_dma_mapping_scan m L).2.1.length + 1 = L.length := by
  induction L with
  | nil => simp at hin
  | cons cur rest ih =>
    by_cases hcur : m = cur.dma_mapping
    · simp [nv_p2p_remove_dma_mapping_scan, hcur]
    · have hin2 : m ∈ rest.map (fun n => n.dma_mapping) := by
        simp only [List.map_cons, List.mem_cons] at hin
        rcases hin with h | h
        · exact absurd h hcur
        · exact h
      have := ih hin2
      simp [nv_p2p_remove_dma_mapping_scan, hm, hcur, this.1, this.2]

theorem scan_map_erase (m : Ptr) (hm : m ≠ NULL) (L : List nv_p2p_dma_mapping) :
    (nv_p2p_remove_dma_mapping_scan m L).2.1.map (fun n => n.dma_mapping) =
      (L.map (fun n => n.dma_mapping)).erase m := by
  induction L with
  | nil => rfl
  | cons cur rest ih =>
    by_cases hcur : m = cur.dma_mapping
    · simp [nv_p2p_remove_dma_mapping_scan, hcur]
    · have hne : cur.dma_mapping ≠ m := fun h => hcur h.symm
      simp [nv_p2p_remove_dma_mapping_scan, hm, hcur, ih, List.erase_cons, hne]

theorem insert_all_list (ps : List (Ptr × Ptr)) (mem_info : nv_p2p_mem_info) :
    insert_all ps mem_info =
      { mem_info with
        dma_mapping_list :=
          mem_info.dma_mapping_list ++ ps.map (fun p => ⟨p.1, p.2⟩) } := by
  induction ps generalizing mem_info with
  | nil => simp [insert_all]
  | cons p rest ih =>
    obtain ⟨node, m⟩ := p
    simp [insert_all, ih, nv_p2p_insert_dma_mapping]

theorem remove_null_repeat_succ (k : Nat) (mem_info : nv_p2p_mem_info) :
    remove_null_repeat (k + 1) mem_info =
      ((nv_p2p_remove_dma_mapping mem_info NULL).1 ::
         (remove_null_repeat k (nv_p2p_remove_dma_mapping mem_info NULL).2.1).1,
       (remove_null_repeat k (nv_p2p_remove_dma_mapping mem_info NULL).2.1).2) := rfl

theorem remove_null_repeat_drain (L : List nv_p2p_dma_mapping) (mem_info : nv_p2p_mem_info)
    (hL : mem_info.dma_mapping_list = L) :
    remove_null_repeat (L.length + 1) mem_info =
      (L.map (fun n => n.dma_mapping) ++ [NULL],
       { mem_info with dma_mapping_list := [] }) := by
  induction L generalizing mem_info with
  | nil =>
    simp [remove_null_repeat, nv_p2p_remove_dma_mapping, hL,
      nv_p2p_remove_dma_mapping_scan]
  | cons cur rest ih =>
    have h := ih { mem_info with dma_mapping_list := rest } rfl
    have hstep : nv_p2p_remove_dma_mapping mem_info NULL =
        (cur.dma_mapping, { mem_info with dma_mapping_list := rest },
         [Event.down] ++
           [Event.list_del cur.node, Event.os_free_mem (Obj.node cur.node)] ++
           [Event.up]) := by
      simp [nv_p2p_remove_dma_mapping, hL, scan_null_cons]
    rw [List.length_cons, remove_null_repeat_succ, hstep]
    simp only [h]
    simp

theorem remove_each_perm (ms : List Ptr) (hms : ∀ m ∈ ms, m ≠ NULL)
    (mem_info : nv_p2p_mem_info)
    (hperm : ms.Perm (mem_info.dma_mapping_list.map (fun n => n.dma_mapping))) :
    remove_each ms mem_info = { mem_info with dma_mapping_list := [] } := by
  induction ms generalizing mem_info with
  | nil =>
    have : mem_info.dma_mapping_list = [] := by
      have := hperm.length_eq
      simpa using this.symm
    cases mem_info
    simp_all [remove_each]
  | cons m rest ih =>
    have hm : m ≠ NULL := hms m (List.mem_cons_self _ _)
    have hrest : ∀ x ∈ rest, x ≠ NULL := fun x hx => hms x (List.mem_cons_of_mem _ hx)
    have hstep := ih hrest
      (nv_p2p_remove_dma_mapping mem_info m).2.1 (by
        simp only [nv_p2p_remove_dma_mapping, scan_map_erase m hm]
        have := hperm.erase m
        simpa using this)
    simp only [remove_each, hstep]
    simp [nv_p2p_remove_dma_mapping]

/-! ## Lemmas on the drain loop -/

theorem loop_null (K : Platform) (mem : MappingMem) (fuel : Nat)
    (mem_info : nv_p2p_mem_info) :
    nv_p2p_free_page_table_loop K mem (fuel + 1) NULL mem_info = some (mem_info, []) := by
  simp [nv_p2p_free_page_table_loop]

theorem remove_null_nil (mem_info : nv_p2p_mem_info)
    (h : mem_info.dma_mapping_list = []) :
    nv_p2p_remove_dma_mapping mem_info NULL =
      (NULL, mem_info, [Event.down, Event.up]) := by
  cases mem_info
  simp_all [nv_p2p_remove_dma_mapping, nv_p2p_remove_dma_mapping_scan]

theorem remove_null_cons (mem_info : nv_p2p_mem_info) (cur : nv_p2p_dma_mapping)
    (rest : List nv_p2p_dma_mapping) (h : mem_info.dma_mapping_list = cur :: rest) :
    nv_p2p_remove_dma_mapping mem_info NULL =
      (cur.dma_mapping, { mem_info with dma_mapping_list := rest },
       [Event.down, Event.list_del cur.node, Event.os_free_mem (Obj.node cur.node),
        Event.up]) := by
  simp [nv_p2p_remove_dma_mapping, h, scan_null_cons]

theorem loop_exact (K : Platform) (mem : MappingMem) (rest : List nv_p2p_dma_mapping) :
    ∀ (fuel : Nat) (dma_mapping : Ptr) (mem_info : nv_p2p_mem_info),
      mem_info.dma_mapping_list = rest → dma_mapping ≠ NULL →
      (∀ n ∈ rest, n.dma_mapping ≠ NULL) → rest.length + 2 ≤ fuel →
      nv_p2p_free_page_table_loop K mem fuel dma_mapping mem_info =
        some ({ mem_info with dma_mapping_list := [] },
          nv_p2p_free_dma_mapping K mem dma_mapping ++
            rest.flatMap (fun n =>
              [Event.down, Event.list_del n.node, Event.os_free_mem (Obj.node n.node),
               Event.up] ++ nv_p2p_free_dma_mapping K mem n.dma_mapping) ++
            [Event.down, Event.up]) := by
  induction rest with
  | nil =>
    intro fuel dm mi hL hdm _ hfuel
    obtain ⟨f, rfl⟩ : ∃ f, fuel = f + 2 := ⟨fuel - 2, by simp at hfuel; omega⟩
    have hmi : mi = { mi with dma_mapping_list := [] } := by
      cases mi; simp_all
    simp only [nv_p2p_free_page_table_loop, hdm, ne_eq, not_false_eq_true, if_true,
      remove_null_nil mi hL, loop_null]
    rw [← hmi]
    simp
  | cons cur rest ih =>
    intro fuel dm mi hL hdm hnn hfuel
    obtain ⟨f, rfl⟩ : ∃ f, fuel = f + 1 := ⟨fuel - 1, by simp at hfuel; omega⟩
    have hcur : cur.dma_mapping ≠ NULL := hnn cur (List.mem_cons_self _ _)
    have hrest : ∀ n ∈ rest, n.dma_mapping ≠ NULL :=
      fun n hn => hnn n (List.mem_cons_of_mem _ hn)
    have hf : rest.length + 2 ≤ f := by simp at hfuel; omega
    have h := ih f cur.dma_mapping { mi with dma_mapping_list := rest } rfl hcur hrest hf
    simp only [nv_p2p_free_page_table_loop, hdm, ne_eq, not_false_eq_true, if_true,
      remove_null_cons mi cur rest hL, h]
    simp

theorem loop_succ (K : Platform) (mem : MappingMem) (fuel : Nat) (dma_mapping : Ptr)
    (mem_info : nv_p2p_mem_info) :
    nv_p2p_free_page_table_loop K mem (fuel + 1) dma_mapping mem_info =
      if dma_mapping ≠ NULL then
        match nv_p2p_free_page_table_loop K mem fuel
            (nv_p2p_remove_dma_mapping mem_info NULL).1
            (nv_p2p_remove_dma_mapping mem_info NULL).2.1 with
        | none => none
        | some (mi, t) =>
          some (mi, nv_p2p_free_dma_mapping K mem dma_mapping ++
            (nv_p2p_remove_dma_mapping mem_info NULL).2.2 ++ t)
      else some (mem_info, []) := rfl

theorem free_dma_mapping_not_unlink (K : Platform) (mem : MappingMem) (dma_mapping : Ptr) :
    ∀ e ∈ nv_p2p_free_dma_mapping K mem dma_mapping, e.isUnlink = false := by
  intro e he
  simp only [nv_p2p_free_dma_mapping] at he
  split_ifs at he <;> simp at he <;> aesop

theorem scan_not_unlink (m : Ptr) (L : List nv_p2p_dma_mapping) :
    ∀ e ∈ (nv_p2p_remove_dma_mapping_scan m L).2.2, e.isUnlink = false := by
  induction L with
  | nil => simp [nv_p2p_remove_dma_mapping_scan]
  | cons cur rest ih =>
    intro e he
    simp only [nv_p2p_remove_dma_mapping_scan] at he
    split_ifs at he
    · simp only [List.mem_cons, List.mem_singleton, List.not_mem_nil, or_false] at he
      rcases he with h | h <;> subst h <;> rfl
    · exact ih e he

theorem remove_not_unlink (mem_info : nv_p2p_mem_info) (m : Ptr) :
    ∀ e ∈ (nv_p2p_remove_dma_mapping mem_info m).2.2, e.isUnlink = false := by
  intro e he
  simp only [nv_p2p_remove_dma_mapping, List.mem_append, List.mem_singleton] at he
  rcases he with (h | h) | h
  · subst h; rfl
  · exact scan_not_unlink m _ e h
  · subst h; rfl

theorem tail_not_unlink (page_table : Ptr) (pt : nvidia_p2p_page_table) :
    ∀ e ∈ nv_p2p_free_page_table_tail page_table pt, e.isUnlink = false := by
  intro e he
  simp only [nv_p2p_free_page_table_tail] at he
  split_ifs at he <;>
    simp only [List.mem_append, List.mem_cons, List.mem_singleton, List.mem_flatMap,
      List.not_mem_nil, or_false, false_or, List.append_nil] at he <;>
    aesop

theorem loop_total (K : Platform) (mem : MappingMem) :
    ∀ (fuel : Nat) (dma_mapping : Ptr) (mem_info : nv_p2p_mem_info),
      mem_info.dma_mapping_list.length + 2 ≤ fuel →
      ∃ r, nv_p2p_free_page_table_loop K mem fuel dma_mapping mem_info = some r ∧
        ∀ e ∈ r.2, e.isUnlink = false := by
  intro fuel
  induction fuel with
  | zero => intro _ _ h; omega
  | succ f ih =>
    intro dm mi hfuel
    rw [loop_succ]
    by_cases hdm : dm = NULL
    · exact ⟨(mi, []), by simp [hdm], by simp⟩
    · have hrec : ∃ r, nv_p2p_free_page_table_loop K mem f
            (nv_p2p_remove_dma_mapping mi NULL).1
            (nv_p2p_remove_dma_mapping mi NULL).2.1 = some r ∧
            ∀ e ∈ r.2, e.isUnlink = false := by
        cases hL : mi.dma_mapping_list with
        | nil =>
          obtain ⟨g, rfl⟩ : ∃ g, f = g + 1 := ⟨f - 1, by omega⟩
          rw [remove_null_nil mi hL]
          exact ⟨(mi, []), loop_null K mem g mi, by simp⟩
        | cons cur rest =>
          rw [remove_null_cons mi cur rest hL]
          apply ih
          simp only [hL, List.length_cons] at hfuel
          simp only
          omega
      obtain ⟨⟨mi2, t⟩, hr, hP⟩ := hrec
      refine ⟨(mi2, nv_p2p_free_dma_mapping K mem dm ++
        (nv_p2p_remove_dma_mapping mi NULL).2.2 ++ t), by simp [hdm, hr], ?_⟩
      intro e he
      simp only [List.mem_append] at he
      rcases he with (h | h) | h
      · exact free_dma_mapping_not_unlink K mem dm e h
      · exact remove_not_unlink mi NULL e h
      · exact hP e h

theorem free_page_table_total (K : Platform) (mem : MappingMem) (fuel : Nat)
    (page_table : Ptr) (mem_info : nv_p2p_mem_info)
    (hfuel : mem_info.dma_mapping_list.length < fuel) :
    ∃ r, nv_p2p_free_page_table K mem fuel page_table mem_info = some r ∧
      ∀ e ∈ r.2, e.isUnlink = false := by
  have hrec : ∃ r, nv_p2p_free_page_table_loop K mem fuel
      (nv_p2p_remove_dma_mapping mem_info NULL).1
      (nv_p2p_remove_dma_mapping mem_info NULL).2.1 = some r ∧
      ∀ e ∈ r.2, e.isUnlink = false := by
    cases hL : mem_info.dma_mapping_list with
    | nil =>
      obtain ⟨g, rfl⟩ : ∃ g, fuel = g + 1 := ⟨fuel - 1, by omega⟩
      rw [remove_null_nil mem_info hL]
      exact ⟨(mem_info, []), loop_null K mem g mem_info, by simp⟩
    | cons cur rest =>
      rw [remove_null_cons mem_info cur rest hL]
      apply loop_total
      simp only [hL, List.length_cons] at hfuel
      simp only
      omega
  obtain ⟨⟨mi2, t⟩, hr, hP⟩ := hrec
  refine ⟨(mi2, (nv_p2p_remove_dma_mapping mem_info NULL).2.2 ++ t ++
    nv_p2p_free_page_table_tail page_table mi2.page_table), by
      simp [nv_p2p_free_page_table, hr], ?_⟩
  intro e he
  simp only [List.mem_append] at he
  rcases he with (h | h) | h
  · exact remove_not_unlink mem_info NULL e h
  · exact hP e h
  · exact tail_not_unlink page_table _ e h

theorem free_page_table_exact (K : Platform) (mem : MappingMem) (fuel : Nat)
    (page_table : Ptr) (mem_info : nv_p2p_mem_info)
    (hfuel : mem_info.dma_mapping_list.length < fuel)
    (hnn : ∀ n ∈ mem_info.dma_mapping_list, n.dma_mapping ≠ NULL) :
    nv_p2p_free_page_table K mem fuel page_table mem_info =
      some ({ mem_info with dma_mapping_list := [] },
        mem_info.dma_mapping_list.flatMap (fun n =>
          [Event.down, Event.list_del n.node, Event.os_free_mem (Obj.node n.node),
           Event.up] ++ nv_p2p_free_dma_mapping K mem n.dma_mapping) ++
        [Event.down, Event.up] ++
        nv_p2p_free_page_table_tail page_table mem_info.page_table) := by
  cases hL : mem_info.dma_mapping_list with
  | nil =>
    obtain ⟨g, rfl⟩ : ∃ g, fuel = g + 1 := ⟨fuel - 1, by omega⟩
    have hmi : mem_info = { mem_info with dma_mapping_list := [] } := by
      cases mem_info; simp_all
    simp only [nv_p2p_free_page_table, remove_null_nil mem_info hL, loop_null]
    rw [← hmi]
    simp
  | cons cur rest =>
    have hcur : cur.dma_mapping ≠ NULL := hnn cur (by simp [hL])
    have hrest : ∀ n ∈ rest, n.dma_mapping ≠ NULL :=
      fun n hn => hnn n (by simp [hL, hn])
    have hf : rest.length + 2 ≤ fuel := by
      simp only [hL, List.length_cons] at hfuel; omega
    have h := loop_exact K mem rest fuel cur.dma_mapping
      { mem_info with dma_mapping_list := rest } rfl hcur hrest hf
    simp only [nv_p2p_free_page_table, remove_null_cons mem_info cur rest hL, h]
    simp

/-! ## Lemmas on reading the traces -/

theorem freed_append (a b : List Event) : freed (a ++ b) = freed a ++ freed b := by
  simp [freed, List.filterMap_append]

theorem cache_freed_append (a b : List Event) :
    cache_freed (a ++ b) = cache_freed a ++ cache_freed b := by
  simp [cache_freed, List.filterMap_append]

theorem freed_free_dma_mapping (K : Platform) (mem : MappingMem) (dma_mapping : Ptr) :
    freed (nv_p2p_free_dma_mapping K mem dma_mapping) =
      [Obj.dma_addresses (mem dma_mapping).dma_addresses, Obj.dma_mapping dma_mapping] := by
  simp only [nv_p2p_free_dma_mapping, freed]
  split_ifs <;> simp [List.filterMap_append, List.filterMap_map]

theorem cache_freed_free_dma_mapping (K : Platform) (mem : MappingMem) (dma_mapping : Ptr) :
    cache_freed (nv_p2p_free_dma_mapping K mem dma_mapping) = [] := by
  simp only [nv_p2p_free_dma_mapping, cache_freed]
  split_ifs <;> simp [List.filterMap_append, List.filterMap_map]

theorem freed_drain (K : Platform) (mem : MappingMem) (L : List nv_p2p_dma_mapping) :
    freed (L.flatMap (drain_node K mem)) =
      L.flatMap (fun n =>
        [Obj.node n.node, Obj.dma_addresses (mem n.dma_mapping).dma_addresses,
         Obj.dma_mapping n.dma_mapping]) := by
  induction L with
  | nil => rfl
  | cons n rest ih =>
    simp only [List.flatMap_cons, freed_append, ih, drain_node, freed_free_dma_mapping]
    simp [freed]

theorem cache_freed_drain (K : Platform) (mem : MappingMem) (L : List nv_p2p_dma_mapping) :
    cache_freed (L.flatMap (drain_node K mem)) = [] := by
  induction L with
  | nil => rfl
  | cons n rest ih =>
    simp only [List.flatMap_cons, cache_freed_append, ih, drain_node,
      cache_freed_free_dma_mapping]
    simp [cache_freed]

theorem freed_tail (page_table : Ptr) (pt : nvidia_p2p_page_table) :
    freed (nv_p2p_free_page_table_tail page_table pt) =
      (if pt.gpu_uuid ≠ NULL then [Obj.gpu_uuid pt.gpu_uuid] else []) ++
      (if pt.pages ≠ NULL then [Obj.pages pt.pages] else []) ++
      [Obj.mem_info page_table] := by
  have hloop : ∀ k : Nat, freed ((List.range k).flatMap (fun i =>
      [Event.load Field.entries, Event.load Field.pages,
       Event.NV_KMEM_CACHE_FREE (pt.pages_mem.getD i NULL)])) = [] := by
    intro k
    induction k with
    | zero => rfl
    | succ k ih =>
      rw [List.range_succ, List.flatMap_append, freed_append, ih]
      simp [freed]
  simp only [nv_p2p_free_page_table_tail, freed_append, hloop]
  split_ifs <;> simp [freed]

theorem cache_freed_tail (page_table : Ptr) (pt : nvidia_p2p_page_table) :
    cache_freed (nv_p2p_free_page_table_tail page_table pt) =
      (List.range pt.entries).map (fun i => pt.pages_mem.getD i NULL) := by
  have hloop : ∀ k : Nat, cache_freed ((List.range k).flatMap (fun i =>
      [Event.load Field.entries, Event.load Field.pages,
       Event.NV_KMEM_CACHE_FREE (pt.pages_mem.getD i NULL)])) =
      (List.range k).map (fun i => pt.pages_mem.getD i NULL) := by
    intro k
    induction k with
    | zero => rfl
    | succ k ih =>
      rw [List.range_succ, List.flatMap_append, cache_freed_append, ih]
      simp [cache_freed]
  simp only [nv_p2p_free_page_table_tail, cache_freed_append, hloop]
  split_ifs <;> simp [cache_freed]

theorem freed_unlink (K : Platform) (sp : Ptr) (p2p_token va_space virtual_address : Nat)
    (page_table : Ptr) (mem_info : nv_p2p_mem_info) :
    freed (nv_p2p_put_pages_unlink K sp p2p_token va_space virtual_address page_table
      mem_info).2 = [] ∧
    cache_freed (nv_p2p_put_pages_unlink K sp p2p_token va_space virtual_address page_table
      mem_info).2 = [] := by
  simp only [nv_p2p_put_pages_unlink]
  split_ifs <;> simp [freed, cache_freed]

theorem count_dma_mapping_drain (mem : MappingMem) (L : List nv_p2p_dma_mapping) (m : Ptr) :
    (L.flatMap (fun n =>
        [Obj.node n.node, Obj.dma_addresses (mem n.dma_mapping).dma_addresses,
         Obj.dma_mapping n.dma_mapping])).count (Obj.dma_mapping m) =
      (L.map (fun n => n.dma_mapping)).count m := by
  induction L with
  | nil => rfl
  | cons n rest ih =>
    simp only [List.flatMap_cons, List.count_append, ih, List.map_cons]
    by_cases h : n.dma_mapping = m
    · simp [List.count_cons, h]; omega
    · simp [List.count_cons, h]

theorem count_other_drain (mem : MappingMem) (L : List nv_p2p_dma_mapping) (o : Obj)
    (h1 : ∀ p, o ≠ Obj.node p) (h2 : ∀ p, o ≠ Obj.dma_addresses p)
    (h3 : ∀ p, o ≠ Obj.dma_mapping p) :
    (L.flatMap (fun n =>
        [Obj.node n.node, Obj.dma_addresses (mem n.dma_mapping).dma_addresses,
         Obj.dma_mapping n.dma_mapping])).count o = 0 := by
  induction L with
  | nil => rfl
  | cons n rest ih =>
    simp only [List.flatMap_cons, List.count_append, ih]
    have a := h1 n.node
    have b := h2 (mem n.dma_mapping).dma_addresses
    have c := h3 n.dma_mapping
    simp [List.count_cons, a.symm, b.symm, c.symm]

theorem destroyed_drain (mem : MappingMem) (L : List nv_p2p_dma_mapping) :
    (L.flatMap (fun n =>
        [Obj.node n.node, Obj.dma_addresses (mem n.dma_mapping).dma_addresses,
         Obj.dma_mapping n.dma_mapping])).filterMap (fun o => match o with
          | Obj.dma_mapping m => some m
          | _ => none) = L.map (fun n => n.dma_mapping) := by
  induction L with
  | nil => rfl
  | cons n rest ih =>
    simp only [List.flatMap_cons, List.filterMap_append, ih, List.map_cons]
    simp

theorem put_pages_ok_eq (K : Platform) (mem : MappingMem) (fuel : Nat)
    (sp : Ptr) (p2p_token va_space virtual_address : Nat) (page_table : Ptr)
    (mem_info : nv_p2p_mem_info)
    (hfuel : mem_info.dma_mapping_list.length < fuel)
    (hnn : ∀ n ∈ mem_info.dma_mapping_list, n.dma_mapping ≠ NULL)
    (hok : (nv_p2p_put_pages_unlink K sp p2p_token va_space virtual_address page_table
      mem_info).1 = NV_OK) :
    nv_p2p_put_pages K mem fuel sp p2p_token va_space virtual_address page_table mem_info =
      some ⟨NV_OK, NULL, { mem_info with dma_mapping_list := [] },
        (nv_p2p_put_pages_unlink K sp p2p_token va_space virtual_address page_table
          mem_info).2 ++
        (mem_info.dma_mapping_list.flatMap (drain_node K mem) ++
          [Event.down, Event.up] ++
          nv_p2p_free_page_table_tail page_table mem_info.page_table)⟩ := by
  have hfp := free_page_table_exact K mem fuel page_table mem_info hfuel hnn
  simp only [nv_p2p_put_pages, hok, if_true, hfp]
  rfl

theorem freed_put_pages_ok (K : Platform) (mem : MappingMem)
    (sp : Ptr) (p2p_token va_space virtual_address : Nat) (page_table : Ptr)
    (mem_info : nv_p2p_mem_info) :
    freed ((nv_p2p_put_pages_unlink K sp p2p_token va_space virtual_address page_table
          mem_info).2 ++
        (mem_info.dma_mapping_list.flatMap (drain_node K mem) ++
          [Event.down, Event.up] ++
          nv_p2p_free_page_table_tail page_table mem_info.page_table)) =
      mem_info.dma_mapping_list.flatMap (fun n =>
        [Obj.node n.node, Obj.dma_addresses (mem n.dma_mapping).dma_addresses,
         Obj.dma_mapping n.dma_mapping]) ++
      ((if mem_info.page_table.gpu_uuid ≠ NULL then
          [Obj.gpu_uuid mem_info.page_table.gpu_uuid] else []) ++
       (if mem_info.page_table.pages ≠ NULL then
          [Obj.pages mem_info.page_table.pages] else []) ++
       [Obj.mem_info page_table]) := by
  simp only [freed_append, (freed_unlink K sp p2p_token va_space virtual_address page_table
    mem_info).1, freed_drain, freed_tail]
  simp [freed]

/-! ## The release protocol: claims -/

/-- C1: for every region, persistent or not, whose registry holds any list of
(non-null) mappings, when the unlink call of the resource manager returns
`NV_OK` then `nv_p2p_put_pages` returns (with any fuel above the registry
length), returns `NV_OK` and sets the caller's handle to `NULL`; the registry is
empty; after the unlink call the trace is: for each registry entry in order its
removal followed by `nv_p2p_free_dma_mapping` of its mapping, then the last
(empty) removal and the calls of the rest of `nv_p2p_free_page_table`; so the
mapping structures freed are exactly the registry's mappings, each as often as
it is registered (once); exactly `page_table.entries` page descriptors are
freed, `pages[0]` to `pages[entries-1]`; the GPU-UUID buffer and the page array
are freed once each when non-null; and the region structure is freed exactly
once. -/
theorem put_pages_ok_releases_all (K : Platform) (mem : MappingMem) (fuel : Nat)
    (sp : Ptr) (p2p_token va_space virtual_address : Nat) (page_table : Ptr)
    (mem_info : nv_p2p_mem_info)
    (hfuel : mem_info.dma_mapping_list.length < fuel)
    (hnn : ∀ n ∈ mem_info.dma_mapping_list, n.dma_mapping ≠ NULL)
    (hok : (nv_p2p_put_pages_unlink K sp p2p_token va_space virtual_address page_table
      mem_info).1 = NV_OK) :
    (nv_p2p_put_pages K mem fuel sp p2p_token va_space virtual_address page_table
        mem_info).map (fun r => (r.status, r.page_table, r.mem_info.dma_mapping_list)) =
      some (NV_OK, NULL, []) ∧
    (nv_p2p_put_pages K mem fuel sp p2p_token va_space virtual_address page_table
        mem_info).map (fun r => r.trace) =
      some ((nv_p2p_put_pages_unlink K sp p2p_token va_space virtual_address page_table
          mem_info).2 ++
        (mem_info.dma_mapping_list.flatMap (drain_node K mem) ++
          [Event.down, Event.up] ++
          nv_p2p_free_page_table_tail page_table mem_info.page_table)) ∧
    (nv_p2p_put_pages K mem fuel sp p2p_token va_space virtual_address page_table
        mem_info).map (fun r => destroyed r.trace) =
      some (mem_info.dma_mapping_list.map (fun n => n.dma_mapping)) ∧
    (∀ m : Ptr,
      (nv_p2p_put_pages K mem fuel sp p2p_token va_space virtual_address page_table
        mem_info).map (fun r => (freed r.trace).count (Obj.dma_mapping m)) =
      some ((mem_info.dma_mapping_list.map (fun n => n.dma_mapping)).count m)) ∧
    (nv_p2p_put_pages K mem fuel sp p2p_token va_space virtual_address page_table
        mem_info).map (fun r => cache_freed r.trace) =
      some ((List.range mem_info.page_table.entries).map
        (fun i => mem_info.page_table.pages_mem.getD i NULL)) ∧
    (nv_p2p_put_pages K mem fuel sp p2p_token va_space virtual_address page_table
        mem_info).map (fun r => (cache_freed r.trace).length) =
      some mem_info.page_table.entries ∧
    (mem_info.page_table.gpu_uuid ≠ NULL →
      (nv_p2p_put_pages K mem fuel sp p2p_token va_space virtual_address page_table
        mem_info).map (fun r =>
          (freed r.trace).count (Obj.gpu_uuid mem_info.page_table.gpu_uuid)) = some 1) ∧
    (mem_info.page_table.pages ≠ NULL →
      (nv_p2p_put_pages K mem fuel sp p2p_token va_space virtual_address page_table
        mem_info).map (fun r =>
          (freed r.trace).count (Obj.pages mem_info.page_table.pages)) = some 1) ∧
    (nv_p2p_put_pages K mem fuel sp p2p_token va_space virtual_address page_table
        mem_info).map (fun r => (freed r.trace).count (Obj.mem_info page_table)) =
      some 1 := by
  rw [put_pages_ok_eq K mem fuel sp p2p_token va_space virtual_address page_table mem_info
    hfuel hnn hok]
  simp only [Option.map_some', freed_put_pages_ok, destroyed]
  have hcache : cache_freed ((nv_p2p_put_pages_unlink K sp p2p_token va_space
        virtual_address page_table mem_info).2 ++
      (mem_info.dma_mapping_list.flatMap (drain_node K mem) ++
        [Event.down, Event.up] ++
        nv_p2p_free_page_table_tail page_table mem_info.page_table)) =
      (List.range mem_info.page_table.entries).map
        (fun i => mem_info.page_table.pages_mem.getD i NULL) := by
    simp only [cache_freed_append, (freed_unlink K sp p2p_token va_space virtual_address
      page_table mem_info).2, cache_freed_drain, cache_freed_tail]
    simp [cache_freed]
  refine ⟨trivial, trivial, ?_, ?_, ?_, ?_, ?_, ?_, ?_⟩
  · rw [List.filterMap_append, destroyed_drain]
    split_ifs <;> simp
  · intro m
    rw [List.count_append, count_dma_mapping_drain]
    split_ifs <;> simp [List.count_cons]
  · rw [hcache]
  · rw [hcache]; simp
  · intro hg
    rw [List.count_append, count_other_drain mem _ _ (by simp) (by simp) (by simp)]
    split_ifs <;> simp [List.count_cons]
  · intro hp
    rw [List.count_append, count_other_drain mem _ _ (by simp) (by simp) (by simp)]
    split_ifs <;> simp [List.count_cons]
  · rw [List.count_append, count_other_drain mem _ _ (by simp) (by simp) (by simp)]
    split_ifs <;> simp [List.count_cons]

/-- C1, at a concrete input: the end-to-end scenario of a region with a batch
mapping and a per-entry mapping of 3 entries, released with the tracker
reporting `NV_OK`. -/
theorem put_pages_ok_releases_all_witness :
    example_region.dma_mapping_list.length < 3 ∧
    (∀ n ∈ example_region.dma_mapping_list, n.dma_mapping ≠ NULL) ∧
    (nv_p2p_put_pages_unlink platform_ok 1 2 3 4 0x5000 example_region).1 = NV_OK ∧
    (nv_p2p_put_pages platform_ok example_mem 3 1 2 3 4 0x5000 example_region).map
        (fun r => (r.status, r.page_table, r.mem_info.dma_mapping_list)) =
      some (NV_OK, NULL, []) ∧
    (nv_p2p_put_pages platform_ok example_mem 3 1 2 3 4 0x5000 example_region).map
        (fun r => destroyed r.trace) = some [0x1000, 0x2000] ∧
    (nv_p2p_put_pages platform_ok example_mem 3 1 2 3 4 0x5000 example_region).map
        (fun r => cache_freed r.trace) = some [0x3100, 0x3200] ∧
    (nv_p2p_put_pages platform_ok example_mem 3 1 2 3 4 0x5000 example_region).map
        (fun r => (freed r.trace).count (Obj.mem_info 0x5000)) = some 1 ∧
    (nv_p2p_put_pages platform_ok example_mem 3 1 2 3 4 0x5000 example_region).map
        (fun r => r.trace.filter Event.isUnmap) =
      some [Event.nv_dma_unmap_alloc ⟨7, 0xffffffff⟩ 2 0x1100 0x55,
        Event.nv_dma_unmap_peer ⟨8, 0xffffffff⟩ 16 0x10000,
        Event.nv_dma_unmap_peer ⟨8, 0xffffffff⟩ 16 0x20000,
        Event.nv_dma_unmap_peer ⟨8, 0xffffffff⟩ 16 0x30000] ∧
    (nv_p2p_put_pages platform_ok example_mem 3 1 2 3 4 0x5000 example_region).map
        (fun r => freed r.trace) =
      some [Obj.node 0x10, Obj.dma_addresses 0x1100, Obj.dma_mapping 0x1000,
        Obj.node 0x20, Obj.dma_addresses 0x2100, Obj.dma_mapping 0x2000,
        Obj.gpu_uuid 0x4000, Obj.pages 0x3000, Obj.mem_info 0x5000] :=
  have h := put_pages_ok_releases_all platform_ok example_mem 3 1 2 3 4 0x5000
    example_region (by decide) (by decide) (by decide)
  ⟨by decide, by decide, by decide, h.1, h.2.2.1, h.2.2.2.2.1,
    h.2.2.2.2.2.2.2.2, by decide, by decide⟩

/-- C2, the code at the failing input: for every non-persistent region, when the
token unlink call returns `NV_ERR_OBJECT_NOT_FOUND`, `nv_p2p_put_pages` returns
`NV_OK`, nulls the handle and leaves the region as it is, with no free, registry
removal or unmap; but the step after the unlink call is a read of the region's
field `bPersistent` (the condition of the `else if`). -/
theorem put_pages_not_found_reads_region (K : Platform) (mem : MappingMem) (fuel : Nat)
    (sp : Ptr) (p2p_token va_space virtual_address : Nat) (page_table : Ptr)
    (mem_info : nv_p2p_mem_info) :
    nv_p2p_put_pages
        { K with rm_p2p_put_pages := fun _ _ _ _ _ => NV_ERR_OBJECT_NOT_FOUND }
        mem fuel sp p2p_token va_space virtual_address page_table
        { mem_info with bPersistent := false } =
      some ⟨NV_OK, NULL, { mem_info with bPersistent := false },
        [Event.load Field.bPersistent,
         Event.rm_p2p_put_pages sp p2p_token va_space virtual_address page_table,
         Event.load Field.bPersistent]⟩ := by
  simp [nv_p2p_put_pages, nv_p2p_put_pages_unlink, NV_OK, NV_ERR_OBJECT_NOT_FOUND]

/-- C3: for every persistent region, when the persistent unlink call returns
`NV_ERR_OBJECT_NOT_FOUND`, `nv_p2p_put_pages` returns `NV_ERR_OBJECT_NOT_FOUND`
(not `NV_OK`), leaves the caller's handle and the region unchanged, and makes no
teardown call: its steps are the reads before the call, the persistent unlink
call, the read of `bPersistent` and the warning. -/
theorem put_pages_persistent_not_found (K : Platform) (mem : MappingMem) (fuel : Nat)
    (sp : Ptr) (p2p_token va_space virtual_address : Nat) (page_table : Ptr)
    (mem_info : nv_p2p_mem_info)
    (hp : mem_info.bPersistent = true)
    (hnf : K.rm_p2p_put_pages_persistent sp mem_info.priv page_table =
      NV_ERR_OBJECT_NOT_FOUND) :
    (nv_p2p_put_pages K mem fuel sp p2p_token va_space virtual_address page_table
        mem_info).map (fun r => (r.status, r.page_table, r.mem_info)) =
      some (NV_ERR_OBJECT_NOT_FOUND, page_table, mem_info) ∧
    NV_ERR_OBJECT_NOT_FOUND ≠ NV_OK ∧
    (nv_p2p_put_pages K mem fuel sp p2p_token va_space virtual_address page_table
        mem_info).map (fun r => r.trace) =
      some [Event.load Field.bPersistent, Event.load Field.priv,
        Event.rm_p2p_put_pages_persistent sp mem_info.priv page_table,
        Event.load Field.bPersistent, Event.WARN_ON] ∧
    (nv_p2p_put_pages K mem fuel sp p2p_token va_space virtual_address page_table
        mem_info).map (fun r => r.trace.filter Event.isTeardown) = some [] := by
  simp [nv_p2p_put_pages, nv_p2p_put_pages_unlink, hp, hnf, NV_OK,
    NV_ERR_OBJECT_NOT_FOUND]

/-- C3, at a concrete input: the persistent example region against a tracker
that reports not-found. -/
theorem put_pages_persistent_not_found_witness :
    example_region_persistent.bPersistent = true ∧
    platform_not_found.rm_p2p_put_pages_persistent 1 example_region_persistent.priv
      0x5000 = NV_ERR_OBJECT_NOT_FOUND ∧
    (nv_p2p_put_pages platform_not_found example_mem 3 1 2 3 4 0x5000
        example_region_persistent).map (fun r => (r.status, r.page_table, r.mem_info)) =
      some (NV_ERR_OBJECT_NOT_FOUND, 0x5000, example_region_persistent) ∧
    (nv_p2p_put_pages platform_not_found example_mem 3 1 2 3 4 0x5000
        example_region_persistent).map (fun r => r.trace.filter Event.isTeardown) =
      some [] :=
  have h := put_pages_persistent_not_found platform_not_found example_mem 3 1 2 3 4
    0x5000 example_region_persistent (by decide) (by decide)
  ⟨by decide, by decide, h.1, h.2.2.2⟩

/-- C4: for every region and every status `s` returned by the unlink call other
than `NV_OK`, and other than `NV_ERR_OBJECT_NOT_FOUND` on a non-persistent
region, `nv_p2p_put_pages` returns exactly `s`, leaves the caller's handle
unchanged and the region unchanged (registry, page descriptors and region are
not freed: no teardown call is made), and raises the warning. -/
theorem put_pages_failure_propagates (K : Platform) (mem : MappingMem) (fuel : Nat)
    (sp : Ptr) (p2p_token va_space virtual_address : Nat) (page_table : Ptr)
    (mem_info : nv_p2p_mem_info)
    (hs : (nv_p2p_put_pages_unlink K sp p2p_token va_space virtual_address page_table
      mem_info).1 ≠ NV_OK)
    (hnf : ¬ (mem_info.bPersistent = false ∧
      (nv_p2p_put_pages_unlink K sp p2p_token va_space virtual_address page_table
        mem_info).1 = NV_ERR_OBJECT_NOT_FOUND)) :
    (nv_p2p_put_pages K mem fuel sp p2p_token va_space virtual_address page_table
        mem_info).map (fun r => (r.status, r.page_table, r.mem_info)) =
      some ((nv_p2p_put_pages_unlink K sp p2p_token va_space virtual_address page_table
        mem_info).1, page_table, mem_info) ∧
    (nv_p2p_put_pages K mem fuel sp p2p_token va_space virtual_address page_table
        mem_info).map (fun r => r.trace.filter Event.isTeardown) = some [] ∧
    (nv_p2p_put_pages K mem fuel sp p2p_token va_space virtual_address page_table
        mem_info).map (fun r => r.trace.count Event.WARN_ON) = some 1 := by
  have hcond : ¬ (¬ mem_info.bPersistent = true ∧
      (nv_p2p_put_pages_unlink K sp p2p_token va_space virtual_address page_table
        mem_info).1 = NV_ERR_OBJECT_NOT_FOUND) := by
    intro h
    exact hnf ⟨by simpa using h.1, h.2⟩
  have htr : (nv_p2p_put_pages_unlink K sp p2p_token va_space virtual_address page_table
      mem_info).2.filter Event.isTeardown = [] ∧
      (nv_p2p_put_pages_unlink K sp p2p_token va_space virtual_address page_table
      mem_info).2.count Event.WARN_ON = 0 := by
    simp only [nv_p2p_put_pages_unlink]
    split_ifs <;> simp [List.count_cons]
  simp only [nv_p2p_put_pages, hs, if_false, hcond, Option.map_some', List.filter_append,
    htr.1, List.count_append, htr.2]
  simp [List.count_cons]

/-- C4, at a concrete input: the non-persistent example region against a
tracker that fails with the status 0x40. -/
theorem put_pages_failure_propagates_witness :
    (nv_p2p_put_pages_unlink platform_failing 1 2 3 4 0x5000 example_region).1 ≠ NV_OK ∧
    ¬ (example_region.bPersistent = false ∧
      (nv_p2p_put_pages_unlink platform_failing 1 2 3 4 0x5000 example_region).1 =
        NV_ERR_OBJECT_NOT_FOUND) ∧
    (nv_p2p_put_pages platform_failing example_mem 3 1 2 3 4 0x5000 example_region).map
        (fun r => (r.status, r.page_table, r.mem_info)) =
      some (0x40, 0x5000, example_region) ∧
    (nv_p2p_put_pages platform_failing example_mem 3 1 2 3 4 0x5000 example_region).map
        (fun r => r.trace.filter Event.isTeardown) = some [] :=
  have h := put_pages_failure_propagates platform_failing example_mem 3 1 2 3 4 0x5000
    example_region (by decide) (by decide)
  ⟨by decide, by decide, h.1, h.2.1⟩

/-- C5: in every call of `nv_p2p_put_pages` (with fuel above the registry
length) exactly one unlink call of the resource manager is made: for a
persistent region it is `rm_p2p_put_pages_persistent` with the region's private
handle and the table, and the token variant is not called; for a non-persistent
region it is `rm_p2p_put_pages` with the token, the address space, the virtual
address and the table, and the persistent variant is not called. -/
theorem put_pages_one_unlink_call (K : Platform) (mem : MappingMem) (fuel : Nat)
    (sp : Ptr) (p2p_token va_space virtual_address : Nat) (page_table : Ptr)
    (mem_info : nv_p2p_mem_info)
    (hfuel : mem_info.dma_mapping_list.length < fuel) :
    (mem_info.bPersistent = true →
      (nv_p2p_put_pages K mem fuel sp p2p_token va_space virtual_address page_table
        mem_info).map (fun r => r.trace.filter Event.isUnlink) =
      some [Event.rm_p2p_put_pages_persistent sp mem_info.priv page_table]) ∧
    (mem_info.bPersistent = false →
      (nv_p2p_put_pages K mem fuel sp p2p_token va_space virtual_address page_table
        mem_info).map (fun r => r.trace.filter Event.isUnlink) =
      some [Event.rm_p2p_put_pages sp p2p_token va_space virtual_address page_table]) := by
  obtain ⟨⟨mi, t⟩, hr, hP⟩ := free_page_table_total K mem fuel page_table mem_info hfuel
  have ht : t.filter Event.isUnlink = [] := by
    rw [List.filter_eq_nil_iff]
    intro e he
    rw [hP e he]
    decide
  constructor
  · intro hp
    have hcall : nv_p2p_put_pages_unlink K sp p2p_token va_space virtual_address
        page_table mem_info =
        (K.rm_p2p_put_pages_persistent sp mem_info.priv page_table,
         [Event.load Field.bPersistent, Event.load Field.priv,
          Event.rm_p2p_put_pages_persistent sp mem_info.priv page_table]) := by
      simp [nv_p2p_put_pages_unlink, hp]
    simp only [nv_p2p_put_pages, hcall, hr]
    split_ifs <;> simp [ht]
  · intro hp
    have hcall : nv_p2p_put_pages_unlink K sp p2p_token va_space virtual_address
        page_table mem_info =
        (K.rm_p2p_put_pages sp p2p_token va_space virtual_address page_table,
         [Event.load Field.bPersistent,
          Event.rm_p2p_put_pages sp p2p_token va_space virtual_address page_table]) := by
      simp [nv_p2p_put_pages_unlink, hp]
    simp only [nv_p2p_put_pages, hcall, hr]
    split_ifs <;> simp [ht]

/-- C5, at a concrete input: the example region, non-persistent, released with
the tracker reporting `NV_OK`. -/
theorem put_pages_one_unlink_call_witness :
    example_region.dma_mapping_list.length < 3 ∧
    (nv_p2p_put_pages platform_ok example_mem 3 1 2 3 4 0x5000 example_region).map
        (fun r => r.trace.filter Event.isUnlink) =
      some [Event.rm_p2p_put_pages 1 2 3 4 0x5000] :=
  ⟨by decide,
    (put_pages_one_unlink_call platform_ok example_mem 3 1 2 3 4 0x5000 example_region
      (by decide)).2 (by decide)⟩

/-- C6 as stated fails: on the persistent example region the first call (tracker
reports `NV_OK`) succeeds, frees the region and nulls the handle; the second
call, which finds the persistence flag set where the region was and runs
against a tracker that now reports not-found, returns
`NV_ERR_OBJECT_NOT_FOUND`, which is not success. -/
theorem put_pages_twice_persistent_not_idempotent :
    (put_pages_twice platform_ok platform_not_found example_mem example_mem 3 1 2 3 4
        0x5000 example_region_persistent example_region_persistent).map
        (fun r => (r.1.status, r.1.page_table,
          (freed r.1.trace).count (Obj.mem_info 0x5000), r.2.status)) =
      some (NV_OK, NULL, 1, NV_ERR_OBJECT_NOT_FOUND) ∧
    (put_pages_twice platform_ok platform_not_found example_mem example_mem 3 1 2 3 4
        0x5000 example_region_persistent example_region_persistent).map
        (fun r => r.2.status) ≠ some NV_OK := by
  decide

/-- C6, amended: a second release makes no free, and reports success when it
reads the region as non-persistent.  For every region with (non-null)
mappings, persistent or not, the first call (unlink returns `NV_OK`) returns
`NV_OK`, nulls the handle and frees the region once.  The second call on the
same logical table, against a tracker both of whose unlink calls now return
`NV_ERR_OBJECT_NOT_FOUND`, reads where the region was some content `stale`:
whatever that is, the second call makes no free, registry removal or unmap;
if the persistence flag reads false it returns `NV_OK` and nulls its handle,
its whole trace being the flag read, the token unlink and the flag read again;
if the flag reads true it returns `NV_ERR_OBJECT_NOT_FOUND` and leaves its
handle as it was. -/
theorem put_pages_twice_idempotent (K1 K2 : Platform) (mem stale_mem : MappingMem)
    (fuel : Nat) (sp : Ptr) (p2p_token va_space virtual_address : Nat) (page_table : Ptr)
    (mem_info stale : nv_p2p_mem_info)
    (hfuel : mem_info.dma_mapping_list.length < fuel)
    (hnn : ∀ n ∈ mem_info.dma_mapping_list, n.dma_mapping ≠ NULL)
    (h1 : (nv_p2p_put_pages_unlink K1 sp p2p_token va_space virtual_address page_table
      mem_info).1 = NV_OK)
    (h2 : K2.rm_p2p_put_pages sp p2p_token va_space virtual_address page_table =
      NV_ERR_OBJECT_NOT_FOUND)
    (h2p : K2.rm_p2p_put_pages_persistent sp stale.priv page_table =
      NV_ERR_OBJECT_NOT_FOUND) :
    (put_pages_twice K1 K2 mem stale_mem fuel sp p2p_token va_space virtual_address
        page_table mem_info stale).map
        (fun r => (r.1.status, r.1.page_table,
          (freed r.1.trace).count (Obj.mem_info page_table))) = some (NV_OK, NULL, 1) ∧
    (put_pages_twice K1 K2 mem stale_mem fuel sp p2p_token va_space virtual_address
        page_table mem_info stale).map (fun r => r.2.trace.filter Event.isTeardown) =
      some [] ∧
    (stale.bPersistent = false →
      (put_pages_twice K1 K2 mem stale_mem fuel sp p2p_token va_space virtual_address
          page_table mem_info stale).map
          (fun r => (r.2.status, r.2.page_table, r.2.trace)) =
        some (NV_OK, NULL, [Event.load Field.bPersistent,
          Event.rm_p2p_put_pages sp p2p_token va_space virtual_address page_table,
          Event.load Field.bPersistent])) ∧
    (stale.bPersistent = true →
      (put_pages_twice K1 K2 mem stale_mem fuel sp p2p_token va_space virtual_address
          page_table mem_info stale).map (fun r => (r.2.status, r.2.page_table)) =
        some (NV_ERR_OBJECT_NOT_FOUND, page_table)) := by
  have hfirst := put_pages_ok_eq K1 mem fuel sp p2p_token va_space virtual_address
    page_table mem_info hfuel hnn h1
  have hfreed := freed_put_pages_ok K1 mem sp p2p_token va_space virtual_address
    page_table mem_info
  have hcount : (freed
      ((nv_p2p_put_pages_unlink K1 sp p2p_token va_space virtual_address page_table
          mem_info).2 ++
        (mem_info.dma_mapping_list.flatMap (drain_node K1 mem) ++
          [Event.down, Event.up] ++
          nv_p2p_free_page_table_tail page_table mem_info.page_table))).count
      (Obj.mem_info page_table) = 1 := by
    rw [hfreed, List.count_append, count_other_drain mem _ _ (by simp) (by simp) (by simp)]
    split_ifs <;> simp [List.count_cons]
  have hmem : Obj.mem_info page_table ∈ freed
      ((nv_p2p_put_pages_unlink K1 sp p2p_token va_space virtual_address page_table
          mem_info).2 ++
        (mem_info.dma_mapping_list.flatMap (drain_node K1 mem) ++
          [Event.down, Event.up] ++
          nv_p2p_free_page_table_tail page_table mem_info.page_table)) := by
    rw [hfreed]
    simp
  cases hs : stale.bPersistent with
  | false =>
    have hsecond : nv_p2p_put_pages K2 stale_mem fuel sp p2p_token va_space
        virtual_address page_table stale =
        some ⟨NV_OK, NULL, stale,
          [Event.load Field.bPersistent,
           Event.rm_p2p_put_pages sp p2p_token va_space virtual_address page_table,
           Event.load Field.bPersistent]⟩ := by
      simp [nv_p2p_put_pages, nv_p2p_put_pages_unlink, hs, h2, NV_OK,
        NV_ERR_OBJECT_NOT_FOUND]
    simp only [put_pages_twice, hfirst, if_pos hmem, hsecond, Option.map_some', hcount]
    simp [Event.isTeardown]
  | true =>
    have hsecond : nv_p2p_put_pages K2 stale_mem fuel sp p2p_token va_space
        virtual_address page_table stale =
        some ⟨NV_ERR_OBJECT_NOT_FOUND, page_table, stale,
          [Event.load Field.bPersistent, Event.load Field.priv,
           Event.rm_p2p_put_pages_persistent sp stale.priv page_table,
           Event.load Field.bPersistent, Event.WARN_ON]⟩ := by
      simp [nv_p2p_put_pages, nv_p2p_put_pages_unlink, hs, h2p, NV_OK,
        NV_ERR_OBJECT_NOT_FOUND]
    simp only [put_pages_twice, hfirst, if_pos hmem, hsecond, Option.map_some', hcount]
    simp [Event.isTeardown]

/-- C6 amended, at a concrete input: the non-persistent example region released
twice, the second call reading an emptied non-persistent region. -/
theorem put_pages_twice_idempotent_witness :
    example_region.dma_mapping_list.length < 3 ∧
    (∀ n ∈ example_region.dma_mapping_list, n.dma_mapping ≠ NULL) ∧
    (nv_p2p_put_pages_unlink platform_ok 1 2 3 4 0x5000 example_region).1 = NV_OK ∧
    platform_not_found.rm_p2p_put_pages 1 2 3 4 0x5000 = NV_ERR_OBJECT_NOT_FOUND ∧
    platform_not_found.rm_p2p_put_pages_persistent 1 example_region_empty.priv 0x5000 =
      NV_ERR_OBJECT_NOT_FOUND ∧
    (put_pages_twice platform_ok platform_not_found example_mem example_mem_4k 3 1 2 3 4
        0x5000 example_region example_region_empty).map
        (fun r => (r.1.status, r.1.page_table,
          (freed r.1.trace).count (Obj.mem_info 0x5000))) = some (NV_OK, NULL, 1) ∧
    (put_pages_twice platform_ok platform_not_found example_mem example_mem_4k 3 1 2 3 4
        0x5000 example_region example_region_empty).map
        (fun r => r.2.trace.filter Event.isTeardown) = some [] ∧
    (put_pages_twice platform_ok platform_not_found example_mem example_mem_4k 3 1 2 3 4
        0x5000 example_region example_region_empty).map
        (fun r => (r.2.status, r.2.page_table, r.2.trace)) =
      some (NV_OK, NULL, [Event.load Field.bPersistent,
        Event.rm_p2p_put_pages 1 2 3 4 0x5000, Event.load Field.bPersistent]) :=
  have h := put_pages_twice_idempotent platform_ok platform_not_found example_mem
    example_mem_4k 3 1 2 3 4 0x5000 example_region example_region_empty (by decide)
    (by decide) (by decide) (by decide) (by decide)
  ⟨by decide, by decide, by decide, by decide, by decide, h.1, h.2.1,
    h.2.2.1 (by decide)⟩

/-- C7: in every execution of `nv_p2p_put_pages` (with fuel above the registry
length) the trace splits as `pre ++ u :: post` where `u` is the one unlink call,
no step of `pre` is a registry removal, an unmap or a free, and when the unlink
call returns a status other than `NV_OK` no step of `post` is one either: every
teardown step comes after an unlink call that returned `NV_OK`. -/
theorem put_pages_unlink_before_teardown (K : Platform) (mem : MappingMem) (fuel : Nat)
    (sp : Ptr) (p2p_token va_space virtual_address : Nat) (page_table : Ptr)
    (mem_info : nv_p2p_mem_info)
    (hfuel : mem_info.dma_mapping_list.length < fuel) :
    ∃ r pre u post,
      nv_p2p_put_pages K mem fuel sp p2p_token va_space virtual_address page_table
        mem_info = some r ∧
      r.trace = pre ++ u :: post ∧ u.isUnlink = true ∧
      (∀ e ∈ pre, e.isTeardown = false ∧ e.isUnlink = false) ∧
      (∀ e ∈ post, e.isUnlink = false) ∧
      ((nv_p2p_put_pages_unlink K sp p2p_token va_space virtual_address page_table
          mem_info).1 ≠ NV_OK → ∀ e ∈ post, e.isTeardown = false) := by
  obtain ⟨⟨mi, t⟩, hr, hP⟩ := free_page_table_total K mem fuel page_table mem_info hfuel
  have hsplit : ∃ pre u,
      (nv_p2p_put_pages_unlink K sp p2p_token va_space virtual_address page_table
        mem_info).2 = pre ++ [u] ∧ u.isUnlink = true ∧
      ∀ e ∈ pre, e.isTeardown = false ∧ e.isUnlink = false := by
    simp only [nv_p2p_put_pages_unlink]
    split_ifs
    · exact ⟨[Event.load Field.bPersistent, Event.load Field.priv], _, rfl, rfl, by simp⟩
    · exact ⟨[Event.load Field.bPersistent], _, rfl, rfl, by simp⟩
  obtain ⟨pre, u, hcall, hu, hpre⟩ := hsplit
  by_cases hs : (nv_p2p_put_pages_unlink K sp p2p_token va_space virtual_address
      page_table mem_info).1 = NV_OK
  · have heq : nv_p2p_put_pages K mem fuel sp p2p_token va_space virtual_address
        page_table mem_info =
        some ⟨(nv_p2p_put_pages_unlink K sp p2p_token va_space virtual_address
          page_table mem_info).1, NULL, mi,
          (nv_p2p_put_pages_unlink K sp p2p_token va_space virtual_address
          page_table mem_info).2 ++ t⟩ := by
      simp only [nv_p2p_put_pages, hs, if_true, hr]
    exact ⟨_, pre, u, t, heq, by simp [hcall], hu, hpre, hP, fun h => absurd hs h⟩
  · by_cases hnf : ¬ mem_info.bPersistent = true ∧
        (nv_p2p_put_pages_unlink K sp p2p_token va_space virtual_address page_table
          mem_info).1 = NV_ERR_OBJECT_NOT_FOUND
    · have heq : nv_p2p_put_pages K mem fuel sp p2p_token va_space virtual_address
          page_table mem_info =
          some ⟨NV_OK, NULL, mem_info,
            (nv_p2p_put_pages_unlink K sp p2p_token va_space virtual_address
            page_table mem_info).2 ++ [Event.load Field.bPersistent]⟩ := by
        unfold nv_p2p_put_pages
        simp only [if_neg hs, if_pos hnf]
      exact ⟨_, pre, u, [Event.load Field.bPersistent], heq, by simp [hcall], hu, hpre,
        by simp, fun _ => by simp⟩
    · have heq : nv_p2p_put_pages K mem fuel sp p2p_token va_space virtual_address
          page_table mem_info =
          some ⟨(nv_p2p_put_pages_unlink K sp p2p_token va_space virtual_address
            page_table mem_info).1, page_table, mem_info,
            (nv_p2p_put_pages_unlink K sp p2p_token va_space virtual_address
            page_table mem_info).2 ++ [Event.load Field.bPersistent, Event.WARN_ON]⟩ := by
        unfold nv_p2p_put_pages
        simp only [if_neg hs, if_neg hnf]
      exact ⟨_, pre, u, [Event.load Field.bPersistent, Event.WARN_ON], heq,
        by simp [hcall], hu, hpre, by simp, fun _ => by simp⟩

/-- C7, at a concrete input: the example region released with the tracker
reporting `NV_OK`. -/
theorem put_pages_unlink_before_teardown_witness :
    example_region.dma_mapping_list.length < 3 ∧
    ∃ r pre u post,
      nv_p2p_put_pages platform_ok example_mem 3 1 2 3 4 0x5000 example_region = some r ∧
      r.trace = pre ++ u :: post ∧ u.isUnlink = true ∧
      (∀ e ∈ pre, e.isTeardown = false ∧ e.isUnlink = false) ∧
      (∀ e ∈ post, e.isUnlink = false) ∧
      ((nv_p2p_put_pages_unlink platform_ok 1 2 3 4 0x5000 example_region).1 ≠ NV_OK →
        ∀ e ∈ post, e.isTeardown = false) :=
  ⟨by decide,
    put_pages_unlink_before_teardown platform_ok example_mem 3 1 2 3 4 0x5000
      example_region (by decide)⟩

/-! ## The registry: claims -/

/-- C8: for every region list `L` and every mapping `m` (a non-null pointer),
after a successful `nv_p2p_insert_dma_mapping(region, m)` the list has length
`|L| + 1`, and `nv_p2p_remove_dma_mapping(region, m)` returns exactly `m` and
leaves a list of length `|L|`. -/
theorem insert_then_remove_returns_mapping (alloc_status : NV_STATUS) (node m : Ptr)
    (mem_info : nv_p2p_mem_info) (hm : m ≠ NULL)
    (hok : (nv_p2p_insert_dma_mapping alloc_status node mem_info m).1 = NV_OK) :
    (nv_p2p_insert_dma_mapping alloc_status node mem_info m).2.1.dma_mapping_list.length =
      mem_info.dma_mapping_list.length + 1 ∧
    (nv_p2p_remove_dma_mapping
      (nv_p2p_insert_dma_mapping alloc_status node mem_info m).2.1 m).1 = m ∧
    (nv_p2p_remove_dma_mapping
      (nv_p2p_insert_dma_mapping alloc_status node mem_info m).2.1 m).2.1.dma_mapping_list.length =
      mem_info.dma_mapping_list.length := by
  have halloc : alloc_status = NV_OK := by
    by_contra h
    simp [nv_p2p_insert_dma_mapping, h] at hok
  subst halloc
  have hin : m ∈ (mem_info.dma_mapping_list ++
      [(⟨node, m⟩ : nv_p2p_dma_mapping)]).map (fun n => n.dma_mapping) := by
    simp
  have h := scan_present m hm (mem_info.dma_mapping_list ++ [⟨node, m⟩]) hin
  simp only [nv_p2p_insert_dma_mapping, nv_p2p_remove_dma_mapping, ne_eq, not_true_eq_false,
    if_false]
  refine ⟨by simp, h.1, ?_⟩
  have := h.2
  simp only [List.length_append, List.length_singleton] at this
  omega

/-- C8, at a concrete input: a third mapping inserted into the example region
and removed again. -/
theorem insert_then_remove_returns_mapping_witness :
    (0x3000 : Ptr) ≠ NULL ∧
    (nv_p2p_insert_dma_mapping NV_OK 0x30 example_region 0x3000).1 = NV_OK ∧
    (nv_p2p_remove_dma_mapping
      (nv_p2p_insert_dma_mapping NV_OK 0x30 example_region 0x3000).2.1 0x3000).1 = 0x3000 ∧
    (nv_p2p_remove_dma_mapping
      (nv_p2p_insert_dma_mapping NV_OK 0x30 example_region 0x3000).2.1
        0x3000).2.1.dma_mapping_list.length = 2 :=
  have h := insert_then_remove_returns_mapping NV_OK 0x30 0x3000 example_region
    (by decide) (by decide)
  ⟨by decide, by decide, h.2.1, h.2.2⟩

/-- C9: for every region list `L` and every non-null mapping `m` that is not an
element of `L` (`L` may be empty), `nv_p2p_remove_dma_mapping(region, m)` returns
`NULL` and leaves the region unchanged, freeing no node; and on every region
with an empty list `nv_p2p_remove_dma_mapping(region, NULL)` returns `NULL` and
leaves the list empty. -/
theorem remove_absent_returns_null (mem_info : nv_p2p_mem_info) (m : Ptr) (hm : m ≠ NULL)
    (habs : ∀ n ∈ mem_info.dma_mapping_list, n.dma_mapping ≠ m) :
    nv_p2p_remove_dma_mapping mem_info m = (NULL, mem_info, [Event.down, Event.up]) ∧
    (∀ empty : nv_p2p_mem_info, empty.dma_mapping_list = [] →
      nv_p2p_remove_dma_mapping empty NULL = (NULL, empty, [Event.down, Event.up]) ∧
      (nv_p2p_remove_dma_mapping empty NULL).2.1.dma_mapping_list = []) := by
  refine ⟨?_, fun empty he => ?_⟩
  · simp [nv_p2p_remove_dma_mapping, scan_absent m hm _ habs]
  · rw [remove_null_nil empty he]
    exact ⟨rfl, he⟩

/-- C9, at a concrete input: a handle that is not registered in the example
region, and the null handle on the empty region. -/
theorem remove_absent_returns_null_witness :
    (0x7777 : Ptr) ≠ NULL ∧
    (∀ n ∈ example_region.dma_mapping_list, n.dma_mapping ≠ 0x7777) ∧
    nv_p2p_remove_dma_mapping example_region 0x7777 =
      (NULL, example_region, [Event.down, Event.up]) ∧
    nv_p2p_remove_dma_mapping example_region_empty NULL =
      (NULL, example_region_empty, [Event.down, Event.up]) :=
  have h := remove_absent_returns_null example_region 0x7777 (by decide) (by decide)
  ⟨by decide, by decide, h.1, (h.2 example_region_empty rfl).1⟩

/-- C10: for every list of `n` (non-null) mappings `m1..mn` inserted in order
into an empty registry, `n + 1` successive calls
`nv_p2p_remove_dma_mapping(region, NULL)` return `m1, ..., mn` in insertion order
and then `NULL` (the first null result, so the drain stops there) and leave the
list empty; and removing each of `m1..mn` by its handle, in any permutation,
reaches the same final state. -/
theorem drain_in_insertion_order (ps : List (Ptr × Ptr)) (mem_info : nv_p2p_mem_info)
    (hempty : mem_info.dma_mapping_list = [])
    (hnn : ∀ p ∈ ps, p.2 ≠ NULL) :
    (insert_all ps mem_info).dma_mapping_list.map (fun n => n.dma_mapping) =
      ps.map (fun p => p.2) ∧
    remove_null_repeat (ps.length + 1) (insert_all ps mem_info) =
      (ps.map (fun p => p.2) ++ [NULL], mem_info) ∧
    (remove_null_repeat (ps.length + 1) (insert_all ps mem_info)).2.dma_mapping_list = [] ∧
    (∀ σ : List Ptr, σ.Perm (ps.map (fun p => p.2)) →
      remove_each σ (insert_all ps mem_info) =
        (remove_null_repeat (ps.length + 1) (insert_all ps mem_info)).2) := by
  have hmi : mem_info = { mem_info with dma_mapping_list := [] } := by
    cases mem_info; simp_all
  have hlist : (insert_all ps mem_info).dma_mapping_list =
      ps.map (fun p => (⟨p.1, p.2⟩ : nv_p2p_dma_mapping)) := by
    simp [insert_all_list, hempty]
  have hmap : (insert_all ps mem_info).dma_mapping_list.map (fun n => n.dma_mapping) =
      ps.map (fun p => p.2) := by
    simp [hlist, List.map_map, Function.comp_def]
  have hdrain : remove_null_repeat (ps.length + 1) (insert_all ps mem_info) =
      (ps.map (fun p => p.2) ++ [NULL], mem_info) := by
    have h := remove_null_repeat_drain _ (insert_all ps mem_info) rfl
    rw [hmap, hlist, List.length_map] at h
    rw [h]
    congr 1
    rw [insert_all_list]
    exact hmi.symm
  refine ⟨hmap, hdrain, by rw [hdrain]; exact hempty, ?_⟩
  intro σ hσ
  rw [hdrain]
  have hσnn : ∀ m ∈ σ, m ≠ NULL := by
    intro m hmem
    have : m ∈ ps.map (fun p => p.2) := hσ.subset hmem
    obtain ⟨p, hp, rfl⟩ := List.mem_map.mp this
    exact hnn p hp
  rw [remove_each_perm σ hσnn (insert_all ps mem_info) (by rw [hmap]; exact hσ),
    insert_all_list]
  exact hmi.symm

/-- C10, at a concrete input: three mappings inserted into the empty example
region, drained, and removed by handle in the order third, first, second. -/
theorem drain_in_insertion_order_witness :
    example_region_empty.dma_mapping_list = [] ∧
    (∀ p ∈ [((0x10 : Ptr), (0x1000 : Ptr)), (0x20, 0x2000), (0x30, 0x3000)], p.2 ≠ NULL) ∧
    remove_null_repeat 4
        (insert_all [(0x10, 0x1000), (0x20, 0x2000), (0x30, 0x3000)] example_region_empty) =
      ([0x1000, 0x2000, 0x3000, NULL], example_region_empty) ∧
    remove_each [0x3000, 0x1000, 0x2000]
        (insert_all [(0x10, 0x1000), (0x20, 0x2000), (0x30, 0x3000)] example_region_empty) =
      (remove_null_repeat 4
        (insert_all [(0x10, 0x1000), (0x20, 0x2000), (0x30, 0x3000)]
          example_region_empty)).2 :=
  have h := drain_in_insertion_order [(0x10, 0x1000), (0x20, 0x2000), (0x30, 0x3000)]
    example_region_empty rfl (by decide)
  ⟨rfl, by decide, h.2.1, h.2.2.2 [0x3000, 0x1000, 0x2000] (by decide)⟩

/-! ## Insertion and translation: claims -/

/-- C11: `nv_p2p_insert_dma_mapping`: when the node allocation succeeds it returns
`NV_OK` and the region's list becomes `L ++ [m]` (the new node at the tail, the
existing nodes and their order unchanged, no other field of the region
changed); when the allocation fails it returns the allocator's failure status
as it is (for the out-of-memory status, `NV_ERR_NO_MEMORY`) and the region is
unchanged. -/
theorem insert_appends_or_fails (alloc_status : NV_STATUS) (node m : Ptr)
    (mem_info : nv_p2p_mem_info) :
    (alloc_status = NV_OK →
      (nv_p2p_insert_dma_mapping alloc_status node mem_info m).1 = NV_OK ∧
      (nv_p2p_insert_dma_mapping alloc_status node mem_info m).2.1 =
        { mem_info with
          dma_mapping_list := mem_info.dma_mapping_list ++ [⟨node, m⟩] } ∧
      (nv_p2p_insert_dma_mapping alloc_status node mem_info m).2.1.dma_mapping_list.map
          (fun n => n.dma_mapping) =
        mem_info.dma_mapping_list.map (fun n => n.dma_mapping) ++ [m]) ∧
    (alloc_status ≠ NV_OK →
      (nv_p2p_insert_dma_mapping alloc_status node mem_info m).1 = alloc_status ∧
      (nv_p2p_insert_dma_mapping alloc_status node mem_info m).2.1 = mem_info) ∧
    (nv_p2p_insert_dma_mapping NV_ERR_NO_MEMORY node mem_info m).1 = NV_ERR_NO_MEMORY ∧
    (nv_p2p_insert_dma_mapping NV_ERR_NO_MEMORY node mem_info m).2.1 = mem_info := by
  refine ⟨fun h => ?_, fun h => ?_, ?_, ?_⟩
  · subst h
    simp [nv_p2p_insert_dma_mapping]
  · simp [nv_p2p_insert_dma_mapping, h]
  · simp [nv_p2p_insert_dma_mapping, NV_ERR_NO_MEMORY, NV_OK]
  · simp [nv_p2p_insert_dma_mapping, NV_ERR_NO_MEMORY, NV_OK]

/-- C11, at a concrete input: a third mapping inserted into the example region,
with the allocation succeeding and with it failing for lack of memory. -/
theorem insert_appends_or_fails_witness :
    (nv_p2p_insert_dma_mapping NV_OK 0x30 example_region 0x3000).1 = NV_OK ∧
    (nv_p2p_insert_dma_mapping NV_OK 0x30 example_region 0x3000).2.1.dma_mapping_list.map
        (fun n => n.dma_mapping) = [0x1000, 0x2000, 0x3000] ∧
    NV_ERR_NO_MEMORY ≠ NV_OK ∧
    (nv_p2p_insert_dma_mapping NV_ERR_NO_MEMORY 0 example_region 0x3000).1 =
      NV_ERR_NO_MEMORY ∧
    (nv_p2p_insert_dma_mapping NV_ERR_NO_MEMORY 0 example_region 0x3000).2.1 =
      example_region :=
  have h := insert_appends_or_fails NV_OK 0x30 0x3000 example_region
  have g := insert_appends_or_fails NV_ERR_NO_MEMORY 0 0x3000 example_region
  ⟨(h.1 rfl).1, (h.1 rfl).2.2, by decide, (g.2.1 (by decide)).1, (g.2.1 (by decide)).2⟩

/-- C13: `nvidia_p2p_map_status` maps every entry of the status table to its
platform code: generic failure to `-EIO`; insufficient resources and no-memory
to `-ENOMEM`; invalid argument, invalid object handle and object-not-found to
`-EINVAL`; invalid state to `-EIO`; not-supported to `-ENOTSUPP`; state-in-use
to `-EBUSY`; GPU-UUID-not-found to `-ENODEV`; `NV_OK` to 0. -/
theorem map_status_table :
    nvidia_p2p_map_status NV_ERR_GENERIC = - EIO ∧
    nvidia_p2p_map_status NV_ERR_INSUFFICIENT_RESOURCES = - ENOMEM ∧
    nvidia_p2p_map_status NV_ERR_NO_MEMORY = - ENOMEM ∧
    nvidia_p2p_map_status NV_ERR_INVALID_ARGUMENT = - EINVAL ∧
    nvidia_p2p_map_status NV_ERR_INVALID_OBJECT_HANDLE = - EINVAL ∧
    nvidia_p2p_map_status NV_ERR_OBJECT_NOT_FOUND = - EINVAL ∧
    nvidia_p2p_map_status NV_ERR_INVALID_STATE = - EIO ∧
    nvidia_p2p_map_status NV_ERR_NOT_SUPPORTED = - ENOTSUPP ∧
    nvidia_p2p_map_status NV_ERR_STATE_IN_USE = - EBUSY ∧
    nvidia_p2p_map_status NV_ERR_GPU_UUID_NOT_FOUND = - ENODEV ∧
    nvidia_p2p_map_status NV_OK = 0 ∧
    (∀ entry ∈ nvidia_status_mappings, nvidia_p2p_map_status entry.1 = entry.2) := by
  decide

theorem map_status_loop_absent (s : NV_STATUS) (error : Int)
    (table : List (NV_STATUS × Int)) (h : s ∉ table.map (fun entry => entry.1)) :
    nvidia_p2p_map_status_loop s error table = error := by
  induction table with
  | nil => rfl
  | cons entry rest ih =>
    simp only [List.map_cons, List.mem_cons, not_or] at h
    simp [nvidia_p2p_map_status_loop, Ne.symm h.1, ih h.2]

theorem map_status_loop_present (s : NV_STATUS) (error : Int)
    (table : List (NV_STATUS × Int)) (h : s ∈ table.map (fun entry => entry.1)) :
    (s, nvidia_p2p_map_status_loop s error table) ∈ table := by
  induction table with
  | nil => simp at h
  | cons entry rest ih =>
    by_cases he : entry.1 = s
    · simp only [nvidia_p2p_map_status_loop, he, if_true]
      rw [← he]
      exact List.mem_cons_self _ _
    · simp only [List.map_cons, List.mem_cons] at h
      have hrest := ih (h.resolve_left (fun h' => he h'.symm))
      simp only [nvidia_p2p_map_status_loop, he, if_false]
      exact List.mem_cons_of_mem _ hrest

/-- C14: `nvidia_p2p_map_status` is total and fails safe: for every status value
that is not in the table it returns `-EIO`, which is not 0; and for every
status value `s` it returns 0 if and only if `s` is `NV_OK`. -/
theorem map_status_fail_safe (s : NV_STATUS) :
    (s ∉ nvidia_status_mappings.map (fun entry => entry.1) →
      nvidia_p2p_map_status s = - EIO) ∧
    - EIO ≠ 0 ∧
    (nvidia_p2p_map_status s = 0 ↔ s = NV_OK) := by
  refine ⟨fun h => map_status_loop_absent s _ _ h, by decide, ?_, ?_⟩
  · intro h0
    by_cases hin : s ∈ nvidia_status_mappings.map (fun entry => entry.1)
    · have hmem := map_status_loop_present s (- EIO) nvidia_status_mappings hin
      have hall : ∀ entry ∈ nvidia_status_mappings, entry.2 = 0 → entry.1 = NV_OK := by
        decide
      exact hall _ hmem h0
    · have := map_status_loop_absent s (- EIO) nvidia_status_mappings hin
      rw [nvidia_p2p_map_status, this] at h0
      exact absurd h0 (by decide)
  · intro hs
    subst hs
    decide

/-- C14, at a concrete input: the status 0x1234, which is not in the table. -/
theorem map_status_fail_safe_witness :
    (0x1234 : NV_STATUS) ∉ nvidia_status_mappings.map (fun entry => entry.1) ∧
    nvidia_p2p_map_status 0x1234 = - EIO ∧
    nvidia_p2p_map_status 0x1234 ≠ 0 :=
  have h := map_status_fail_safe 0x1234
  ⟨by decide, h.1 (by decide), fun h0 => absurd (h.2.2.mp h0) (by decide)⟩

theorem map_page_size_cases (page_size : Nat) :
    (page_size = 4096 ∧ nvidia_p2p_map_page_size page_size = (NV_OK, some 0)) ∨
    (page_size = 65536 ∧ nvidia_p2p_map_page_size page_size = (NV_OK, some 1)) ∨
    (page_size = 131072 ∧ nvidia_p2p_map_page_size page_size = (NV_OK, some 2)) ∨
    (page_size ∉ nvidia_p2p_page_size_mappings ∧
      nvidia_p2p_map_page_size page_size = (NV_ERR_GENERIC, none)) := by
  by_cases h1 : page_size = 4096
  · left; subst h1; exact ⟨rfl, by decide⟩
  by_cases h2 : page_size = 65536
  · right; left; subst h2; exact ⟨rfl, by decide⟩
  by_cases h3 : page_size = 131072
  · right; right; left; subst h3; exact ⟨rfl, by decide⟩
  right; right; right
  refine ⟨by simp [nvidia_p2p_page_size_mappings, h1, h2, h3], ?_⟩
  simp [nvidia_p2p_map_page_size, nvidia_p2p_page_size_mappings,
    nvidia_p2p_map_page_size_loop, Ne.symm h1, Ne.symm h2, Ne.symm h3,
    NVIDIA_P2P_PAGE_SIZE_COUNT]

/-- C15: `nvidia_p2p_map_page_size` returns `NV_OK` with the index 0, 1, 2 for the
page sizes 4K, 64K, 128K; for every other page size (32K for one) it fails,
with a status other than `NV_OK`, and writes no index; and whenever it writes
an index `i`, it returns `NV_OK`, `i` is below the table size and
`nvidia_p2p_page_size_mappings[i]` is the page size. -/
theorem map_page_size_index (page_size : Nat) :
    nvidia_p2p_map_page_size 4096 = (NV_OK, some 0) ∧
    nvidia_p2p_map_page_size 65536 = (NV_OK, some 1) ∧
    nvidia_p2p_map_page_size 131072 = (NV_OK, some 2) ∧
    (nvidia_p2p_map_page_size 32768).1 ≠ NV_OK ∧
    (nvidia_p2p_map_page_size 32768).2 = none ∧
    (page_size ∉ nvidia_p2p_page_size_mappings →
      (nvidia_p2p_map_page_size page_size).1 ≠ NV_OK ∧
      (nvidia_p2p_map_page_size page_size).2 = none) ∧
    (∀ i, (nvidia_p2p_map_page_size page_size).2 = some i →
      (nvidia_p2p_map_page_size page_size).1 = NV_OK ∧
      i < NVIDIA_P2P_PAGE_SIZE_COUNT ∧
      nvidia_p2p_page_size_mappings.get? i = some page_size) ∧
    ((nvidia_p2p_map_page_size page_size).1 = NV_OK →
      ∃ i, (nvidia_p2p_map_page_size page_size).2 = some i) := by
  refine ⟨by decide, by decide, by decide, by decide, by decide, ?_, ?_, ?_⟩
  · intro h
    rcases map_page_size_cases page_size with ⟨h1, _⟩ | ⟨h1, _⟩ | ⟨h1, _⟩ | ⟨_, h2⟩
    · exact absurd (by rw [h1]; decide) h
    · exact absurd (by rw [h1]; decide) h
    · exact absurd (by rw [h1]; decide) h
    · rw [h2]; exact ⟨by decide, rfl⟩
  · intro i hi
    rcases map_page_size_cases page_size with ⟨h1, h2⟩ | ⟨h1, h2⟩ | ⟨h1, h2⟩ | ⟨_, h2⟩
    · rw [h2] at hi ⊢
      obtain rfl : 0 = i := by simpa using hi
      subst h1; exact ⟨rfl, by decide, by decide⟩
    · rw [h2] at hi ⊢
      obtain rfl : 1 = i := by simpa using hi
      subst h1; exact ⟨rfl, by decide, by decide⟩
    · rw [h2] at hi ⊢
      obtain rfl : 2 = i := by simpa using hi
      subst h1; exact ⟨rfl, by decide, by decide⟩
    · rw [h2] at hi
      simp at hi
  · intro hok
    rcases map_page_size_cases page_size with ⟨_, h2⟩ | ⟨_, h2⟩ | ⟨_, h2⟩ | ⟨_, h2⟩
    · exact ⟨0, by rw [h2]⟩
    · exact ⟨1, by rw [h2]⟩
    · exact ⟨2, by rw [h2]⟩
    · rw [h2] at hok
      exact absurd hok (by decide)

/-- C15, at a concrete input: the page size 32K, which is in no class, and the
page size 64K. -/
theorem map_page_size_index_witness :
    (32768 : Nat) ∉ nvidia_p2p_page_size_mappings ∧
    (nvidia_p2p_map_page_size 32768).1 ≠ NV_OK ∧
    (nvidia_p2p_map_page_size 32768).2 = none ∧
    (nvidia_p2p_map_page_size 65536).2 = some 1 ∧
    nvidia_p2p_page_size_mappings.get? 1 = some 65536 :=
  have h := map_page_size_index 32768
  have g := map_page_size_index 65536
  ⟨by decide, (h.2.2.2.2.2.1 (by decide)).1, (h.2.2.2.2.2.1 (by decide)).2,
    by decide, (g.2.2.2.2.2.2.1 1 (by decide)).2.2⟩

/-- C16 as stated fails: for the page size 32K, which matches no class,
`nvidia_p2p_map_page_size` reports `NV_ERR_GENERIC`, not `NV_ERR_NOT_SUPPORTED`,
and `nvidia_p2p_map_status` translates that status to `-EIO`, not to
`-ENOTSUPP`. -/
theorem map_page_size_failure_not_unsupported :
    (nvidia_p2p_map_page_size 32768).1 = NV_ERR_GENERIC ∧
    (nvidia_p2p_map_page_size 32768).1 ≠ NV_ERR_NOT_SUPPORTED ∧
    nvidia_p2p_map_status (nvidia_p2p_map_page_size 32768).1 = - EIO ∧
    nvidia_p2p_map_status (nvidia_p2p_map_page_size 32768).1 ≠ - ENOTSUPP := by
  decide

/-- C16, amended: when `nvidia_p2p_map_page_size` is given a page size that
matches none of {4K, 64K, 128K}, the failure it reports is the generic status
`NV_ERR_GENERIC`, and the platform error after status translation is the
generic I/O error `-EIO`. -/
theorem map_page_size_failure_generic (page_size : Nat)
    (h : page_size ∉ nvidia_p2p_page_size_mappings) :
    (nvidia_p2p_map_page_size page_size).1 = NV_ERR_GENERIC ∧
    nvidia_p2p_map_status (nvidia_p2p_map_page_size page_size).1 = - EIO := by
  rcases map_page_size_cases page_size with ⟨h1, _⟩ | ⟨h1, _⟩ | ⟨h1, _⟩ | ⟨_, h2⟩
  · exact absurd (by rw [h1]; decide) h
  · exact absurd (by rw [h1]; decide) h
  · exact absurd (by rw [h1]; decide) h
  · rw [h2]
    exact ⟨rfl, by decide⟩

/-- C16 amended, at a concrete input: the page size 32K. -/
theorem map_page_size_failure_generic_witness :
    (32768 : Nat) ∉ nvidia_p2p_page_size_mappings ∧
    (nvidia_p2p_map_page_size 32768).1 = NV_ERR_GENERIC ∧
    nvidia_p2p_map_status (nvidia_p2p_map_page_size 32768).1 = - EIO :=
  have h := map_page_size_failure_generic 32768 (by decide)
  ⟨by decide, h.1, h.2⟩

/-! ## Mapping teardown: claims -/

/-- C17: batch strategy of `nv_p2p_free_dma_mapping`: for every mapping whose
private handle is non-null, whatever its `entries`, the unmap calls made are
exactly one `nv_dma_unmap_alloc`, with the mapping's device context, entries
count, address array and handle, and no `nv_dma_unmap_peer`. -/
theorem free_dma_mapping_batch (K : Platform) (mem : MappingMem) (dma_mapping : Ptr)
    (h : (mem dma_mapping).priv ≠ NULL) :
    (nv_p2p_free_dma_mapping K mem dma_mapping).filter Event.isUnmap =
      [Event.nv_dma_unmap_alloc ⟨(mem dma_mapping).pci_dev, (mem dma_mapping).dma_mask⟩
        (mem dma_mapping).entries (mem dma_mapping).dma_addresses
        (mem dma_mapping).priv] ∧
    ∀ dev n a, Event.nv_dma_unmap_peer dev n a ∉ nv_p2p_free_dma_mapping K mem dma_mapping := by
  simp only [nv_p2p_free_dma_mapping, h, ne_eq, not_false_eq_true, if_true]
  constructor
  · split_ifs <;> simp
  · intro dev n a
    split_ifs <;> simp

/-- C17, at a concrete input: the batch mapping at 0x1000 of `example_mem`. -/
theorem free_dma_mapping_batch_witness :
    (example_mem 0x1000).priv ≠ NULL ∧
    (nv_p2p_free_dma_mapping platform_ok example_mem 0x1000).filter Event.isUnmap =
      [Event.nv_dma_unmap_alloc ⟨7, 0xffffffff⟩ 2 0x1100 0x55] :=
  ⟨by decide, (free_dma_mapping_batch platform_ok example_mem 0x1000 (by decide)).1⟩

/-- C18: per-entry strategy of `nv_p2p_free_dma_mapping`: for every mapping whose
private handle is null, the unmap calls made are exactly `entries` calls of
`nv_dma_unmap_peer` and no `nv_dma_unmap_alloc`; the call number `i` (from 0 to
`entries - 1`, in index order) is given `dma_addresses[i]` and the page count
`page_size / PAGE_SIZE`, where `page_size` is
`nvidia_p2p_page_size_mappings[page_size_type]`. -/
theorem free_dma_mapping_per_entry (K : Platform) (mem : MappingMem) (dma_mapping : Ptr)
    (h : (mem dma_mapping).priv = NULL) :
    (nv_p2p_free_dma_mapping K mem dma_mapping).filter Event.isUnmap =
      (List.range (mem dma_mapping).entries).map (fun i =>
        Event.nv_dma_unmap_peer ⟨(mem dma_mapping).pci_dev, (mem dma_mapping).dma_mask⟩
          (nvidia_p2p_page_size_mappings.getD (mem dma_mapping).page_size_type 0 /
            K.PAGE_SIZE)
          ((mem dma_mapping).dma_addresses_mem.getD i 0)) ∧
    ((nv_p2p_free_dma_mapping K mem dma_mapping).filter Event.isUnmap).length =
      (mem dma_mapping).entries ∧
    (∀ dev n a p,
      Event.nv_dma_unmap_alloc dev n a p ∉ nv_p2p_free_dma_mapping K mem dma_mapping) ∧
    (∀ size, nvidia_p2p_page_size_mappings.get? (mem dma_mapping).page_size_type =
        some size →
      nvidia_p2p_page_size_mappings.getD (mem dma_mapping).page_size_type 0 = size) := by
  have hf : (nv_p2p_free_dma_mapping K mem dma_mapping).filter Event.isUnmap =
      (List.range (mem dma_mapping).entries).map (fun i =>
        Event.nv_dma_unmap_peer ⟨(mem dma_mapping).pci_dev, (mem dma_mapping).dma_mask⟩
          (nvidia_p2p_page_size_mappings.getD (mem dma_mapping).page_size_type 0 /
            K.PAGE_SIZE)
          ((mem dma_mapping).dma_addresses_mem.getD i 0)) := by
    simp only [nv_p2p_free_dma_mapping, h, ne_eq, not_true_eq_false, if_false,
      List.filter_append, List.filter_map]
    have : ∀ l : List Nat, List.filter (Event.isUnmap ∘ fun i =>
        Event.nv_dma_unmap_peer ⟨(mem dma_mapping).pci_dev, (mem dma_mapping).dma_mask⟩
          (nvidia_p2p_page_size_mappings.getD (mem dma_mapping).page_size_type 0 /
            K.PAGE_SIZE)
          ((mem dma_mapping).dma_addresses_mem.getD i 0)) l = l := by
      intro l
      rw [List.filter_eq_self]
      intro a _
      rfl
    rw [this]
    simp
  refine ⟨hf, by rw [hf]; simp, ?_, ?_⟩
  · intro dev n a p
    simp [nv_p2p_free_dma_mapping, h]
  · intro size hs
    rw [List.get?_eq_getElem?] at hs
    simp [List.getD, hs]

/-- C18, at a concrete input: the per-entry mapping at 0x2000 of `example_mem`
(64K class, 3 entries) on a platform with 4 KiB native pages. -/
theorem free_dma_mapping_per_entry_witness :
    (example_mem 0x2000).priv = NULL ∧
    (nv_p2p_free_dma_mapping platform_ok example_mem 0x2000).filter Event.isUnmap =
      [Event.nv_dma_unmap_peer ⟨8, 0xffffffff⟩ 16 0x10000,
       Event.nv_dma_unmap_peer ⟨8, 0xffffffff⟩ 16 0x20000,
       Event.nv_dma_unmap_peer ⟨8, 0xffffffff⟩ 16 0x30000] :=
  ⟨by decide, (free_dma_mapping_per_entry platform_ok example_mem 0x2000 (by decide)).1⟩

/-- C19: fail-open teardown: for every mapping, every platform (so every status
returned by the batch unmap, and whether or not the page size equals the native
one), the last two steps of `nv_p2p_free_dma_mapping` are the free of the
DMA-address array and then the free of the mapping structure, and these are its
only frees: each happens exactly once. -/
theorem free_dma_mapping_fail_open (K : Platform) (mem : MappingMem) (dma_mapping : Ptr) :
    freed (nv_p2p_free_dma_mapping K mem dma_mapping) =
      [Obj.dma_addresses (mem dma_mapping).dma_addresses, Obj.dma_mapping dma_mapping] ∧
    (nv_p2p_free_dma_mapping K mem dma_mapping).count
      (Event.os_free_mem (Obj.dma_addresses (mem dma_mapping).dma_addresses)) = 1 ∧
    (nv_p2p_free_dma_mapping K mem dma_mapping).count
      (Event.os_free_mem (Obj.dma_mapping dma_mapping)) = 1 ∧
    (nv_p2p_free_dma_mapping K mem dma_mapping).drop
        ((nv_p2p_free_dma_mapping K mem dma_mapping).length - 2) =
      [Event.os_free_mem (Obj.dma_addresses (mem dma_mapping).dma_addresses),
       Event.os_free_mem (Obj.dma_mapping dma_mapping)] := by
  refine ⟨freed_free_dma_mapping K mem dma_mapping, ?_, ?_, ?_⟩
  · simp only [nv_p2p_free_dma_mapping]
    split_ifs <;> simp [List.count_cons, List.count_append, List.count_eq_zero]
  · simp only [nv_p2p_free_dma_mapping]
    split_ifs <;> simp [List.count_cons, List.count_append, List.count_eq_zero]
  · simp only [nv_p2p_free_dma_mapping]
    split_ifs <;> simp

/-- C20: `nv_p2p_free_platform_data(NULL)` raises the warning and returns: its
only step is the `WARN_ON`, with no registry removal, unmap or free, whatever
the state. -/
theorem free_platform_data_null (K : Platform) (mem : MappingMem) (fuel : Nat)
    (mem_info : nv_p2p_mem_info) :
    nv_p2p_free_platform_data K mem fuel NULL mem_info =
      some (mem_info, [Event.WARN_ON]) ∧
    (nv_p2p_free_platform_data K mem fuel NULL mem_info).map
      (fun r => r.2.filter Event.isTeardown) = some [] := by
  simp [nv_p2p_free_platform_data]

/-! ## Removal before release -/

theorem registry_after_cons_other (L : List nv_p2p_dma_mapping) (e : Event)
    (t : List Event) (he : ∀ p, e ≠ Event.list_del p) :
    registry_after L (e :: t) = registry_after L t := by
  cases e <;> first | rfl | exact absurd rfl (he _)

theorem registry_after_skip (L : List nv_p2p_dma_mapping) (xs s : List Event)
    (hxs : ∀ e ∈ xs, ∀ p, e ≠ Event.list_del p) :
    registry_after L (xs ++ s) = registry_after L s := by
  induction xs with
  | nil => rfl
  | cons e rest ih =>
    rw [List.cons_append, registry_after_cons_other L e _ (hxs e (List.mem_cons_self _ _))]
    exact ih (fun x hx => hxs x (List.mem_cons_of_mem _ hx))

theorem registry_after_nil (t : List Event) : registry_after [] t = [] := by
  induction t with
  | nil => rfl
  | cons e rest ih =>
    cases e <;> simpa [registry_after] using ih

theorem free_dma_mapping_no_list_del (K : Platform) (mem : MappingMem) (dma_mapping : Ptr) :
    ∀ e ∈ nv_p2p_free_dma_mapping K mem dma_mapping, ∀ p, e ≠ Event.list_del p := by
  intro e he p
  simp only [nv_p2p_free_dma_mapping] at he
  split_ifs at he <;> simp at he <;> aesop

theorem registry_after_drain (K : Platform) (mem : MappingMem)
    (A C : List nv_p2p_dma_mapping) (s : List Event) :
    registry_after (A ++ C) (A.flatMap (drain_node K mem) ++ s) = registry_after C s := by
  induction A with
  | nil => rfl
  | cons a rest ih =>
    have hstep : registry_after (a :: rest ++ C)
        ([Event.down, Event.list_del a.node, Event.os_free_mem (Obj.node a.node),
          Event.up] ++ (nv_p2p_free_dma_mapping K mem a.dma_mapping ++
            (rest.flatMap (drain_node K mem) ++ s))) =
        registry_after (rest ++ C) (nv_p2p_free_dma_mapping K mem a.dma_mapping ++
            (rest.flatMap (drain_node K mem) ++ s)) := by
      simp [registry_after, List.eraseP_cons]
    rw [List.flatMap_cons, drain_node, List.append_assoc, List.append_assoc, hstep,
      registry_after_skip _ _ _ (free_dma_mapping_no_list_del K mem a.dma_mapping)]
    exact ih

theorem mem_freed_of_mem (o : Obj) (t : List Event) (h : Event.os_free_mem o ∈ t) :
    o ∈ freed t := by
  simp only [freed, List.mem_filterMap]
  exact ⟨_, h, rfl⟩

theorem not_freed_drain (K : Platform) (mem : MappingMem) (A : List nv_p2p_dma_mapping)
    (m : Ptr) (hm : m ∉ A.map (fun n => n.dma_mapping)) :
    Obj.dma_mapping m ∉ freed (A.flatMap (drain_node K mem)) := by
  rw [freed_drain]
  intro h
  simp only [List.mem_flatMap, List.mem_cons, List.mem_singleton, List.not_mem_nil,
    or_false] at h
  obtain ⟨a, ha, h1 | h1 | h1⟩ := h
  · cases h1
  · cases h1
  · injection h1 with h2
    exact hm (List.mem_map.mpr ⟨a, ha, h2.symm⟩)

theorem flatMap_split {α β : Type} (f : α → List β) :
    ∀ (L : List α) (pre : List β) (e : β) (post : List β),
      L.flatMap f = pre ++ e :: post →
      ∃ A n B done todo, L = A ++ n :: B ∧ f n = done ++ e :: todo ∧
        pre = A.flatMap f ++ done ∧ post = todo ++ B.flatMap f := by
  intro L
  induction L with
  | nil =>
    intro pre e post h
    simp at h
  | cons a rest ih =>
    intro pre e post h
    rw [List.flatMap_cons, List.append_eq_append_iff] at h
    rcases h with ⟨a1, hpre, hrest⟩ | ⟨c1, hfa, hpost⟩
    · obtain ⟨A, n, B, done, todo, hL, hfn, hp, hq⟩ := ih a1 e post hrest
      refine ⟨a :: A, n, B, done, todo, ?_, hfn, ?_, hq⟩
      · rw [hL]; rfl
      · rw [hpre, hp, List.flatMap_cons, List.append_assoc]
    · cases c1 with
      | nil =>
        rw [List.nil_append] at hpost
        rw [List.append_nil] at hfa
        obtain ⟨A, n, B, done, todo, hL, hfn, hp, hq⟩ := ih [] e post hpost.symm
        refine ⟨a :: A, n, B, done, todo, ?_, hfn, ?_, hq⟩
        · rw [hL]; rfl
        · rw [List.flatMap_cons, List.append_assoc, ← hp, List.append_nil, hfa]
      | cons x c2 =>
        rw [List.cons_append] at hpost
        injection hpost with hx hpost2
        subst hx
        exact ⟨[], a, rest, pre, c2, rfl, hfa, rfl, hpost2⟩

theorem tail_no_release (page_table : Ptr) (pt : nvidia_p2p_page_table) :
    ∀ e ∈ [Event.down, Event.up] ++ nv_p2p_free_page_table_tail page_table pt,
      e.isRelease = false := by
  intro e he
  simp only [nv_p2p_free_page_table_tail] at he
  split_ifs at he <;> simp at he <;> aesop

theorem drain_node_release_split (K : Platform) (mem : MappingMem)
    (n : nv_p2p_dma_mapping) (done todo : List Event) (e : Event)
    (h : drain_node K mem n = done ++ e :: todo) (he : e.isRelease = true) :
    ∃ rest, done = Event.down :: Event.list_del n.node :: rest ∧
      ∀ x ∈ rest, ∀ p, x ≠ Event.list_del p := by
  rw [drain_node] at h
  cases done with
  | nil =>
    simp only [List.nil_append, List.cons_append] at h
    injection h with h1 _
    rw [← h1] at he
    simp at he
  | cons x done1 =>
    simp only [List.cons_append] at h
    injection h with h1 h2
    cases done1 with
    | nil =>
      simp only [List.nil_append] at h2
      injection h2 with h3 _
      rw [← h3] at he
      simp at he
    | cons y rest =>
      simp only [List.cons_append] at h2
      injection h2 with h3 h4
      refine ⟨rest, by rw [h1, h3], ?_⟩
      intro z hz p hzp
      have hmem : z ∈ [Event.os_free_mem (Obj.node n.node), Event.up] ++
          nv_p2p_free_dma_mapping K mem n.dma_mapping := by
        show z ∈ Event.os_free_mem (Obj.node n.node) :: Event.up ::
          ([] ++ nv_p2p_free_dma_mapping K mem n.dma_mapping)
        rw [h4]
        exact List.mem_append_left _ hz
      rw [List.mem_append] at hmem
      rcases hmem with hmem | hmem
      · subst hzp
        simp at hmem
      · exact free_dma_mapping_no_list_del K mem n.dma_mapping z hmem p hzp

theorem drain_node_free_of (K : Platform) (mem : MappingMem) (n : nv_p2p_dma_mapping)
    (m : Ptr) (h : Event.os_free_mem (Obj.dma_mapping m) ∈ drain_node K mem n) :
    n.dma_mapping = m := by
  have hf := mem_freed_of_mem _ _ h
  have hd := freed_drain K mem [n]
  simp only [List.flatMap_cons, List.flatMap_nil, List.append_nil] at hd
  rw [hd] at hf
  simp at hf
  exact hf.symm

/-- C12: in every execution of `nv_p2p_free_page_table` on a registry of distinct
(non-null) mappings, each mapping is removed from the registry before it is
released.  The call returns, its trace is the drain of the registered nodes in
order followed by the release of the region, and the registry replayed after
the whole trace is empty.  Every release event of the trace (a platform unmap,
or a free of a node, of a bus-address array or of a mapping structure), at
every position `pre ++ e :: post` where it occurs, is a step of the drain of
one registered node `n`: the removal `list_del` of `n` is in `pre`, the
registry as it is after `pre` is what follows `n` and does not hold the mapping
of `n`, and when `e` is the free of a mapping structure that structure is the
mapping of `n`.  Conversely for every registered node `n` the trace is
`pre ++ nv_p2p_free_dma_mapping(n.dma_mapping) ++ post`, where the removal
`list_del` of `n` is in `pre`, the registry after `pre` does not hold the
mapping, and the free of the mapping structure occurs neither in `pre` nor in
`post`. -/
theorem free_page_table_removal_before_release (K : Platform) (mem : MappingMem)
    (fuel : Nat) (page_table : Ptr) (mem_info : nv_p2p_mem_info)
    (hfuel : mem_info.dma_mapping_list.length < fuel)
    (hnn : ∀ n ∈ mem_info.dma_mapping_list, n.dma_mapping ≠ NULL)
    (hnd : (mem_info.dma_mapping_list.map (fun n => n.dma_mapping)).Nodup) :
    ∃ mi t, nv_p2p_free_page_table K mem fuel page_table mem_info = some (mi, t) ∧
      mi.dma_mapping_list = [] ∧
      registry_after mem_info.dma_mapping_list t = mi.dma_mapping_list ∧
      t = mem_info.dma_mapping_list.flatMap (drain_node K mem) ++
        ([Event.down, Event.up] ++
          nv_p2p_free_page_table_tail page_table mem_info.page_table) ∧
      (∀ pre e post, t = pre ++ e :: post → e.isRelease = true →
        ∃ A n B done todo,
          mem_info.dma_mapping_list = A ++ n :: B ∧
          drain_node K mem n = done ++ e :: todo ∧
          pre = A.flatMap (drain_node K mem) ++ done ∧
          Event.list_del n.node ∈ pre ∧
          registry_after mem_info.dma_mapping_list pre = B ∧
          n.dma_mapping ∉
            (registry_after mem_info.dma_mapping_list pre).map
              (fun x => x.dma_mapping) ∧
          ∀ m, e = Event.os_free_mem (Obj.dma_mapping m) → n.dma_mapping = m) ∧
      ∀ n ∈ mem_info.dma_mapping_list, ∃ pre post,
        t = pre ++ nv_p2p_free_dma_mapping K mem n.dma_mapping ++ post ∧
        Event.list_del n.node ∈ pre ∧
        n.dma_mapping ∉
          (registry_after mem_info.dma_mapping_list pre).map (fun x => x.dma_mapping) ∧
        Event.os_free_mem (Obj.dma_mapping n.dma_mapping) ∉ pre ∧
        Event.os_free_mem (Obj.dma_mapping n.dma_mapping) ∉ post := by
  have hfp : nv_p2p_free_page_table K mem fuel page_table mem_info =
      some ({ mem_info with dma_mapping_list := [] },
        mem_info.dma_mapping_list.flatMap (drain_node K mem) ++
        [Event.down, Event.up] ++
        nv_p2p_free_page_table_tail page_table mem_info.page_table) :=
    free_page_table_exact K mem fuel page_table mem_info hfuel hnn
  refine ⟨_, _, hfp, rfl, ?_, ?_, ?_, ?_⟩
  · have h := registry_after_drain K mem mem_info.dma_mapping_list []
      ([Event.down, Event.up] ++
        nv_p2p_free_page_table_tail page_table mem_info.page_table)
    rw [List.append_nil, registry_after_nil] at h
    rw [List.append_assoc]
    exact h
  · rw [List.append_assoc]
  · intro pre e post ht he
    rw [List.append_assoc] at ht
    have hsplit : ∃ c2, mem_info.dma_mapping_list.flatMap (drain_node K mem) =
        pre ++ e :: c2 := by
      rw [List.append_eq_append_iff] at ht
      rcases ht with ⟨a1, _, hs⟩ | ⟨c1, hfl, hs⟩
      · have hmem : e ∈ [Event.down, Event.up] ++
            nv_p2p_free_page_table_tail page_table mem_info.page_table := by
          rw [hs]; simp
        have := tail_no_release page_table mem_info.page_table e hmem
        rw [he] at this
        cases this
      · cases c1 with
        | nil =>
          rw [List.nil_append] at hs
          have hmem : e ∈ [Event.down, Event.up] ++
              nv_p2p_free_page_table_tail page_table mem_info.page_table := by
            rw [← hs]; simp
          have := tail_no_release page_table mem_info.page_table e hmem
          rw [he] at this
          cases this
        | cons x c2 =>
          rw [List.cons_append] at hs
          injection hs with hx _
          subst hx
          exact ⟨c2, hfl⟩
    obtain ⟨c2, hfl⟩ := hsplit
    obtain ⟨A, n, B, done, todo, hL, hfn, hp, _⟩ :=
      flatMap_split (drain_node K mem) _ pre e c2 hfl
    obtain ⟨rest, hdone, hrest⟩ := drain_node_release_split K mem n done todo e hfn he
    have hnd2 := hnd
    rw [hL, List.map_append, List.map_cons] at hnd2
    obtain ⟨_, hnB, _⟩ := List.nodup_append.mp hnd2
    have hB : n.dma_mapping ∉ B.map (fun x => x.dma_mapping) := (List.nodup_cons.mp hnB).1
    have hreg : registry_after mem_info.dma_mapping_list pre = B := by
      rw [hL, hp, registry_after_drain, hdone]
      have hstep : registry_after (n :: B)
          (Event.down :: Event.list_del n.node :: rest) = registry_after B rest := by
        simp [registry_after, List.eraseP_cons]
      rw [hstep]
      have h := registry_after_skip B rest [] hrest
      rw [List.append_nil] at h
      rw [h]
      rfl
    refine ⟨A, n, B, done, todo, hL, hfn, hp, ?_, hreg, ?_, ?_⟩
    · rw [hp, hdone]
      simp
    · rw [hreg]
      exact hB
    · intro m hm
      apply drain_node_free_of K mem n m
      rw [hfn, ← hm]
      simp
  · intro n hn
    obtain ⟨A, B, hAB⟩ := List.append_of_mem hn
    have hnd2 := hnd
    rw [hAB, List.map_append, List.map_cons] at hnd2
    obtain ⟨_, hnB, hdis⟩ := List.nodup_append.mp hnd2
    have hB : n.dma_mapping ∉ B.map (fun x => x.dma_mapping) := (List.nodup_cons.mp hnB).1
    have hA : n.dma_mapping ∉ A.map (fun x => x.dma_mapping) :=
      fun h => hdis h (List.mem_cons_self _ _)
    refine ⟨A.flatMap (drain_node K mem) ++
        [Event.down, Event.list_del n.node, Event.os_free_mem (Obj.node n.node),
         Event.up],
      B.flatMap (drain_node K mem) ++ ([Event.down, Event.up] ++
        nv_p2p_free_page_table_tail page_table mem_info.page_table), ?_, ?_, ?_, ?_, ?_⟩
    · rw [hAB]
      simp [List.flatMap_append, List.flatMap_cons, drain_node, List.append_assoc]
    · simp
    · rw [hAB, registry_after_drain]
      simpa [registry_after, List.eraseP_cons] using hB
    · intro h
      rw [List.mem_append] at h
      rcases h with h | h
      · exact not_freed_drain K mem A _ hA (mem_freed_of_mem _ _ h)
      · simp at h
    · intro h
      have hf := mem_freed_of_mem _ _ h
      rw [freed_append, freed_append, freed_tail, List.mem_append, List.mem_append] at hf
      rcases hf with hf | hf | hf
      · exact not_freed_drain K mem B _ hB hf
      · simp [freed] at hf
      · split_ifs at hf <;> simp at hf

/-- C12, at a concrete input: the example region with its two mappings. -/
theorem free_page_table_removal_before_release_witness :
    example_region.dma_mapping_list.length < 3 ∧
    (∀ n ∈ example_region.dma_mapping_list, n.dma_mapping ≠ NULL) ∧
    (example_region.dma_mapping_list.map (fun n => n.dma_mapping)).Nodup ∧
    ∃ mi t, nv_p2p_free_page_table platform_ok example_mem 3 0x5000 example_region =
        some (mi, t) ∧
      mi.dma_mapping_list = [] ∧
      registry_after example_region.dma_mapping_list t = mi.dma_mapping_list ∧
      t = example_region.dma_mapping_list.flatMap (drain_node platform_ok example_mem) ++
        ([Event.down, Event.up] ++
          nv_p2p_free_page_table_tail 0x5000 example_region.page_table) ∧
      (∀ pre e post, t = pre ++ e :: post → e.isRelease = true →
        ∃ A n B done todo,
          example_region.dma_mapping_list = A ++ n :: B ∧
          drain_node platform_ok example_mem n = done ++ e :: todo ∧
          pre = A.flatMap (drain_node platform_ok example_mem) ++ done ∧
          Event.list_del n.node ∈ pre ∧
          registry_after example_region.dma_mapping_list pre = B ∧
          n.dma_mapping ∉
            (registry_after example_region.dma_mapping_list pre).map
              (fun x => x.dma_mapping) ∧
          ∀ m, e = Event.os_free_mem (Obj.dma_mapping m) → n.dma_mapping = m) ∧
      ∀ n ∈ example_region.dma_mapping_list, ∃ pre post,
        t = pre ++ nv_p2p_free_dma_mapping platform_ok example_mem n.dma_mapping ++ post ∧
        Event.list_del n.node ∈ pre ∧
        n.dma_mapping ∉
          (registry_after example_region.dma_mapping_list pre).map
            (fun x => x.dma_mapping) ∧
        Event.os_free_mem (Obj.dma_mapping n.dma_mapping) ∉ pre ∧
        Event.os_free_mem (Obj.dma_mapping n.dma_mapping) ∉ post :=
  ⟨by decide, by decide, by decide,
    free_page_table_removal_before_release platform_ok example_mem 3 0x5000
      example_region (by decide) (by decide) (by decide)⟩

/-! ## Direct teardown and the owner callback: claims -/

theorem callbacks_append (a b : List Event) :
    callbacks (a ++ b) = callbacks a ++ callbacks b := by
  simp [callbacks, List.filterMap_append]

theorem callbacks_free_dma_mapping (K : Platform) (mem : MappingMem) (dma_mapping : Ptr) :
    callbacks (nv_p2p_free_dma_mapping K mem dma_mapping) = [] := by
  simp only [nv_p2p_free_dma_mapping, callbacks]
  split_ifs <;> simp [List.filterMap_append, List.filterMap_map]

theorem callbacks_drain (K : Platform) (mem : MappingMem) (L : List nv_p2p_dma_mapping) :
    callbacks (L.flatMap (drain_node K mem)) = [] := by
  induction L with
  | nil => rfl
  | cons n rest ih =>
    simp only [List.flatMap_cons, callbacks_append, ih, drain_node,
      callbacks_free_dma_mapping]
    simp [callbacks]

theorem callbacks_tail (page_table : Ptr) (pt : nvidia_p2p_page_table) :
    callbacks (nv_p2p_free_page_table_tail page_table pt) = [] := by
  have hloop : ∀ k : Nat, callbacks ((List.range k).flatMap (fun i =>
      [Event.load Field.entries, Event.load Field.pages,
       Event.NV_KMEM_CACHE_FREE (pt.pages_mem.getD i NULL)])) = [] := by
    intro k
    induction k with
    | zero => rfl
    | succ k ih =>
      rw [List.range_succ, List.flatMap_append, callbacks_append, ih]
      simp [callbacks]
  simp only [nv_p2p_free_page_table_tail, callbacks_append, hloop]
  split_ifs <;> simp [callbacks]

theorem free_platform_data_eq (K : Platform) (mem : MappingMem) (fuel : Nat)
    (data : Ptr) (mem_info : nv_p2p_mem_info) (hdata : data ≠ NULL)
    (hfuel : mem_info.dma_mapping_list.length < fuel)
    (hnn : ∀ n ∈ mem_info.dma_mapping_list, n.dma_mapping ≠ NULL) :
    nv_p2p_free_platform_data K mem fuel data mem_info =
      some ({ mem_info with dma_mapping_list := [] },
        mem_info.dma_mapping_list.flatMap (drain_node K mem) ++
        [Event.down, Event.up] ++
        nv_p2p_free_page_table_tail data mem_info.page_table) := by
  simp only [nv_p2p_free_platform_data, hdata, if_false]
  exact free_page_table_exact K mem fuel data mem_info hfuel hnn

theorem cleanup_trace_facts (K : Platform) (mem : MappingMem) (page_table : Ptr)
    (mem_info : nv_p2p_mem_info) :
    destroyed (mem_info.dma_mapping_list.flatMap (drain_node K mem) ++
        [Event.down, Event.up] ++
        nv_p2p_free_page_table_tail page_table mem_info.page_table) =
      mem_info.dma_mapping_list.map (fun n => n.dma_mapping) ∧
    cache_freed (mem_info.dma_mapping_list.flatMap (drain_node K mem) ++
        [Event.down, Event.up] ++
        nv_p2p_free_page_table_tail page_table mem_info.page_table) =
      (List.range mem_info.page_table.entries).map
        (fun i => mem_info.page_table.pages_mem.getD i NULL) ∧
    (freed (mem_info.dma_mapping_list.flatMap (drain_node K mem) ++
        [Event.down, Event.up] ++
        nv_p2p_free_page_table_tail page_table mem_info.page_table)).count
      (Obj.mem_info page_table) = 1 := by
  have hfreed : freed (mem_info.dma_mapping_list.flatMap (drain_node K mem) ++
        [Event.down, Event.up] ++
        nv_p2p_free_page_table_tail page_table mem_info.page_table) =
      mem_info.dma_mapping_list.flatMap (fun n =>
        [Obj.node n.node, Obj.dma_addresses (mem n.dma_mapping).dma_addresses,
         Obj.dma_mapping n.dma_mapping]) ++
      ((if mem_info.page_table.gpu_uuid ≠ NULL then
          [Obj.gpu_uuid mem_info.page_table.gpu_uuid] else []) ++
       (if mem_info.page_table.pages ≠ NULL then
          [Obj.pages mem_info.page_table.pages] else []) ++
       [Obj.mem_info page_table]) := by
    simp only [freed_append, freed_drain, freed_tail]
    simp [freed]
  refine ⟨?_, ?_, ?_⟩
  · rw [destroyed, hfreed, List.filterMap_append, destroyed_drain]
    split_ifs <;> simp
  · simp only [cache_freed_append, cache_freed_drain, cache_freed_tail]
    simp [cache_freed]
  · rw [hfreed, List.count_append,
      count_other_drain mem _ _ (by simp) (by simp) (by simp)]
    split_ifs <;> simp [List.count_cons]

/-- C21 as stated fails: on the example region `nv_p2p_free_platform_data` drains
the registry and frees the region, but invokes no owner callback, although the
region has the callback 0x9000 registered with the data 0x9100. -/
theorem free_platform_data_no_callback :
    (nv_p2p_free_platform_data platform_ok example_mem 3 0x5000 example_region).map
        (fun r => (r.1.dma_mapping_list, callbacks r.2)) = some ([], []) ∧
    (example_region.free_callback, example_region.data) = (0x9000, 0x9100) ∧
    (nv_p2p_free_platform_data platform_ok example_mem 3 0x5000 example_region).map
        (fun r => (callbacks r.2).length) ≠ some 1 := by
  decide

/-- C21, amended: for every non-null region (with non-null mappings and fuel
above the registry length) `nv_p2p_free_platform_data` makes exactly the calls
that `nv_p2p_put_pages` makes after a successful unlink call (registry drained
and every mapping destroyed, every page descriptor freed, region freed) and
invokes no owner callback; the owner's callback is invoked by
`nv_p2p_mem_info_free_callback`, exactly once, with the owner's opaque data,
before the same cleanup. -/
theorem free_platform_data_same_cleanup (K : Platform) (mem : MappingMem) (fuel : Nat)
    (sp : Ptr) (p2p_token va_space virtual_address : Nat)
    (page_table : Ptr) (mem_info : nv_p2p_mem_info) (hdata : page_table ≠ NULL)
    (hfuel : mem_info.dma_mapping_list.length < fuel)
    (hnn : ∀ n ∈ mem_info.dma_mapping_list, n.dma_mapping ≠ NULL)
    (hok : (nv_p2p_put_pages_unlink K sp p2p_token va_space virtual_address page_table
      mem_info).1 = NV_OK) :
    (nv_p2p_put_pages K mem fuel sp p2p_token va_space virtual_address page_table
        mem_info).map (fun r => (r.mem_info, r.trace)) =
      (nv_p2p_free_platform_data K mem fuel page_table mem_info).map
        (fun r => (r.1, (nv_p2p_put_pages_unlink K sp p2p_token va_space virtual_address
          page_table mem_info).2 ++ r.2)) ∧
    (nv_p2p_free_platform_data K mem fuel page_table mem_info).map
        (fun r => (r.1.dma_mapping_list, destroyed r.2, cache_freed r.2,
          (freed r.2).count (Obj.mem_info page_table), callbacks r.2)) =
      some ([], mem_info.dma_mapping_list.map (fun n => n.dma_mapping),
        (List.range mem_info.page_table.entries).map
          (fun i => mem_info.page_table.pages_mem.getD i NULL), 1, []) ∧
    (nv_p2p_mem_info_free_callback K mem fuel page_table mem_info).map
        (fun r => (r.1, r.2)) =
      (nv_p2p_free_platform_data K mem fuel page_table mem_info).map
        (fun r => (r.1,
          [Event.load Field.free_callback, Event.load Field.data,
           Event.free_callback mem_info.free_callback mem_info.data] ++ r.2)) ∧
    (nv_p2p_mem_info_free_callback K mem fuel page_table mem_info).map
        (fun r => callbacks r.2) = some [(mem_info.free_callback, mem_info.data)] := by
  have hfp := free_platform_data_eq K mem fuel page_table mem_info hdata hfuel hnn
  have hpp := put_pages_ok_eq K mem fuel sp p2p_token va_space virtual_address page_table
    mem_info hfuel hnn hok
  have hone := cleanup_trace_facts K mem page_table mem_info
  have hcb : callbacks (mem_info.dma_mapping_list.flatMap (drain_node K mem) ++
      [Event.down, Event.up] ++
      nv_p2p_free_page_table_tail page_table mem_info.page_table) = [] := by
    simp only [callbacks_append, callbacks_drain, callbacks_tail]
    simp [callbacks]
  refine ⟨?_, ?_, ?_, ?_⟩
  · rw [hpp, hfp]; rfl
  · rw [hfp]
    simp only [Option.map_some', hcb, hone.1, hone.2.1, hone.2.2]
  · simp only [nv_p2p_mem_info_free_callback, hfp, Option.map_some']
  · simp only [nv_p2p_mem_info_free_callback, hfp, Option.map_some', callbacks_append, hcb]
    simp [callbacks]

/-- C21 amended, at a concrete input: the example region torn down directly and
through the owner-callback entry point. -/
theorem free_platform_data_same_cleanup_witness :
    (0x5000 : Ptr) ≠ NULL ∧
    example_region.dma_mapping_list.length < 3 ∧
    (∀ n ∈ example_region.dma_mapping_list, n.dma_mapping ≠ NULL) ∧
    (nv_p2p_put_pages_unlink platform_ok 1 2 3 4 0x5000 example_region).1 = NV_OK ∧
    (nv_p2p_free_platform_data platform_ok example_mem 3 0x5000 example_region).map
        (fun r => (r.1.dma_mapping_list, destroyed r.2, cache_freed r.2,
          (freed r.2).count (Obj.mem_info 0x5000), callbacks r.2)) =
      some ([], [0x1000, 0x2000], [0x3100, 0x3200], 1, []) ∧
    (nv_p2p_mem_info_free_callback platform_ok example_mem 3 0x5000 example_region).map
        (fun r => callbacks r.2) = some [(0x9000, 0x9100)] :=
  have h := free_platform_data_same_cleanup platform_ok example_mem 3 1 2 3 4 0x5000
    example_region (by decide) (by decide) (by decide) (by decide)
  ⟨by decide, by decide, by decide, by decide, h.2.1, h.2.2.2⟩

/-- C22: the two deprecated entry points always report Unsupported: for every
argument tuple `nvidia_p2p_init_mapping` returns `-ENOTSUPP` and for every token
`nvidia_p2p_destroy_mapping` returns `-ENOTSUPP`; neither makes any call, so no
state changes and the destroy callback is never invoked. -/
theorem deprecated_entry_points_unsupported (p2p_token : Nat)
    (params destroy_callback data : Ptr) :
    (nvidia_p2p_init_mapping p2p_token params destroy_callback data).1 = - ENOTSUPP ∧
    (nvidia_p2p_init_mapping p2p_token params destroy_callback data).2 = [] ∧
    callbacks (nvidia_p2p_init_mapping p2p_token params destroy_callback data).2 = [] ∧
    (nvidia_p2p_destroy_mapping p2p_token).1 = - ENOTSUPP ∧
    (nvidia_p2p_destroy_mapping p2p_token).2 = [] ∧
    - ENOTSUPP ≠ (0 : Int) :=
  ⟨rfl, rfl, rfl, rfl, rfl, by decide⟩

/-- C27: for every region list `L` and non-null mapping `m` occurring in `L`,
possibly more than once, `nv_p2p_remove_dma_mapping(region, m)` returns `m` and
removes only the first node whose mapping is `m`: `L` is `A ++ n :: B` with no
node of `A` holding `m` and `n` holding `m`, and the list becomes `A ++ B` (`L`
with that first occurrence erased; every other node, later duplicates of `m`
included, stays in place and in order); the only thing freed is the registry
node `n`, not the mapping structure. -/
theorem remove_erases_first_occurrence (mem_info : nv_p2p_mem_info) (m : Ptr)
    (hm : m ≠ NULL)
    (hin : m ∈ mem_info.dma_mapping_list.map (fun n => n.dma_mapping)) :
    (nv_p2p_remove_dma_mapping mem_info m).1 = m ∧
    (nv_p2p_remove_dma_mapping mem_info m).2.1 =
      { mem_info with
        dma_mapping_list :=
          mem_info.dma_mapping_list.eraseP (fun n => decide (n.dma_mapping = m)) } ∧
    (∃ A n B, mem_info.dma_mapping_list = A ++ n :: B ∧ n.dma_mapping = m ∧
      (∀ a ∈ A, a.dma_mapping ≠ m) ∧
      (nv_p2p_remove_dma_mapping mem_info m).2.1.dma_mapping_list = A ++ B ∧
      (nv_p2p_remove_dma_mapping mem_info m).2.2 =
        [Event.down, Event.list_del n.node, Event.os_free_mem (Obj.node n.node),
         Event.up]) ∧
    destroyed (nv_p2p_remove_dma_mapping mem_info m).2.2 = [] := by
  have key : ∀ L : List nv_p2p_dma_mapping, m ∈ L.map (fun n => n.dma_mapping) →
      ∃ A n B, L = A ++ n :: B ∧ n.dma_mapping = m ∧ (∀ a ∈ A, a.dma_mapping ≠ m) ∧
        nv_p2p_remove_dma_mapping_scan m L =
          (m, A ++ B, [Event.list_del n.node, Event.os_free_mem (Obj.node n.node)]) ∧
        L.eraseP (fun n => decide (n.dma_mapping = m)) = A ++ B := by
    intro L
    induction L with
    | nil => intro h; simp at h
    | cons cur rest ih =>
      intro h
      by_cases hcur : cur.dma_mapping = m
      · refine ⟨[], cur, rest, rfl, hcur, by simp, ?_, ?_⟩
        · simp [nv_p2p_remove_dma_mapping_scan, hcur]
        · simp [List.eraseP_cons, hcur]
      · have hrest : m ∈ rest.map (fun n => n.dma_mapping) := by
          simp only [List.map_cons, List.mem_cons] at h
          exact h.resolve_left (fun h' => hcur h'.symm)
        obtain ⟨A, n, B, hL, hn, hA, hscan, herase⟩ := ih hrest
        refine ⟨cur :: A, n, B, by simp [hL], hn, ?_, ?_, ?_⟩
        · intro a ha
          rcases List.mem_cons.mp ha with rfl | ha
          · exact hcur
          · exact hA a ha
        · have hne : ¬ (m = NULL ∨ m = cur.dma_mapping) := by
            rintro (h1 | h1)
            · exact hm h1
            · exact hcur h1.symm
          simp [nv_p2p_remove_dma_mapping_scan, hne, hscan]
        · simp [List.eraseP_cons, hcur, herase]
  obtain ⟨A, n, B, hL, hn, hA, hscan, herase⟩ := key _ hin
  refine ⟨?_, ?_, ⟨A, n, B, hL, hn, hA, ?_, ?_⟩, ?_⟩
  · simp [nv_p2p_remove_dma_mapping, hscan]
  · simp [nv_p2p_remove_dma_mapping, hscan, herase]
  · simp [nv_p2p_remove_dma_mapping, hscan]
  · simp [nv_p2p_remove_dma_mapping, hscan]
  · simp [nv_p2p_remove_dma_mapping, hscan, destroyed, freed]

/-- C27, at a concrete input: the mapping 0x1000 registered twice; removing it
takes the node at 0x10 and leaves the later duplicate at 0x30. -/
theorem remove_erases_first_occurrence_witness :
    (0x1000 : Ptr) ≠ NULL ∧
    (0x1000 : Ptr) ∈ example_region_duplicate.dma_mapping_list.map
      (fun n => n.dma_mapping) ∧
    (nv_p2p_remove_dma_mapping example_region_duplicate 0x1000).1 = 0x1000 ∧
    (nv_p2p_remove_dma_mapping example_region_duplicate 0x1000).2.1.dma_mapping_list =
      [⟨0x20, 0x2000⟩, ⟨0x30, 0x1000⟩] ∧
    (nv_p2p_remove_dma_mapping example_region_duplicate 0x1000).2.2 =
      [Event.down, Event.list_del 0x10, Event.os_free_mem (Obj.node 0x10), Event.up] :=
  have h := remove_erases_first_occurrence example_region_duplicate 0x1000
    (by decide) (by decide)
  ⟨by decide, by decide, h.1, by rw [h.2.1]; decide, by decide⟩

/-- C28: the page count that the per-entry path of `nv_p2p_free_dma_mapping` gives
to `nv_dma_unmap_peer` is the truncating quotient
`nvidia_p2p_page_size_mappings[page_size_type] / PAGE_SIZE`, the table lookup
being in bounds for every `page_size_type` below 3: for a native page size of
4096 it is 1, 16 and 32 for the 4K, 64K and 128K classes, and it is 0 for
every class whose byte size is smaller than the native page size. -/
theorem unmap_peer_page_count (K : Platform) (mem : MappingMem) (dma_mapping : Ptr)
    (h : (mem dma_mapping).priv = NULL)
    (hc : (mem dma_mapping).page_size_type < NVIDIA_P2P_PAGE_SIZE_COUNT) :
    ∃ size,
      nvidia_p2p_page_size_mappings.get? (mem dma_mapping).page_size_type = some size ∧
      (∀ dev n a,
        Event.nv_dma_unmap_peer dev n a ∈ nv_p2p_free_dma_mapping K mem dma_mapping →
        n = size / K.PAGE_SIZE) ∧
      (K.PAGE_SIZE = 4096 →
        [1, 16, 32].get? (mem dma_mapping).page_size_type = some (size / K.PAGE_SIZE)) ∧
      (size < K.PAGE_SIZE → size / K.PAGE_SIZE = 0) := by
  have hmem : ∀ dev n a,
      Event.nv_dma_unmap_peer dev n a ∈ nv_p2p_free_dma_mapping K mem dma_mapping →
      n = nvidia_p2p_page_size_mappings.getD (mem dma_mapping).page_size_type 0 /
        K.PAGE_SIZE := by
    intro dev n a hin
    simp only [nv_p2p_free_dma_mapping, h, ne_eq, not_true_eq_false, if_false,
      List.mem_append, List.mem_map, List.mem_cons, List.mem_singleton,
      List.not_mem_nil, or_false] at hin
    rcases hin with ⟨i, _, hi⟩ | hi | hi
    · injection hi with _ h2 _
      exact h2.symm
    · cases hi
    · cases hi
  have hcases : (mem dma_mapping).page_size_type = 0 ∨
      (mem dma_mapping).page_size_type = 1 ∨ (mem dma_mapping).page_size_type = 2 := by
    simp only [NVIDIA_P2P_PAGE_SIZE_COUNT] at hc
    omega
  rcases hcases with hk | hk | hk
  · refine ⟨4096, by rw [hk]; rfl, ?_, ?_, fun hlt => Nat.div_eq_of_lt hlt⟩
    · intro dev n a hin
      have := hmem dev n a hin
      rw [hk] at this
      exact this
    · intro hp
      rw [hk, hp]
      rfl
  · refine ⟨65536, by rw [hk]; rfl, ?_, ?_, fun hlt => Nat.div_eq_of_lt hlt⟩
    · intro dev n a hin
      have := hmem dev n a hin
      rw [hk] at this
      exact this
    · intro hp
      rw [hk, hp]
      rfl
  · refine ⟨131072, by rw [hk]; rfl, ?_, ?_, fun hlt => Nat.div_eq_of_lt hlt⟩
    · intro dev n a hin
      have := hmem dev n a hin
      rw [hk] at this
      exact this
    · intro hp
      rw [hk, hp]
      rfl

/-- C28, at a concrete input: the 64K per-entry mapping of `example_mem` on 4 KiB
native pages (16 pages per entry), and a 4K per-entry mapping on 64 KiB native
pages (0 pages per entry). -/
theorem unmap_peer_page_count_witness :
    (example_mem 0x2000).priv = NULL ∧
    (example_mem 0x2000).page_size_type < NVIDIA_P2P_PAGE_SIZE_COUNT ∧
    (∃ size,
      nvidia_p2p_page_size_mappings.get? (example_mem 0x2000).page_size_type =
        some size ∧
      (∀ dev n a,
        Event.nv_dma_unmap_peer dev n a ∈
          nv_p2p_free_dma_mapping platform_ok example_mem 0x2000 →
        n = size / platform_ok.PAGE_SIZE) ∧
      (platform_ok.PAGE_SIZE = 4096 →
        [1, 16, 32].get? (example_mem 0x2000).page_size_type =
          some (size / platform_ok.PAGE_SIZE)) ∧
      (size < platform_ok.PAGE_SIZE → size / platform_ok.PAGE_SIZE = 0)) ∧
    (nv_p2p_free_dma_mapping platform_64k example_mem_4k 0x2000).filter Event.isUnmap =
      [Event.nv_dma_unmap_peer ⟨8, 0xffffffff⟩ 0 0x10000,
       Event.nv_dma_unmap_peer ⟨8, 0xffffffff⟩ 0 0x20000] :=
  ⟨by decide, by decide,
    unmap_peer_page_count platform_ok example_mem 0x2000 (by decide) (by decide),
    by decide⟩

/-! ## Rsync driver registration: claims -/

/-- C29 as stated fails in its last part: given a null driver,
`nvidia_p2p_unregister_rsync_driver` does not do nothing, it raises a warning. -/
theorem unregister_rsync_driver_null_warns :
    nvidia_p2p_unregister_rsync_driver example_compatible none 0x77 = [Event.WARN_ON] ∧
    nvidia_p2p_unregister_rsync_driver example_compatible none 0x77 ≠ [] := by
  decide

/-- C29, amended: `nvidia_p2p_register_rsync_driver` returns `-EINVAL` without
calling `nv_register_rsync_driver` if the driver is null, or its version is
incompatible, or any one of its three callbacks is null; otherwise it calls
`nv_register_rsync_driver` exactly once, with the three callbacks and the data,
and returns its result.  `nvidia_p2p_unregister_rsync_driver` calls
`nv_unregister_rsync_driver` (once, with the three callbacks and the data)
under exactly the same validity condition, and otherwise makes no call: it
only raises a warning and returns. -/
theorem rsync_driver_registration (compatible : nvidia_p2p_rsync_driver_t → Bool)
    (nv_register : Ptr → Ptr → Ptr → Ptr → Int)
    (driver : Option nvidia_p2p_rsync_driver_t) (data : Ptr) :
    (driver = none →
      nvidia_p2p_register_rsync_driver compatible nv_register driver data =
        (- EINVAL, []) ∧
      nvidia_p2p_unregister_rsync_driver compatible driver data = [Event.WARN_ON]) ∧
    (∀ d, driver = some d →
      (compatible d = false ∨ d.get_relaxed_ordering_mode = NULL ∨
        d.put_relaxed_ordering_mode = NULL ∨ d.wait_for_rsync = NULL) →
      nvidia_p2p_register_rsync_driver compatible nv_register driver data =
        (- EINVAL, []) ∧
      nvidia_p2p_unregister_rsync_driver compatible driver data = [Event.WARN_ON]) ∧
    (∀ d, driver = some d → compatible d = true → d.get_relaxed_ordering_mode ≠ NULL →
      d.put_relaxed_ordering_mode ≠ NULL → d.wait_for_rsync ≠ NULL →
      nvidia_p2p_register_rsync_driver compatible nv_register driver data =
        (nv_register d.get_relaxed_ordering_mode d.put_relaxed_ordering_mode
            d.wait_for_rsync data,
         [Event.nv_register_rsync_driver d.get_relaxed_ordering_mode
            d.put_relaxed_ordering_mode d.wait_for_rsync data]) ∧
      nvidia_p2p_unregister_rsync_driver compatible driver data =
        [Event.nv_unregister_rsync_driver d.get_relaxed_ordering_mode
          d.put_relaxed_ordering_mode d.wait_for_rsync data]) ∧
    (rsync_driver_valid compatible driver ∨
      (nvidia_p2p_register_rsync_driver compatible nv_register driver data =
          (- EINVAL, []) ∧
        nvidia_p2p_unregister_rsync_driver compatible driver data = [Event.WARN_ON])) := by
  refine ⟨?_, ?_, ?_, ?_⟩
  · rintro rfl
    exact ⟨rfl, rfl⟩
  · rintro d rfl hbad
    simp only [nvidia_p2p_register_rsync_driver, nvidia_p2p_unregister_rsync_driver]
    rcases hbad with hbad | hbad | hbad | hbad
    · simp [hbad]
    · by_cases hcomp : compatible d = true <;> simp [hcomp, hbad]
    · by_cases hcomp : compatible d = true <;> simp [hcomp, hbad]
    · by_cases hcomp : compatible d = true <;> simp [hcomp, hbad]
  · rintro d rfl hcomp hg hp hw
    simp [nvidia_p2p_register_rsync_driver, nvidia_p2p_unregister_rsync_driver, hcomp,
      hg, hp, hw]
  · cases driver with
    | none => exact Or.inr ⟨rfl, rfl⟩
    | some d =>
      by_cases hcomp : compatible d = true
      · by_cases hg : d.get_relaxed_ordering_mode = NULL
        · right
          simp [nvidia_p2p_register_rsync_driver, nvidia_p2p_unregister_rsync_driver,
            hcomp, hg]
        · by_cases hp : d.put_relaxed_ordering_mode = NULL
          · right
            simp [nvidia_p2p_register_rsync_driver, nvidia_p2p_unregister_rsync_driver,
              hcomp, hp]
          · by_cases hw : d.wait_for_rsync = NULL
            · right
              simp [nvidia_p2p_register_rsync_driver, nvidia_p2p_unregister_rsync_driver,
                hcomp, hw]
            · exact Or.inl ⟨d, rfl, hcomp, hg, hp, hw⟩
      · right
        simp [nvidia_p2p_register_rsync_driver, nvidia_p2p_unregister_rsync_driver, hcomp]

/-- C29 amended, at a concrete input: a valid driver, and the same driver with
its `wait_for_rsync` callback null. -/
theorem rsync_driver_registration_witness :
    nvidia_p2p_register_rsync_driver example_compatible (fun _ _ _ _ => 0)
        (some example_driver) 0x77 =
      (0, [Event.nv_register_rsync_driver 0x100 0x200 0x300 0x77]) ∧
    nvidia_p2p_unregister_rsync_driver example_compatible (some example_driver) 0x77 =
      [Event.nv_unregister_rsync_driver 0x100 0x200 0x300 0x77] ∧
    nvidia_p2p_register_rsync_driver example_compatible (fun _ _ _ _ => 0)
        (some { example_driver with wait_for_rsync := NULL }) 0x77 = (- EINVAL, []) ∧
    nvidia_p2p_unregister_rsync_driver example_compatible
        (some { example_driver with wait_for_rsync := NULL }) 0x77 = [Event.WARN_ON] :=
  have h := (rsync_driver_registration example_compatible (fun _ _ _ _ => 0)
    (some example_driver) 0x77).2.2.1 example_driver rfl (by decide) (by decide)
    (by decide) (by decide)
  have g := (rsync_driver_registration example_compatible (fun _ _ _ _ => 0)
    (some { example_driver with wait_for_rsync := NULL }) 0x77).2.1
    { example_driver with wait_for_rsync := NULL } rfl (Or.inr (Or.inr (Or.inr rfl)))
  ⟨h.1, h.2, g.1, g.2⟩

/-! ## Lemmas on the rsync register discovery -/

theorem iomapped_append (a b : List Event) : iomapped (a ++ b) = iomapped a ++ iomapped b := by
  simp [iomapped, List.filterMap_append]

theorem iounmapped_append (a b : List Event) :
    iounmapped (a ++ b) = iounmapped a ++ iounmapped b := by
  simp [iounmapped, List.filterMap_append]

theorem allocated_append (a b : List Event) :
    allocated (a ++ b) = allocated a ++ allocated b := by
  simp [allocated, List.filterMap_append]

theorem pass_spec (R : RsyncPlatform) (devices : List nv_linux_state_t) :
    ∀ (index : Nat) (regs : List nvidia_p2p_rsync_reg_t),
      index + devices.length ≤ regs.length →
      (nvidia_p2p_get_rsync_registers_pass R devices index regs).1 =
        index + (devices.filter (rsync_eligible R)).length ∧
      (nvidia_p2p_get_rsync_registers_pass R devices index regs).2.1 =
        regs.take index ++ (devices.filter (rsync_eligible R)).map (rsync_slot R) ++
          regs.drop (index + (devices.filter (rsync_eligible R)).length) := by
  induction devices with
  | nil =>
    intro index regs _
    simp [nvidia_p2p_get_rsync_registers_pass]
  | cons nvl rest ih =>
    intro index regs hlen
    simp only [List.length_cons] at hlen
    by_cases hst : (R.nv_get_ibmnpu_genreg_info nvl.nv).1 = NV_OK
    · by_cases hptr : R.nv_ioremap_nocache (R.nv_get_ibmnpu_genreg_info nvl.nv).2.1
          (R.nv_get_ibmnpu_genreg_info nvl.nv).2.2.1 = NULL
      · have hel : rsync_eligible R nvl = false := by simp [rsync_eligible, hptr]
        have h := ih index regs (by omega)
        simp only [nvidia_p2p_get_rsync_registers_pass, hst, ne_eq, not_true_eq_false,
          if_false, hptr, if_true, List.filter_cons, hel]
        exact h
      · have hel : rsync_eligible R nvl = true := by simp [rsync_eligible, hst, hptr]
        have hlt : index < regs.length := by omega
        have h := ih (index + 1) (regs.set index (rsync_slot R nvl))
          (by rw [List.length_set]; omega)
        have htake : (regs.set index (rsync_slot R nvl)).take (index + 1) =
            regs.take index ++ [rsync_slot R nvl] := by
          rw [List.set_eq_take_append_cons_drop, if_pos hlt]
          have hA : (regs.take index).length = index := by
            rw [List.length_take]; omega
          rw [List.take_append_eq_append_take, hA]
          simp [List.take_take]
        have hdrop : ∀ k, (regs.set index (rsync_slot R nvl)).drop (index + 1 + k) =
            regs.drop (index + 1 + k) := by
          intro k
          rw [List.drop_set_of_lt]
          omega
        simp only [nvidia_p2p_get_rsync_registers_pass, hst, ne_eq, not_true_eq_false,
          if_false, hptr, List.filter_cons, hel, if_true, List.length_cons, List.map_cons]
        refine ⟨?_, ?_⟩
        · have := h.1
          simp only [rsync_slot] at this
          rw [this]; omega
        · have := h.2
          rw [htake, hdrop] at this
          simp only [rsync_slot] at this ⊢
          rw [this]
          have e : index + ((rest.filter (rsync_eligible R)).length + 1) =
              index + 1 + (rest.filter (rsync_eligible R)).length := by omega
          rw [e]
          simp [List.append_assoc]
    · have hel : rsync_eligible R nvl = false := by simp [rsync_eligible, hst]
      have h := ih index regs (by omega)
      simp only [nvidia_p2p_get_rsync_registers_pass, hst, ne_eq, not_false_eq_true,
        if_true, List.filter_cons, hel]
      exact h

theorem pass_trace_facts (R : RsyncPlatform) (devices : List nv_linux_state_t) :
    ∀ (index : Nat) (regs : List nvidia_p2p_rsync_reg_t),
      iomapped (nvidia_p2p_get_rsync_registers_pass R devices index regs).2.2 =
        (devices.filter (rsync_eligible R)).map (fun nvl => (rsync_slot R nvl).ptr) ∧
      (∀ e ∈ (nvidia_p2p_get_rsync_registers_pass R devices index regs).2.2,
        e.isDevicesLock = false) ∧
      ((nvidia_p2p_get_rsync_registers_pass R devices index regs).2.2.filter
        Event.isDevicesRead).length = devices.length ∧
      allocated (nvidia_p2p_get_rsync_registers_pass R devices index regs).2.2 = [] ∧
      freed (nvidia_p2p_get_rsync_registers_pass R devices index regs).2.2 = [] ∧
      iounmapped (nvidia_p2p_get_rsync_registers_pass R devices index regs).2.2 = [] := by
  induction devices with
  | nil =>
    intro index regs
    simp [nvidia_p2p_get_rsync_registers_pass, iomapped, allocated, freed, iounmapped]
  | cons nvl rest ih =>
    intro index regs
    by_cases hst : (R.nv_get_ibmnpu_genreg_info nvl.nv).1 = NV_OK
    · by_cases hptr : R.nv_ioremap_nocache (R.nv_get_ibmnpu_genreg_info nvl.nv).2.1
          (R.nv_get_ibmnpu_genreg_info nvl.nv).2.2.1 = NULL
      · have hel : rsync_eligible R nvl = false := by simp [rsync_eligible, hptr]
        obtain ⟨h1, h2, h3, h4, h5, h6⟩ := ih index regs
        simp only [nvidia_p2p_get_rsync_registers_pass, hst, ne_eq, not_true_eq_false,
          if_false, hptr, if_true, List.filter_cons, hel, iomapped_append,
          allocated_append, freed_append, iounmapped_append, h1, h4, h5, h6]
        refine ⟨by simp [iomapped], ?_, ?_, by simp [allocated], by simp [freed],
          by simp [iounmapped]⟩
        · intro e he
          simp only [List.mem_append, List.mem_cons, List.mem_singleton,
            List.not_mem_nil, or_false] at he
          rcases he with (rfl | rfl | rfl) | he
          · rfl
          · rfl
          · rfl
          · exact h2 e he
        · simp [List.filter_cons, h3]
      · have hel : rsync_eligible R nvl = true := by simp [rsync_eligible, hst, hptr]
        obtain ⟨h1, h2, h3, h4, h5, h6⟩ := ih (index + 1) (regs.set index (rsync_slot R nvl))
        simp only [rsync_slot] at h1 h2 h3 h4 h5 h6
        simp only [nvidia_p2p_get_rsync_registers_pass, hst, ne_eq, not_true_eq_false,
          if_false, hptr, List.filter_cons, hel, if_true, iomapped_append,
          allocated_append, freed_append, iounmapped_append, h1, h4, h5, h6, rsync_slot,
          List.map_cons]
        refine ⟨by simp [iomapped, hptr], ?_, ?_, by simp [allocated], by simp [freed],
          by simp [iounmapped]⟩
        · intro e he
          simp only [List.mem_append, List.mem_cons, List.mem_singleton,
            List.not_mem_nil, or_false] at he
          rcases he with (rfl | rfl | rfl | rfl) | he
          · rfl
          · rfl
          · rfl
          · rfl
          · exact h2 e he
        · simp [List.filter_cons, h3]
    · have hel : rsync_eligible R nvl = false := by simp [rsync_eligible, hst]
      obtain ⟨h1, h2, h3, h4, h5, h6⟩ := ih index regs
      simp only [nvidia_p2p_get_rsync_registers_pass, hst, ne_eq, not_false_eq_true,
        if_true, List.filter_cons, hel, iomapped_append, allocated_append, freed_append,
        iounmapped_append, h1, h4, h5, h6]
      refine ⟨by simp [iomapped], ?_, ?_, by simp [allocated], by simp [freed],
        by simp [iounmapped]⟩
      · intro e he
        simp only [List.mem_append, List.mem_cons, List.mem_singleton,
          List.not_mem_nil, or_false] at he
        rcases he with (rfl | rfl) | he
        · rfl
        · rfl
        · exact h2 e he
      · simp [List.filter_cons, h3]

theorem flatMap_range_getD {α β : Type} (l : List α) (d : α) (g : α → List β) :
    ∀ n, n ≤ l.length →
      (List.range n).flatMap (fun i => g (l.getD i d)) = (l.take n).flatMap g := by
  intro n
  induction n with
  | zero => intro _; simp
  | succ n ih =>
    intro hn
    have hlt : n < l.length := by omega
    rw [List.range_succ, List.flatMap_append, ih (by omega), List.take_succ,
      List.flatMap_append]
    simp [List.getD, List.getElem?_eq_getElem hlt]

theorem flatMap_if_eq_filter_map {α β : Type} (l : List α) (c : α → Bool) (f : α → β) :
    l.flatMap (fun a => if c a = true then [f a] else []) = (l.filter c).map f := by
  induction l with
  | nil => rfl
  | cons a rest ih =>
    by_cases hc : c a = true
    · simp [List.flatMap_cons, List.filter_cons, hc, ih]
    · simp [List.flatMap_cons, List.filter_cons, hc, ih]

theorem put_rsync_registers_eq (reg_info : Ptr) (info : nvidia_p2p_rsync_reg_info_t)
    (hinfo : reg_info ≠ NULL) (hregs : info.regs ≠ NULL)
    (hlen : info.entries ≤ info.regs_mem.length) :
    nvidia_p2p_put_rsync_registers reg_info info =
      ((info.regs_mem.take info.entries).filter (fun r => decide (r.ptr ≠ NULL))).map
        (fun r => Event.nv_iounmap r.ptr r.size) ++
      [Event.os_free_mem (Obj.rsync_regs info.regs),
       Event.os_free_mem (Obj.rsync_reg_info reg_info)] := by
  have h1 := flatMap_range_getD info.regs_mem ⟨NULL, 0, NULL, NULL, 0, 0⟩
    (fun r => if decide (r.ptr ≠ NULL) = true then [Event.nv_iounmap r.ptr r.size] else [])
    info.entries hlen
  have h2 := flatMap_if_eq_filter_map (info.regs_mem.take info.entries)
    (fun r => decide (r.ptr ≠ NULL)) (fun r => Event.nv_iounmap r.ptr r.size)
  simp only [nvidia_p2p_put_rsync_registers, hinfo, if_false, hregs, ne_eq,
    not_false_eq_true, if_true]
  simp only [ne_eq, decide_not, Bool.not_eq_true', decide_eq_false_iff_not] at h1 h2
  simp only [decide_not]
  rw [h1, h2]
  simp

theorem iounmapped_map_iounmap (l : List nvidia_p2p_rsync_reg_t) :
    iounmapped (l.map (fun r => Event.nv_iounmap r.ptr r.size)) =
      l.map (fun r => (r.ptr, r.size)) := by
  induction l with
  | nil => rfl
  | cons r rest ih =>
    simp only [List.map_cons]
    rw [← ih]
    rfl

theorem freed_map_iounmap (l : List nvidia_p2p_rsync_reg_t) :
    freed (l.map (fun r => Event.nv_iounmap r.ptr r.size)) = [] := by
  induction l with
  | nil => rfl
  | cons r rest ih =>
    simp only [List.map_cons]
    rw [← ih]
    rfl

/-- C24: `nvidia_p2p_put_rsync_registers`: on a null argument it makes no call, no
unmap and no free; on a non-null `info` with a non-null entry array it calls
`nv_iounmap` exactly once, with the entry's pointer and size, for each of the
first `entries` slots whose pointer is non-null, in slot order, and for no
other slot, then frees the entry array and then the info structure, each
exactly once; with a null entry array it only frees the info structure. -/
theorem put_rsync_registers_unmaps_and_frees (reg_info : Ptr)
    (info : nvidia_p2p_rsync_reg_info_t) (hinfo : reg_info ≠ NULL)
    (hlen : info.entries ≤ info.regs_mem.length) :
    nvidia_p2p_put_rsync_registers NULL info = [] ∧
    (info.regs ≠ NULL →
      nvidia_p2p_put_rsync_registers reg_info info =
        ((info.regs_mem.take info.entries).filter (fun r => decide (r.ptr ≠ NULL))).map
          (fun r => Event.nv_iounmap r.ptr r.size) ++
        [Event.os_free_mem (Obj.rsync_regs info.regs),
         Event.os_free_mem (Obj.rsync_reg_info reg_info)] ∧
      iounmapped (nvidia_p2p_put_rsync_registers reg_info info) =
        ((info.regs_mem.take info.entries).filter (fun r => decide (r.ptr ≠ NULL))).map
          (fun r => (r.ptr, r.size)) ∧
      freed (nvidia_p2p_put_rsync_registers reg_info info) =
        [Obj.rsync_regs info.regs, Obj.rsync_reg_info reg_info]) ∧
    (info.regs = NULL →
      nvidia_p2p_put_rsync_registers reg_info info =
        [Event.os_free_mem (Obj.rsync_reg_info reg_info)]) := by
  refine ⟨by simp [nvidia_p2p_put_rsync_registers], fun hregs => ?_, fun hregs => ?_⟩
  · have h := put_rsync_registers_eq reg_info info hinfo hregs hlen
    refine ⟨h, ?_, ?_⟩
    · rw [h, iounmapped_append, iounmapped_map_iounmap]
      simp [iounmapped]
    · rw [h, freed_append, freed_map_iounmap]
      simp [freed]
  · simp [nvidia_p2p_put_rsync_registers, hinfo, hregs]

/-- C24, at a concrete input: an info of two entries whose second slot has a null
pointer; the third slot is beyond `entries`. -/
theorem put_rsync_registers_unmaps_and_frees_witness :
    (0x7000 : Ptr) ≠ NULL ∧
    example_rsync_info.entries ≤ example_rsync_info.regs_mem.length ∧
    example_rsync_info.regs ≠ NULL ∧
    nvidia_p2p_put_rsync_registers 0x7000 example_rsync_info =
      [Event.nv_iounmap 0xf1000 0x100, Event.os_free_mem (Obj.rsync_regs 0x6000),
       Event.os_free_mem (Obj.rsync_reg_info 0x7000)] :=
  have h := put_rsync_registers_unmaps_and_frees 0x7000 example_rsync_info
    (by decide) (by decide)
  ⟨by decide, by decide, by decide, (h.2.1 (by decide)).1⟩

theorem pass_index (R : RsyncPlatform) (devices : List nv_linux_state_t) :
    ∀ (index : Nat) (regs : List nvidia_p2p_rsync_reg_t),
      (nvidia_p2p_get_rsync_registers_pass R devices index regs).1 =
        index + (devices.filter (rsync_eligible R)).length := by
  induction devices with
  | nil =>
    intro index regs
    simp [nvidia_p2p_get_rsync_registers_pass]
  | cons nvl rest ih =>
    intro index regs
    by_cases hst : (R.nv_get_ibmnpu_genreg_info nvl.nv).1 = NV_OK
    · by_cases hptr : R.nv_ioremap_nocache (R.nv_get_ibmnpu_genreg_info nvl.nv).2.1
          (R.nv_get_ibmnpu_genreg_info nvl.nv).2.2.1 = NULL
      · have hel : rsync_eligible R nvl = false := by simp [rsync_eligible, hptr]
        simp only [nvidia_p2p_get_rsync_registers_pass, hst, ne_eq, not_true_eq_false,
          if_false, hptr, if_true, List.filter_cons, hel]
        exact ih index regs
      · have hel : rsync_eligible R nvl = true := by simp [rsync_eligible, hst, hptr]
        simp only [nvidia_p2p_get_rsync_registers_pass, hst, ne_eq, not_true_eq_false,
          if_false, hptr, List.filter_cons, hel, if_true, List.length_cons]
        rw [ih]; omega
    · have hel : rsync_eligible R nvl = false := by simp [rsync_eligible, hst]
      simp only [nvidia_p2p_get_rsync_registers_pass, hst, ne_eq, not_false_eq_true,
        if_true, List.filter_cons, hel]
      exact ih index regs

/-- C23: `nvidia_p2p_get_rsync_registers` over a list of N devices, with a non-null
output pointer and both allocations succeeding: if no device is eligible (for
each the NPU lookup fails or the MMIO map returns null) it returns `-ENODEV`
and does not write the output; otherwise, with M (at most N) the number of
eligible devices, it returns 0 and stores the info pointer, whose structure
has `entries = M`, the slots 0 to M-1 holding, in device-list order, the mapped
pointer, size, GPU and NPU identity (cluster 0, chip id as socket) of the
eligible devices, and every slot from M on as the allocator left it. -/
theorem get_rsync_registers_entries (R : RsyncPlatform) (devices : List nv_linux_state_t)
    (info_alloc regs_alloc : NV_STATUS × Ptr) (regs_init : List nvidia_p2p_rsync_reg_t)
    (reg_info : Ptr) (hout : reg_info ≠ NULL) (hinfo : info_alloc.1 = NV_OK)
    (hregs : regs_alloc.1 = NV_OK) (hinit : regs_init.length = devices.length) :
    (devices.filter (rsync_eligible R)).length ≤ devices.length ∧
    (devices.filter (rsync_eligible R) = [] →
      (nvidia_p2p_get_rsync_registers R devices info_alloc regs_alloc regs_init
        reg_info).ret = - ENODEV ∧
      (nvidia_p2p_get_rsync_registers R devices info_alloc regs_alloc regs_init
        reg_info).reg_info = none) ∧
    (devices.filter (rsync_eligible R) ≠ [] →
      (nvidia_p2p_get_rsync_registers R devices info_alloc regs_alloc regs_init
        reg_info).ret = 0 ∧
      (nvidia_p2p_get_rsync_registers R devices info_alloc regs_alloc regs_init
        reg_info).reg_info =
        some (info_alloc.2,
          ⟨R.NVIDIA_P2P_RSYNC_REG_INFO_VERSION, regs_alloc.2,
            (devices.filter (rsync_eligible R)).map (rsync_slot R) ++
              regs_init.drop (devices.filter (rsync_eligible R)).length,
            (devices.filter (rsync_eligible R)).length⟩) ∧
      (nvidia_p2p_get_rsync_registers R devices info_alloc regs_alloc regs_init
        reg_info).reg_info.map (fun p =>
          (p.2.entries, p.2.regs_mem.take (devices.filter (rsync_eligible R)).length,
           p.2.regs_mem.drop (devices.filter (rsync_eligible R)).length)) =
        some ((devices.filter (rsync_eligible R)).length,
          (devices.filter (rsync_eligible R)).map (rsync_slot R),
          regs_init.drop (devices.filter (rsync_eligible R)).length)) := by
  have hpass := pass_spec R devices 0 regs_init (by omega)
  simp only [Nat.zero_add, List.take_zero, List.nil_append] at hpass
  have hget : nvidia_p2p_get_rsync_registers R devices info_alloc regs_alloc regs_init
      reg_info =
      if (devices.filter (rsync_eligible R)).length = 0 then
        ⟨- ENODEV, none,
          ([Event.os_alloc_mem info_alloc.1 info_alloc.2, Event.LOCK_NV_LINUX_DEVICES,
            Event.nv_linux_devices_read] ++
            devices.map (fun _ => Event.nv_linux_devices_read) ++
            [Event.os_alloc_mem regs_alloc.1 regs_alloc.2] ++
            [Event.nv_linux_devices_read] ++
            (nvidia_p2p_get_rsync_registers_pass R devices 0 regs_init).2.2 ++
            [Event.UNLOCK_NV_LINUX_DEVICES]) ++
          nvidia_p2p_put_rsync_registers info_alloc.2
            ⟨R.NVIDIA_P2P_RSYNC_REG_INFO_VERSION, regs_alloc.2,
              (devices.filter (rsync_eligible R)).map (rsync_slot R) ++
                regs_init.drop (devices.filter (rsync_eligible R)).length,
              (devices.filter (rsync_eligible R)).length⟩⟩
      else
        ⟨0, some (info_alloc.2,
          ⟨R.NVIDIA_P2P_RSYNC_REG_INFO_VERSION, regs_alloc.2,
            (devices.filter (rsync_eligible R)).map (rsync_slot R) ++
              regs_init.drop (devices.filter (rsync_eligible R)).length,
            (devices.filter (rsync_eligible R)).length⟩),
          [Event.os_alloc_mem info_alloc.1 info_alloc.2, Event.LOCK_NV_LINUX_DEVICES,
            Event.nv_linux_devices_read] ++
            devices.map (fun _ => Event.nv_linux_devices_read) ++
            [Event.os_alloc_mem regs_alloc.1 regs_alloc.2] ++
            [Event.nv_linux_devices_read] ++
            (nvidia_p2p_get_rsync_registers_pass R devices 0 regs_init).2.2 ++
            [Event.UNLOCK_NV_LINUX_DEVICES]⟩ := by
    simp only [nvidia_p2p_get_rsync_registers, hout, if_false, hinfo, hregs, ne_eq,
      not_true_eq_false, hpass.1, hpass.2]
  refine ⟨List.length_filter_le _ _, fun hnone => ?_, fun hsome => ?_⟩
  · rw [hget, hnone]
    exact ⟨rfl, rfl⟩
  · have hlen : (devices.filter (rsync_eligible R)).length ≠ 0 := by
      intro h0
      exact hsome (List.length_eq_zero.mp h0)
    rw [hget, if_neg hlen]
    refine ⟨rfl, rfl, ?_⟩
    simp only [Option.map_some', Option.some.injEq, Prod.mk.injEq, true_and]
    have hl : ((devices.filter (rsync_eligible R)).map (rsync_slot R)).length =
        (devices.filter (rsync_eligible R)).length := List.length_map _ _
    constructor
    · rw [List.take_append_eq_append_take, hl]
      simp
    · rw [List.drop_append_eq_append_drop, hl]
      simp

/-- C23, at a concrete input: three devices of which the second has no NPU; two
slots are filled and the third is left as allocated. -/
theorem get_rsync_registers_entries_witness :
    (0x8000 : Ptr) ≠ NULL ∧
    example_regs_init.length = example_devices.length ∧
    example_devices.filter (rsync_eligible example_rsync_platform) ≠ [] ∧
    (nvidia_p2p_get_rsync_registers example_rsync_platform example_devices
        (NV_OK, 0x7000) (NV_OK, 0x6000) example_regs_init 0x8000).ret = 0 ∧
    (nvidia_p2p_get_rsync_registers example_rsync_platform example_devices
        (NV_OK, 0x7000) (NV_OK, 0x6000) example_regs_init 0x8000).reg_info =
      some (0x7000, ⟨0x00010000, 0x6000,
        [⟨0xf1000, 0x100, 0x11, 0x51, 0, 8⟩, ⟨0xf3000, 0x100, 0x13, 0x53, 0, 10⟩,
         ⟨0xdead, 1, 2, 3, 4, 5⟩], 2⟩) ∧
    (nvidia_p2p_get_rsync_registers example_rsync_platform_none example_devices
        (NV_OK, 0x7000) (NV_OK, 0x6000) example_regs_init 0x8000).ret = - ENODEV :=
  have h := get_rsync_registers_entries example_rsync_platform example_devices
    (NV_OK, 0x7000) (NV_OK, 0x6000) example_regs_init 0x8000 (by decide) rfl rfl
    (by decide)
  have g := get_rsync_registers_entries example_rsync_platform_none example_devices
    (NV_OK, 0x7000) (NV_OK, 0x6000) example_regs_init 0x8000 (by decide) rfl rfl
    (by decide)
  ⟨by decide, by decide, by decide, (h.2.2 (by decide)).1, (h.2.2 (by decide)).2.1,
    (g.2.1 (by decide)).1⟩

theorem counting_facts (devices : List nv_linux_state_t) :
    iomapped (devices.map (fun _ => Event.nv_linux_devices_read)) = [] ∧
    allocated (devices.map (fun _ => Event.nv_linux_devices_read)) = [] ∧
    freed (devices.map (fun _ => Event.nv_linux_devices_read)) = [] ∧
    iounmapped (devices.map (fun _ => Event.nv_linux_devices_read)) = [] ∧
    (devices.map (fun _ => Event.nv_linux_devices_read)).filter Event.isDevicesLock = [] ∧
    ((devices.map (fun _ => Event.nv_linux_devices_read)).filter
      Event.isDevicesRead).length = devices.length := by
  induction devices with
  | nil => simp [iomapped, allocated, freed, iounmapped]
  | cons d rest ih =>
    obtain ⟨h1, h2, h3, h4, h5, h6⟩ := ih
    simp only [iomapped, allocated, freed, iounmapped] at h1 h2 h3 h4 ⊢
    simp [List.filter_cons, h1, h2, h3, h4, h5, h6]

theorem put_rsync_registers_quiet (reg_info : Ptr) (info : nvidia_p2p_rsync_reg_info_t) :
    (∀ e ∈ nvidia_p2p_put_rsync_registers reg_info info,
      e.isDevicesLock = false ∧ e.isDevicesRead = false) ∧
    iomapped (nvidia_p2p_put_rsync_registers reg_info info) = [] ∧
    allocated (nvidia_p2p_put_rsync_registers reg_info info) = [] := by
  have hall : ∀ e ∈ nvidia_p2p_put_rsync_registers reg_info info,
      (∃ p s, e = Event.nv_iounmap p s) ∨ (∃ o, e = Event.os_free_mem o) := by
    intro e he
    simp only [nvidia_p2p_put_rsync_registers] at he
    split_ifs at he
    · simp at he
    · simp only [List.mem_append, List.mem_flatMap, List.mem_range, List.mem_singleton]
        at he
      rcases he with (⟨i, _, hi⟩ | rfl) | rfl
      · split_ifs at hi
        · simp only [List.mem_singleton] at hi
          exact Or.inl ⟨_, _, hi⟩
        · simp at hi
      · exact Or.inr ⟨_, rfl⟩
      · exact Or.inr ⟨_, rfl⟩
    · simp only [List.nil_append, List.mem_singleton] at he
      exact Or.inr ⟨_, he⟩
  refine ⟨?_, ?_, ?_⟩
  · intro e he
    rcases hall e he with ⟨p, s, rfl⟩ | ⟨o, rfl⟩ <;> exact ⟨rfl, rfl⟩
  · simp only [iomapped, List.filterMap_eq_nil_iff]
    intro e he
    rcases hall e he with ⟨p, s, rfl⟩ | ⟨o, rfl⟩ <;> rfl
  · simp only [allocated, List.filterMap_eq_nil_iff]
    intro e he
    rcases hall e he with ⟨p, s, rfl⟩ | ⟨o, rfl⟩ <;> rfl

/-- C25: failures of `nvidia_p2p_get_rsync_registers` leave no state behind.  A
null output pointer yields `-EINVAL` with no step at all (no allocation);
failure of the first allocation yields `-ENOMEM` with nothing allocated;
failure of the second yields `-ENOMEM` with the info structure, the only
allocation, freed; a scan that fills no slot yields `-ENODEV` with the register
array (when non-null) and the info structure freed; and on every return other
than 0 the caller's `*reg_info` is not written and no MMIO range is left
mapped (none was mapped). -/
theorem get_rsync_registers_failures (R : RsyncPlatform) (devices : List nv_linux_state_t)
    (info_alloc regs_alloc : NV_STATUS × Ptr) (regs_init : List nvidia_p2p_rsync_reg_t)
    (reg_info : Ptr) :
    ((nvidia_p2p_get_rsync_registers R devices info_alloc regs_alloc regs_init NULL).ret =
        - EINVAL ∧
      (nvidia_p2p_get_rsync_registers R devices info_alloc regs_alloc regs_init
        NULL).trace = []) ∧
    (reg_info ≠ NULL → info_alloc.1 ≠ NV_OK →
      (nvidia_p2p_get_rsync_registers R devices info_alloc regs_alloc regs_init
        reg_info).ret = - ENOMEM ∧
      allocated (nvidia_p2p_get_rsync_registers R devices info_alloc regs_alloc regs_init
        reg_info).trace = [] ∧
      freed (nvidia_p2p_get_rsync_registers R devices info_alloc regs_alloc regs_init
        reg_info).trace = []) ∧
    (reg_info ≠ NULL → info_alloc.1 = NV_OK → info_alloc.2 ≠ NULL →
      regs_alloc.1 ≠ NV_OK →
      (nvidia_p2p_get_rsync_registers R devices info_alloc regs_alloc regs_init
        reg_info).ret = - ENOMEM ∧
      allocated (nvidia_p2p_get_rsync_registers R devices info_alloc regs_alloc regs_init
        reg_info).trace = [info_alloc.2] ∧
      freed (nvidia_p2p_get_rsync_registers R devices info_alloc regs_alloc regs_init
        reg_info).trace = [Obj.rsync_reg_info info_alloc.2]) ∧
    (reg_info ≠ NULL → info_alloc.1 = NV_OK → info_alloc.2 ≠ NULL →
      regs_alloc.1 = NV_OK → regs_alloc.2 ≠ NULL →
      (nvidia_p2p_get_rsync_registers R devices info_alloc regs_alloc regs_init
        reg_info).ret ≠ 0 →
      (nvidia_p2p_get_rsync_registers R devices info_alloc regs_alloc regs_init
        reg_info).ret = - ENODEV ∧
      allocated (nvidia_p2p_get_rsync_registers R devices info_alloc regs_alloc regs_init
        reg_info).trace = [info_alloc.2, regs_alloc.2] ∧
      freed (nvidia_p2p_get_rsync_registers R devices info_alloc regs_alloc regs_init
        reg_info).trace = [Obj.rsync_regs regs_alloc.2, Obj.rsync_reg_info info_alloc.2]) ∧
    ((nvidia_p2p_get_rsync_registers R devices info_alloc regs_alloc regs_init
        reg_info).ret ≠ 0 →
      (nvidia_p2p_get_rsync_registers R devices info_alloc regs_alloc regs_init
        reg_info).reg_info = none ∧
      iomapped (nvidia_p2p_get_rsync_registers R devices info_alloc regs_alloc regs_init
        reg_info).trace = [] ∧
      ((nvidia_p2p_get_rsync_registers R devices info_alloc regs_alloc regs_init
          reg_info).ret = - EINVAL ∨
        (nvidia_p2p_get_rsync_registers R devices info_alloc regs_alloc regs_init
          reg_info).ret = - ENOMEM ∨
        (nvidia_p2p_get_rsync_registers R devices info_alloc regs_alloc regs_init
          reg_info).ret = - ENODEV)) := by
  obtain ⟨c1, c2, c3, c4, _, _⟩ := counting_facts devices
  obtain ⟨p1, _, _, p4, p5, p6⟩ := pass_trace_facts R devices 0 regs_init
  have pidx := pass_index R devices 0 regs_init
  refine ⟨⟨by simp [nvidia_p2p_get_rsync_registers],
    by simp [nvidia_p2p_get_rsync_registers]⟩, ?_, ?_, ?_, ?_⟩
  · intro hout hia
    simp [nvidia_p2p_get_rsync_registers, hout, hia, allocated, freed]
  · intro hout hia hip hra
    simp only [nvidia_p2p_get_rsync_registers, hout, if_false, hia, ne_eq,
      not_true_eq_false, hra, not_false_eq_true, if_true, allocated_append, freed_append,
      c2, c3]
    simp [allocated, freed, nvidia_p2p_put_rsync_registers, hip, hra]
  · intro hout hia hip hra hrp hret
    by_cases hz : (nvidia_p2p_get_rsync_registers_pass R devices 0 regs_init).1 = 0
    · simp only [nvidia_p2p_get_rsync_registers, hout, if_false, hia, ne_eq,
        not_true_eq_false, hra, hz, if_true, allocated_append, freed_append, c2, c3, p4,
        p5]
      simp [allocated, freed, nvidia_p2p_put_rsync_registers, hip, hrp, hia, hra]
    · exfalso
      apply hret
      simp [nvidia_p2p_get_rsync_registers, hout, hia, hra, hz]
  · intro hret
    by_cases hout : reg_info = NULL
    · simp [nvidia_p2p_get_rsync_registers, hout, iomapped]
    by_cases hia : info_alloc.1 = NV_OK
    swap
    · simp [nvidia_p2p_get_rsync_registers, hout, hia, iomapped]
    by_cases hra : regs_alloc.1 = NV_OK
    swap
    · simp only [nvidia_p2p_get_rsync_registers, hout, if_false, hia, ne_eq,
        not_true_eq_false, hra, not_false_eq_true, if_true, iomapped_append, c1,
        (put_rsync_registers_quiet _ _).2.1]
      simp [iomapped]
    by_cases hz : (nvidia_p2p_get_rsync_registers_pass R devices 0 regs_init).1 = 0
    · have hE : devices.filter (rsync_eligible R) = [] := by
        rw [pidx] at hz
        exact List.length_eq_zero.mp (by omega)
      rw [hE] at p1
      simp only [nvidia_p2p_get_rsync_registers, hout, if_false, hia, ne_eq,
        not_true_eq_false, hra, hz, if_true, iomapped_append, c1, p1,
        (put_rsync_registers_quiet _ _).2.1]
      simp [iomapped]
    · exfalso
      apply hret
      simp [nvidia_p2p_get_rsync_registers, hout, hia, hra, hz]

/-- C25, at a concrete input: a null output pointer, a failing second
allocation, and a scan over devices without NPU. -/
theorem get_rsync_registers_failures_witness :
    (nvidia_p2p_get_rsync_registers example_rsync_platform example_devices
        (NV_OK, 0x7000) (NV_OK, 0x6000) example_regs_init NULL).trace = [] ∧
    freed (nvidia_p2p_get_rsync_registers example_rsync_platform example_devices
        (NV_OK, 0x7000) (NV_ERR_NO_MEMORY, NULL) example_regs_init 0x8000).trace =
      [Obj.rsync_reg_info 0x7000] ∧
    (nvidia_p2p_get_rsync_registers example_rsync_platform_none example_devices
        (NV_OK, 0x7000) (NV_OK, 0x6000) example_regs_init 0x8000).ret = - ENODEV ∧
    freed (nvidia_p2p_get_rsync_registers example_rsync_platform_none example_devices
        (NV_OK, 0x7000) (NV_OK, 0x6000) example_regs_init 0x8000).trace =
      [Obj.rsync_regs 0x6000, Obj.rsync_reg_info 0x7000] ∧
    (nvidia_p2p_get_rsync_registers example_rsync_platform_none example_devices
        (NV_OK, 0x7000) (NV_OK, 0x6000) example_regs_init 0x8000).reg_info = none :=
  have a := get_rsync_registers_failures example_rsync_platform example_devices
    (NV_OK, 0x7000) (NV_OK, 0x6000) example_regs_init 0x8000
  have b := get_rsync_registers_failures example_rsync_platform example_devices
    (NV_OK, 0x7000) (NV_ERR_NO_MEMORY, NULL) example_regs_init 0x8000
  have c := get_rsync_registers_failures example_rsync_platform_none example_devices
    (NV_OK, 0x7000) (NV_OK, 0x6000) example_regs_init 0x8000
  ⟨a.1.2, (b.2.2.1 (by decide) rfl (by decide) (by decide)).2.2,
    (c.2.2.2.1 (by decide) rfl (by decide) rfl (by decide) (by decide)).1,
    (c.2.2.2.1 (by decide) rfl (by decide) rfl (by decide) (by decide)).2.2,
    (c.2.2.2.2 (by decide)).1⟩

theorem lock_count_zero (t : List Event) (e : Event) (he : e.isDevicesLock = true)
    (ht : t.filter Event.isDevicesLock = []) : t.count e = 0 := by
  rw [List.count_eq_zero]
  intro hmem
  have : e ∈ t.filter Event.isDevicesLock := List.mem_filter.mpr ⟨hmem, he⟩
  rw [ht] at this
  simp at this

theorem lock_balance (pre mid post : List Event)
    (hpre : pre.filter Event.isDevicesLock = [])
    (hmid : mid.filter Event.isDevicesLock = [])
    (hpost : post.filter Event.isDevicesLock = []) :
    (pre ++ Event.LOCK_NV_LINUX_DEVICES :: mid ++
        Event.UNLOCK_NV_LINUX_DEVICES :: post).count Event.LOCK_NV_LINUX_DEVICES =
      (pre ++ Event.LOCK_NV_LINUX_DEVICES :: mid ++
        Event.UNLOCK_NV_LINUX_DEVICES :: post).count Event.UNLOCK_NV_LINUX_DEVICES := by
  have a1 := lock_count_zero pre Event.LOCK_NV_LINUX_DEVICES rfl hpre
  have a2 := lock_count_zero mid Event.LOCK_NV_LINUX_DEVICES rfl hmid
  have a3 := lock_count_zero post Event.LOCK_NV_LINUX_DEVICES rfl hpost
  have b1 := lock_count_zero pre Event.UNLOCK_NV_LINUX_DEVICES rfl hpre
  have b2 := lock_count_zero mid Event.UNLOCK_NV_LINUX_DEVICES rfl hmid
  have b3 := lock_count_zero post Event.UNLOCK_NV_LINUX_DEVICES rfl hpost
  simp [List.count_append, List.count_cons, a1, a2, a3, b1, b2, b3]

/-- C26: in every execution of `nvidia_p2p_get_rsync_registers` either no step
touches the devices lock or the device list (the returns before the scan), or
the trace is `pre ++ LOCK :: mid ++ UNLOCK :: post` where none of `pre`, `mid`,
`post` takes or releases the lock and neither `pre` nor `post` reads the device
list: every read of the list, of the counting pass and of the mapping pass,
lies in `mid`, between the one acquisition and the one release.  On every exit
path the lock is taken as often as it is released. -/
theorem get_rsync_registers_lock_discipline (R : RsyncPlatform)
    (devices : List nv_linux_state_t) (info_alloc regs_alloc : NV_STATUS × Ptr)
    (regs_init : List nvidia_p2p_rsync_reg_t) (reg_info : Ptr) :
    (((nvidia_p2p_get_rsync_registers R devices info_alloc regs_alloc regs_init
          reg_info).trace.filter Event.isDevicesLock = [] ∧
        (nvidia_p2p_get_rsync_registers R devices info_alloc regs_alloc regs_init
          reg_info).trace.filter Event.isDevicesRead = []) ∨
      ∃ pre mid post,
        (nvidia_p2p_get_rsync_registers R devices info_alloc regs_alloc regs_init
          reg_info).trace =
          pre ++ Event.LOCK_NV_LINUX_DEVICES :: mid ++
            Event.UNLOCK_NV_LINUX_DEVICES :: post ∧
        pre.filter Event.isDevicesLock = [] ∧ mid.filter Event.isDevicesLock = [] ∧
        post.filter Event.isDevicesLock = [] ∧
        pre.filter Event.isDevicesRead = [] ∧ post.filter Event.isDevicesRead = [] ∧
        ((mid.filter Event.isDevicesRead).length = devices.length + 1 ∨
          (mid.filter Event.isDevicesRead).length = 2 * (devices.length + 1))) ∧
    (nvidia_p2p_get_rsync_registers R devices info_alloc regs_alloc regs_init
        reg_info).trace.count Event.LOCK_NV_LINUX_DEVICES =
      (nvidia_p2p_get_rsync_registers R devices info_alloc regs_alloc regs_init
        reg_info).trace.count Event.UNLOCK_NV_LINUX_DEVICES := by
  obtain ⟨_, _, _, _, c5, c6⟩ := counting_facts devices
  obtain ⟨_, p2, p3, _, _, _⟩ := pass_trace_facts R devices 0 regs_init
  have hpassl : (nvidia_p2p_get_rsync_registers_pass R devices 0 regs_init).2.2.filter
      Event.isDevicesLock = [] := by
    rw [List.filter_eq_nil_iff]
    intro e he
    rw [p2 e he]
    decide
  have hput : ∀ (q : Ptr) (i : nvidia_p2p_rsync_reg_info_t),
      (nvidia_p2p_put_rsync_registers q i).filter Event.isDevicesLock = [] ∧
      (nvidia_p2p_put_rsync_registers q i).filter Event.isDevicesRead = [] := by
    intro q i
    constructor
    · rw [List.filter_eq_nil_iff]
      intro e he
      rw [((put_rsync_registers_quiet q i).1 e he).1]
      decide
    · rw [List.filter_eq_nil_iff]
      intro e he
      rw [((put_rsync_registers_quiet q i).1 e he).2]
      decide
  have hmain : ((nvidia_p2p_get_rsync_registers R devices info_alloc regs_alloc regs_init
          reg_info).trace.filter Event.isDevicesLock = [] ∧
        (nvidia_p2p_get_rsync_registers R devices info_alloc regs_alloc regs_init
          reg_info).trace.filter Event.isDevicesRead = []) ∨
      ∃ pre mid post,
        (nvidia_p2p_get_rsync_registers R devices info_alloc regs_alloc regs_init
          reg_info).trace =
          pre ++ Event.LOCK_NV_LINUX_DEVICES :: mid ++
            Event.UNLOCK_NV_LINUX_DEVICES :: post ∧
        pre.filter Event.isDevicesLock = [] ∧ mid.filter Event.isDevicesLock = [] ∧
        post.filter Event.isDevicesLock = [] ∧
        pre.filter Event.isDevicesRead = [] ∧ post.filter Event.isDevicesRead = [] ∧
        ((mid.filter Event.isDevicesRead).length = devices.length + 1 ∨
          (mid.filter Event.isDevicesRead).length = 2 * (devices.length + 1)) := by
    by_cases hout : reg_info = NULL
    · left
      simp [nvidia_p2p_get_rsync_registers, hout]
    by_cases hia : info_alloc.1 = NV_OK
    swap
    · left
      simp [nvidia_p2p_get_rsync_registers, hout, hia]
    right
    by_cases hra : regs_alloc.1 = NV_OK
    swap
    · refine ⟨[Event.os_alloc_mem info_alloc.1 info_alloc.2],
        [Event.nv_linux_devices_read] ++
          devices.map (fun _ => Event.nv_linux_devices_read) ++
          [Event.os_alloc_mem regs_alloc.1 regs_alloc.2] ++
          nvidia_p2p_put_rsync_registers info_alloc.2
            ⟨R.NVIDIA_P2P_RSYNC_REG_INFO_VERSION, NULL, [], 0⟩,
        [], ?_, by simp, ?_, by simp, by simp, by simp, Or.inl ?_⟩
      · simp [nvidia_p2p_get_rsync_registers, hout, hia, hra]
      · simp only [List.filter_append, c5, (hput _ _).1]
        simp
      · simp only [List.filter_append, List.length_append, c6, (hput _ _).2]
        simp
        omega
    · by_cases hz : (nvidia_p2p_get_rsync_registers_pass R devices 0 regs_init).1 = 0
      · refine ⟨[Event.os_alloc_mem info_alloc.1 info_alloc.2],
          [Event.nv_linux_devices_read] ++
            devices.map (fun _ => Event.nv_linux_devices_read) ++
            [Event.os_alloc_mem regs_alloc.1 regs_alloc.2] ++
            [Event.nv_linux_devices_read] ++
            (nvidia_p2p_get_rsync_registers_pass R devices 0 regs_init).2.2,
          nvidia_p2p_put_rsync_registers info_alloc.2
            ⟨R.NVIDIA_P2P_RSYNC_REG_INFO_VERSION, regs_alloc.2,
              (nvidia_p2p_get_rsync_registers_pass R devices 0 regs_init).2.1,
              (nvidia_p2p_get_rsync_registers_pass R devices 0 regs_init).1⟩,
          ?_, by simp, ?_, (hput _ _).1, by simp, (hput _ _).2, Or.inr ?_⟩
        · simp [nvidia_p2p_get_rsync_registers, hout, hia, hra, hz]
        · simp only [List.filter_append, c5, hpassl]
          simp
        · simp only [List.filter_append, List.length_append, c6, p3]
          simp
          omega
      · refine ⟨[Event.os_alloc_mem info_alloc.1 info_alloc.2],
          [Event.nv_linux_devices_read] ++
            devices.map (fun _ => Event.nv_linux_devices_read) ++
            [Event.os_alloc_mem regs_alloc.1 regs_alloc.2] ++
            [Event.nv_linux_devices_read] ++
            (nvidia_p2p_get_rsync_registers_pass R devices 0 regs_init).2.2,
          [], ?_, by simp, ?_, by simp, by simp, by simp, Or.inr ?_⟩
        · simp [nvidia_p2p_get_rsync_registers, hout, hia, hra, hz]
        · simp only [List.filter_append, c5, hpassl]
          simp
        · simp only [List.filter_append, List.length_append, c6, p3]
          simp
          omega
  refine ⟨hmain, ?_⟩
  rcases hmain with ⟨hl, _⟩ | ⟨pre, mid, post, ht, h1, h2, h3, _, _, _⟩
  · rw [lock_count_zero _ Event.LOCK_NV_LINUX_DEVICES rfl hl,
      lock_count_zero _ Event.UNLOCK_NV_LINUX_DEVICES rfl hl]
  · rw [ht]
    exact lock_balance pre mid post h1 h2 h3

/-! ## Construction of `RmClientResource`: claims -/

/-- C30: constructor unwinding of `__nvoc_ctor_RmClientResource`.  The steps run
in the order RsClientResource, RmResourceCommon, Notifier, `cliresConstruct`;
when the first failing step is step k the function returns that step's status,
no later step runs, and the destructors called are exactly those of the base
classes constructed before step k, once each, in reverse construction order;
on full success no destructor is called and `NV_OK` is returned.  In
`__nvoc_objCreate_RmClientResource`, with the allocation succeeding, a
constructor failure returns the constructor's status, leaves `*ppThis`
unwritten, calls no further destructor and ends with the one free of the
object. -/
theorem ctor_RmClientResource_unwinds (S : CtorStatus) (pThis pParent : Ptr)
    (halspec_only : Bool) :
    (S.RsClientResource ≠ NV_OK →
      __nvoc_ctor_RmClientResource S =
        (S.RsClientResource, [NvocEvent.__nvoc_ctor_RsClientResource])) ∧
    (S.RsClientResource = NV_OK → S.RmResourceCommon ≠ NV_OK →
      __nvoc_ctor_RmClientResource S =
        (S.RmResourceCommon,
         [NvocEvent.__nvoc_ctor_RsClientResource, NvocEvent.__nvoc_ctor_RmResourceCommon,
          NvocEvent.__nvoc_dtor_RsClientResource])) ∧
    (S.RsClientResource = NV_OK → S.RmResourceCommon = NV_OK → S.Notifier ≠ NV_OK →
      __nvoc_ctor_RmClientResource S =
        (S.Notifier,
         [NvocEvent.__nvoc_ctor_RsClientResource, NvocEvent.__nvoc_ctor_RmResourceCommon,
          NvocEvent.__nvoc_ctor_Notifier,
          NvocEvent.__nvoc_dtor_RmResourceCommon, NvocEvent.__nvoc_dtor_RsClientResource])) ∧
    (S.RsClientResource = NV_OK → S.RmResourceCommon = NV_OK → S.Notifier = NV_OK →
      S.cliresConstruct ≠ NV_OK →
      __nvoc_ctor_RmClientResource S =
        (S.cliresConstruct,
         [NvocEvent.__nvoc_ctor_RsClientResource, NvocEvent.__nvoc_ctor_RmResourceCommon,
          NvocEvent.__nvoc_ctor_Notifier, NvocEvent.__nvoc_init_dataField_RmClientResource,
          NvocEvent.__nvoc_cliresConstruct,
          NvocEvent.__nvoc_dtor_Notifier, NvocEvent.__nvoc_dtor_RmResourceCommon,
          NvocEvent.__nvoc_dtor_RsClientResource])) ∧
    (S.RsClientResource = NV_OK → S.RmResourceCommon = NV_OK → S.Notifier = NV_OK →
      S.cliresConstruct = NV_OK →
      __nvoc_ctor_RmClientResource S =
        (NV_OK,
         [NvocEvent.__nvoc_ctor_RsClientResource, NvocEvent.__nvoc_ctor_RmResourceCommon,
          NvocEvent.__nvoc_ctor_Notifier, NvocEvent.__nvoc_init_dataField_RmClientResource,
          NvocEvent.__nvoc_cliresConstruct]) ∧
      (__nvoc_ctor_RmClientResource S).2.filter NvocEvent.isDtor = []) ∧
    ((__nvoc_ctor_RmClientResource S).1 = NV_OK ↔
      (S.RsClientResource = NV_OK ∧ S.RmResourceCommon = NV_OK ∧ S.Notifier = NV_OK ∧
        S.cliresConstruct = NV_OK)) ∧
    (pThis ≠ NULL → (__nvoc_ctor_RmClientResource S).1 ≠ NV_OK →
      (__nvoc_objCreate_RmClientResource S pThis pParent halspec_only).1 =
        (__nvoc_ctor_RmClientResource S).1 ∧
      (__nvoc_objCreate_RmClientResource S pThis pParent halspec_only).2.1 = none ∧
      (__nvoc_objCreate_RmClientResource S pThis pParent halspec_only).2.2.count
        (NvocEvent.portMemFree pThis) = 1 ∧
      (__nvoc_objCreate_RmClientResource S pThis pParent halspec_only).2.2.getLast? =
        some (NvocEvent.portMemFree pThis) ∧
      (__nvoc_objCreate_RmClientResource S pThis pParent halspec_only).2.2.filter
          NvocEvent.isDtor =
        (__nvoc_ctor_RmClientResource S).2.filter NvocEvent.isDtor) ∧
    (pThis ≠ NULL → (__nvoc_ctor_RmClientResource S).1 = NV_OK →
      (__nvoc_objCreate_RmClientResource S pThis pParent halspec_only).1 = NV_OK ∧
      (__nvoc_objCreate_RmClientResource S pThis pParent halspec_only).2.1 = some pThis ∧
      (__nvoc_objCreate_RmClientResource S pThis pParent halspec_only).2.2.count
        (NvocEvent.portMemFree pThis) = 0) := by
  have hctor_events : ∀ e ∈ (__nvoc_ctor_RmClientResource S).2,
      ∀ q, e ≠ NvocEvent.portMemFree q := by
    intro e he q
    simp only [__nvoc_ctor_RmClientResource, __nvoc_ctor_RmClientResource_fail__init,
      __nvoc_ctor_RmClientResource_fail_Notifier,
      __nvoc_ctor_RmClientResource_fail_RmResourceCommon,
      __nvoc_ctor_RmClientResource_fail_RsClientResource] at he
    split_ifs at he <;> simp at he <;> aesop
  refine ⟨?_, ?_, ?_, ?_, ?_, ?_, ?_, ?_⟩
  · intro h1
    simp [__nvoc_ctor_RmClientResource, h1,
      __nvoc_ctor_RmClientResource_fail_RsClientResource]
  · intro h1 h2
    simp [__nvoc_ctor_RmClientResource, h1, h2,
      __nvoc_ctor_RmClientResource_fail_RmResourceCommon,
      __nvoc_ctor_RmClientResource_fail_RsClientResource]
  · intro h1 h2 h3
    simp [__nvoc_ctor_RmClientResource, h1, h2, h3,
      __nvoc_ctor_RmClientResource_fail_Notifier,
      __nvoc_ctor_RmClientResource_fail_RmResourceCommon,
      __nvoc_ctor_RmClientResource_fail_RsClientResource]
  · intro h1 h2 h3 h4
    simp [__nvoc_ctor_RmClientResource, h1, h2, h3, h4,
      __nvoc_ctor_RmClientResource_fail__init,
      __nvoc_ctor_RmClientResource_fail_Notifier,
      __nvoc_ctor_RmClientResource_fail_RmResourceCommon,
      __nvoc_ctor_RmClientResource_fail_RsClientResource]
  · intro h1 h2 h3 h4
    simp [__nvoc_ctor_RmClientResource, h1, h2, h3, h4]
  · simp only [__nvoc_ctor_RmClientResource]
    split_ifs with h1 h2 h3 h4
    · simp only [h1, false_and]
    · simp only [h2, false_and, and_false]
    · simp only [h3, false_and, and_false]
    · simp only [h4, and_false]
    · simp only [ne_eq, not_not] at h1 h2 h3 h4
      simp only [h1, h2, h3, h4, and_self]
  · intro hp hfail
    have hnofree : (__nvoc_ctor_RmClientResource S).2.count (NvocEvent.portMemFree pThis)
        = 0 := by
      rw [List.count_eq_zero]
      intro hmem
      exact hctor_events _ hmem pThis rfl
    have hlast : (__nvoc_objCreate_RmClientResource S pThis pParent halspec_only).2.2.getLast? =
        some (NvocEvent.portMemFree pThis) := by
      simp only [__nvoc_objCreate_RmClientResource, hp, if_false, hfail, ne_eq,
        not_false_eq_true, if_true]
      exact List.getLast?_concat _
    refine ⟨?_, ?_, ?_, hlast, ?_⟩
    · simp only [__nvoc_objCreate_RmClientResource, hp, if_false, hfail, ne_eq,
        not_false_eq_true, if_true]
    · simp only [__nvoc_objCreate_RmClientResource, hp, if_false, hfail, ne_eq,
        not_false_eq_true, if_true]
    · simp only [__nvoc_objCreate_RmClientResource, hp, if_false, hfail, ne_eq,
        not_false_eq_true, if_true, List.count_append, hnofree]
      split_ifs <;> simp [List.count_cons]
    · simp only [__nvoc_objCreate_RmClientResource, hp, if_false, hfail, ne_eq,
        not_false_eq_true, if_true, List.filter_append]
      split_ifs <;> simp
  · intro hp hok
    have hnofree : (__nvoc_ctor_RmClientResource S).2.count (NvocEvent.portMemFree pThis)
        = 0 := by
      rw [List.count_eq_zero]
      intro hmem
      exact hctor_events _ hmem pThis rfl
    simp only [__nvoc_objCreate_RmClientResource, hp, if_false, hok, ne_eq,
      not_true_eq_false, List.count_append, hnofree]
    refine ⟨trivial, trivial, ?_⟩
    split_ifs <;> simp [List.count_cons]

/-- C30, at a concrete input: the Notifier constructor fails with the status
0x40 after the two other base classes were constructed. -/
theorem ctor_RmClientResource_unwinds_witness :
    example_ctor_status.RsClientResource = NV_OK ∧
    example_ctor_status.RmResourceCommon = NV_OK ∧
    example_ctor_status.Notifier ≠ NV_OK ∧
    __nvoc_ctor_RmClientResource example_ctor_status =
      (0x40,
       [NvocEvent.__nvoc_ctor_RsClientResource, NvocEvent.__nvoc_ctor_RmResourceCommon,
        NvocEvent.__nvoc_ctor_Notifier,
        NvocEvent.__nvoc_dtor_RmResourceCommon, NvocEvent.__nvoc_dtor_RsClientResource]) ∧
    (__nvoc_objCreate_RmClientResource example_ctor_status 0x9000 0x8000 false).1 = 0x40 ∧
    (__nvoc_objCreate_RmClientResource example_ctor_status 0x9000 0x8000 false).2.1 = none ∧
    (__nvoc_objCreate_RmClientResource example_ctor_status 0x9000 0x8000 false).2.2 =
      [NvocEvent.portMemAllocNonPaged 0x9000, NvocEvent.portMemSet 0x9000,
       NvocEvent.__nvoc_initRtti 0x9000, NvocEvent.objAddChild 0x8000 0x9000,
       NvocEvent.__nvoc_init_RmClientResource 0x9000,
       NvocEvent.__nvoc_ctor_RsClientResource, NvocEvent.__nvoc_ctor_RmResourceCommon,
       NvocEvent.__nvoc_ctor_Notifier,
       NvocEvent.__nvoc_dtor_RmResourceCommon, NvocEvent.__nvoc_dtor_RsClientResource,
       NvocEvent.portMemFree 0x9000] :=
  have h := ctor_RmClientResource_unwinds example_ctor_status 0x9000 0x8000 false
  ⟨rfl, rfl, by decide, h.2.2.1 rfl rfl (by decide),
    (h.2.2.2.2.2.2.1 (by decide) (by decide)).1,
    (h.2.2.2.2.2.2.1 (by decide) (by decide)).2.1, by decide⟩

end NvP2p
